import Mathlib

/-!
Verification development for a one-file Game Boy (DMG) emulator.

Shallow embedding of the emulator core (`emugb4k.py`): cartridge/MBC,
joypad, timer, PPU, bus (MMU), SM83 CPU and the frame driver, translated
into executable Lean definitions.  Python machine integers are modelled
as `Nat` (or `Int` where the source value can go negative), with
`& 0xFF`-style masks rendered as `% 256`-style mods (for contiguous
low-bit masks) or `&&&` (for general masks); `x & ~m` on non-negative
`x` is rendered as `andNot x m = x - (x &&& m)`, which clears exactly
the bits of `m`.  Byte stores (`bytearray`) are modelled as functions
`Nat → Nat` with pointwise update.
-/

namespace Emu

/-- Pointwise update of a byte store, modelling `arr[k] = v`. -/
def upd (f : Nat → Nat) (k v : Nat) : Nat → Nat :=
  fun x => if x = k then v else f x

/-- `x & ~m` on a non-negative Python int: clear the bits of `m` in `x`. -/
def andNot (x m : Nat) : Nat := x - (x &&& m)

-- ══════════════════════════════════════════════════════════════════════
--  JOYPAD  (class Joypad)
-- ══════════════════════════════════════════════════════════════════════

structure Joypad where
  a : Bool
  b : Bool
  sel : Bool
  start : Bool
  right : Bool
  left : Bool
  up : Bool
  down : Bool
  selBtn : Bool
  selDir : Bool

/-- `Joypad.__init__`: all buttons released, neither group selected. -/
def Joypad.init : Joypad :=
  ⟨false, false, false, false, false, false, false, false, false, false⟩

/-- `Joypad.read`: start from 0xCF, clear select/button bits per group. -/
def Joypad.read (j : Joypad) : Nat :=
  let v := 0xCF
  let v := if j.selBtn then
    let v := andNot v 0x20
    let v := if j.a then andNot v 1 else v
    let v := if j.b then andNot v 2 else v
    let v := if j.sel then andNot v 4 else v
    let v := if j.start then andNot v 8 else v
    v
  else v
  let v := if j.selDir then
    let v := andNot v 0x10
    let v := if j.right then andNot v 1 else v
    let v := if j.left then andNot v 2 else v
    let v := if j.up then andNot v 4 else v
    let v := if j.down then andNot v 8 else v
    v
  else v
  v

/-- `Joypad.write`: selector lines are set from bits 4/5, active low. -/
def Joypad.write (j : Joypad) (v : Nat) : Joypad :=
  { j with selBtn := v &&& 0x20 = 0, selDir := v &&& 0x10 = 0 }

-- ══════════════════════════════════════════════════════════════════════
--  TIMER  (class Timer)
-- ══════════════════════════════════════════════════════════════════════

structure Timer where
  div : Nat
  tima : Nat
  tma : Nat
  tac : Nat
  of : Bool
  ofD : Int

/-- `Timer.__init__`: DIV starts at 0xABCC. -/
def Timer.init : Timer := ⟨0xABCC, 0, 0, 0, false, 0⟩

/-- `Timer.BITS`: which DIV bit drives TIMA, indexed by `tac & 3`. -/
def Timer.BITS (k : Nat) : Nat :=
  if k = 0 then 9 else if k = 1 then 3 else if k = 2 then 5 else 7

/-- `Timer.step(cyc)`: advance DIV, handle the delayed overflow reload,
then increment TIMA when the tapped DIV bit at step start is 1 and at
step end is 0.  Returns (fired, timer'). -/
def Timer.step (t : Timer) (cyc : Nat) : Bool × Timer :=
  let old := t.div
  let t := { t with div := (t.div + cyc) % 65536 }
  let (fired, t) :=
    if t.of then
      let d := t.ofD - (cyc : Int)
      if d ≤ 0 then (true, { t with tima := t.tma, of := false, ofD := d })
      else (false, { t with ofD := d })
    else (false, t)
  if t.tac &&& 4 ≠ 0 then
    let bit := Timer.BITS (t.tac % 4)
    if (old / 2 ^ bit) % 2 ≠ 0 ∧ (t.div / 2 ^ bit) % 2 = 0 then
      let tima := (t.tima + 1) % 256
      if tima = 0 then (fired, { t with tima := tima, of := true, ofD := 4 })
      else (fired, { t with tima := tima })
    else (fired, t)
  else (fired, t)

/-- `Timer.read`. -/
def Timer.read (t : Timer) (a : Nat) : Nat :=
  if a = 0xFF04 then (t.div / 256) % 256
  else if a = 0xFF05 then t.tima
  else if a = 0xFF06 then t.tma
  else if a = 0xFF07 then t.tac ||| 0xF8
  else 0xFF

/-- `Timer.write`. -/
def Timer.write (t : Timer) (a v : Nat) : Timer :=
  if a = 0xFF04 then { t with div := 0 }
  else if a = 0xFF05 then { t with tima := v }
  else if a = 0xFF06 then { t with tma := v }
  else if a = 0xFF07 then { t with tac := v % 8 }
  else t

-- ══════════════════════════════════════════════════════════════════════
--  CARTRIDGE + MBC  (class Cartridge)
-- ══════════════════════════════════════════════════════════════════════

structure Cartridge where
  rom : Nat → Nat
  romLen : Nat
  ram : Nat → Nat
  mbcType : Nat
  romBank : Nat
  ramBank : Nat
  ramEnabled : Bool
  mode : Nat
  numRomBanks : Nat
  ramSize : Nat

/-- `Cartridge.__init__` on a ROM image given as bytes (function + length).
The ASCII title field is not modelled (no claim concerns it). -/
def Cartridge.init (data : Nat → Nat) (len : Nat) : Cartridge :=
  { rom := data, romLen := len, ram := fun _ => 0,
    mbcType := if 0x0147 < len then data 0x0147 else 0,
    romBank := 1, ramBank := 0, ramEnabled := false, mode := 0,
    numRomBanks := max 2 (2 <<< (if 0x0148 < len then data 0x0148 else 0)),
    ramSize :=
      (let ri := if 0x0149 < len then data 0x0149 else 0
       if ri < 6 then
         (if ri = 0 then 0 else if ri = 1 then 2048 else if ri = 2 then 8192
          else if ri = 3 then 32768 else if ri = 4 then 131072 else 65536)
       else 0) }

/-- `Cartridge.read`. -/
def Cartridge.read (c : Cartridge) (a : Nat) : Nat :=
  if a < 0x4000 then (if a < c.romLen then c.rom a else 0xFF)
  else if a < 0x8000 then
    (let bank := c.romBank &&& (c.numRomBanks - 1)
     let off := bank * 0x4000 + (a - 0x4000)
     if off < c.romLen then c.rom off else 0xFF)
  else if 0xA000 ≤ a ∧ a < 0xC000 then
    (if c.ramEnabled ∧ c.ramSize ≠ 0 then c.ram (c.ramBank * 0x2000 + (a - 0xA000)) else 0xFF)
  else 0xFF

/-- `Cartridge.write` (MBC register decode). -/
def Cartridge.write (c : Cartridge) (a v0 : Nat) : Cartridge :=
  let v := v0 % 256
  let mt := c.mbcType
  if mt = 0 then c
  else if mt = 1 ∨ mt = 2 ∨ mt = 3 ∨ mt = 0x0F ∨ mt = 0x10 ∨ mt = 0x11 ∨ mt = 0x12 ∨ mt = 0x13 then
    if a < 0x2000 then { c with ramEnabled := v % 16 = 0x0A }
    else if a < 0x4000 then
      (let lo := if mt ≤ 3 then v % 32 else v % 128
       let lo := if lo = 0 then 1 else lo
       if mt ≤ 3 then { c with romBank := (c.romBank &&& 0x60) ||| lo }
       else { c with romBank := lo })
    else if a < 0x6000 ∧ mt ≤ 3 then
      (if c.mode = 0 then { c with romBank := (c.romBank &&& 0x1F) ||| ((v % 4) <<< 5) }
       else { c with ramBank := v % 4 })
    else if a < 0x8000 ∧ mt ≤ 3 then { c with mode := v % 2 }
    else if 0xA000 ≤ a ∧ a < 0xC000 then
      (if c.ramEnabled ∧ c.ramSize ≠ 0 then
         { c with ram := upd c.ram (c.ramBank * 0x2000 + (a - 0xA000)) v }
       else c)
    else c
  else c

-- ══════════════════════════════════════════════════════════════════════
--  PPU  (class PPU)
-- ══════════════════════════════════════════════════════════════════════

structure PPU where
  vram : Nat → Nat
  oam : Nat → Nat
  lcdc : Nat
  stat : Nat
  scy : Nat
  scx : Nat
  ly : Nat
  lyc : Nat
  bgp : Nat
  obp0 : Nat
  obp1 : Nat
  wy : Nat
  wx : Nat
  mode : Nat
  cycles : Nat
  winLine : Nat
  winActive : Bool
  pixels : Nat → Nat
  frameReady : Bool

/-- `PPU.__init__` (post-boot register values; `wx` ends up 7). -/
def PPU.init : PPU :=
  { vram := fun _ => 0, oam := fun _ => 0, lcdc := 0x91, stat := 0x85,
    scy := 0, scx := 0, ly := 0, lyc := 0, bgp := 0xFC, obp0 := 0xFF, obp1 := 0xFF,
    wy := 0, wx := 7, mode := 2, cycles := 0, winLine := 0, winActive := false,
    pixels := fun _ => 0, frameReady := false }

/-- `DMG_COLORS`: the four DMG shades as RGB triples. -/
def dmgColor (s : Nat) : Nat × Nat × Nat :=
  if s = 0 then (0xE8, 0xF8, 0xD0)
  else if s = 1 then (0x88, 0xC0, 0x70)
  else if s = 2 then (0x34, 0x68, 0x56)
  else (0x08, 0x18, 0x20)

/-- `PPU._shade`: palette lookup `(pal >> (idx*2)) & 3` into the DMG table. -/
def shade (pal idx : Nat) : Nat × Nat × Nat := dmgColor ((pal >>> (idx * 2)) % 4)

/-- `PPU.read`. -/
def PPU.read (p : PPU) (a : Nat) : Nat :=
  if 0x8000 ≤ a ∧ a < 0xA000 then p.vram (a - 0x8000)
  else if 0xFE00 ≤ a ∧ a < 0xFEA0 then p.oam (a - 0xFE00)
  else
    let r := a % 256
    if r = 0x40 then p.lcdc
    else if r = 0x41 then (p.stat ||| 0x80) % 256
    else if r = 0x42 then p.scy
    else if r = 0x43 then p.scx
    else if r = 0x44 then p.ly
    else if r = 0x45 then p.lyc
    else if r = 0x47 then p.bgp
    else if r = 0x48 then p.obp0
    else if r = 0x49 then p.obp1
    else if r = 0x4A then p.wy
    else if r = 0x4B then p.wx
    else 0xFF

/-- `PPU.write`, including the LCDC-disable reset path. -/
def PPU.write (p : PPU) (a v : Nat) : PPU :=
  if 0x8000 ≤ a ∧ a < 0xA000 then { p with vram := upd p.vram (a - 0x8000) v }
  else if 0xFE00 ≤ a ∧ a < 0xFEA0 then { p with oam := upd p.oam (a - 0xFE00) v }
  else
    let r := a % 256
    if r = 0x40 then
      (let p := if v &&& 0x80 = 0 then
          { p with ly := 0, cycles := 0, mode := 0, pixels := fun _ => 0, frameReady := true }
        else p
       { p with lcdc := v })
    else if r = 0x41 then { p with stat := (p.stat &&& 0x87) ||| (v &&& 0x78) }
    else if r = 0x42 then { p with scy := v }
    else if r = 0x43 then { p with scx := v }
    else if r = 0x44 then { p with ly := 0 }
    else if r = 0x45 then { p with lyc := v }
    else if r = 0x47 then { p with bgp := v }
    else if r = 0x48 then { p with obp0 := v }
    else if r = 0x49 then { p with obp1 := v }
    else if r = 0x4A then { p with wy := v }
    else if r = 0x4B then { p with wx := v }
    else p

/-- Tile-data byte address used by `PPU._render` for background/window
fetches: `tdata + ti*16 + row*2` in unsigned mode (LCDC bit 4 set,
`tdata = 0`), and `0x0800 + signed(ti)*16 + row*2` in signed mode. -/
def bgTileAddr (lcdc ti row : Nat) : Int :=
  let tdata : Int := if lcdc &&& 0x10 ≠ 0 then 0x0000 else 0x0800
  if lcdc &&& 0x10 = 0 then
    (let tiS : Int := if ti < 128 then (ti : Int) else (ti : Int) - 256
     0x0800 + tiS * 16 + (row : Int) * 2)
  else tdata + (ti : Int) * 16 + (row : Int) * 2

/-- Body of the 160-pixel background/window loop of `PPU._render`.
The accumulator carries the PPU (for `_win_active` and the framebuffer)
and the per-line `bg_idx` array. -/
def bgBody (winYok : Bool) (tmap base : Nat) (acc : PPU × (Nat → Nat)) (px : Nat) :
    PPU × (Nat → Nat) :=
  let p := acc.1
  let bgIdx := acc.2
  let useWin : Bool :=
    winYok && decide ((p.wx : Int) - 7 ≤ (px : Int)) && (p.lcdc &&& 0x20 != 0)
  let p := if useWin then { p with winActive := true } else p
  let tirc : Nat × Nat × Nat :=
    if useWin && p.winActive then
      (let tx : Int := (px : Int) - ((p.wx : Int) - 7)
       let ty := p.winLine
       let wm := if p.lcdc &&& 0x40 ≠ 0 then 0x1C00 else 0x1800
       (p.vram (wm + ty / 8 * 32 + (tx / 8).toNat), (ty % 8, (tx % 8).toNat)))
    else
      (let sx := (p.scx + px) % 256
       let sy := (p.scy + p.ly) % 256
       (p.vram (tmap + sy / 8 * 32 + sx / 8), (sy % 8, sx % 8)))
  let ti := tirc.1
  let row := tirc.2.1
  let col := tirc.2.2
  let addr := bgTileAddr p.lcdc ti row
  if addr < 0 ∨ 0x2000 ≤ addr + 1 then (p, bgIdx)
  else
    let lo := p.vram addr.toNat
    let hi := p.vram (addr.toNat + 1)
    let bit := 7 - col
    let c := 2 * ((hi >>> bit) % 2) + (lo >>> bit) % 2
    let bgIdx := upd bgIdx px c
    let sh := shade p.bgp c
    let pix := upd (upd (upd p.pixels (base + px * 3) sh.1) (base + px * 3 + 1) sh.2.1)
      (base + px * 3 + 2) sh.2.2
    ({ p with pixels := pix }, bgIdx)

/-- Background/window pass of `PPU._render` (only when LCDC bit 0 is set),
including the end-of-line `win_line` increment gated on `win_y_ok`. -/
def renderBG (p : PPU) : PPU × (Nat → Nat) :=
  let bgIdx : Nat → Nat := fun _ => 0
  if p.lcdc &&& 1 ≠ 0 then
    let tmap := if p.lcdc &&& 8 ≠ 0 then 0x1C00 else 0x1800
    let winYok : Bool := (p.lcdc &&& 0x20 != 0) && decide (p.wy ≤ p.ly)
    let base := p.ly * 160 * 3
    let pb := (List.range 160).foldl (bgBody winYok tmap base) (p, bgIdx)
    if winYok then ({ pb.1 with winLine := pb.1.winLine + 1 }, pb.2) else pb
  else (p, bgIdx)

/-- Sprite height per LCDC bit 2. -/
def sprHeight (p : PPU) : Nat := if p.lcdc &&& 4 ≠ 0 then 16 else 8

/-- OAM scan of `PPU._render`: collect up to 10 sprites covering LY,
in OAM order (the `break` at 10 entries is the skip once full). -/
def collectSprites (p : PPU) (sh : Nat) : List (Int × Int × Nat × Nat) :=
  (List.range 40).foldl
    (fun acc i =>
      if acc.length = 10 then acc
      else
        let oy : Int := (p.oam (i * 4) : Int) - 16
        let ox : Int := (p.oam (i * 4 + 1) : Int) - 8
        let ti := p.oam (i * 4 + 2)
        let att := p.oam (i * 4 + 3)
        if oy ≤ (p.ly : Int) ∧ (p.ly : Int) < oy + (sh : Int) then acc ++ [(ox, oy, ti, att)]
        else acc)
    []

/-- Render one sprite (one element of the reversed sprite list). -/
def sprBody (bgIdx : Nat → Nat) (p : PPU) (spr : Int × Int × Nat × Nat) : PPU :=
  let ox := spr.1
  let oy := spr.2.1
  let ti := spr.2.2.1
  let att := spr.2.2.2
  let pal := if att &&& 0x10 ≠ 0 then p.obp1 else p.obp0
  let fx := att &&& 0x20 ≠ 0
  let fy := att &&& 0x40 ≠ 0
  let prio := att &&& 0x80 ≠ 0
  let sh := sprHeight p
  let row : Int := (p.ly : Int) - oy
  let row := if fy then ((sh : Int) - 1) - row else row
  let ti := if sh = 16 then ti &&& 0xFE else ti
  let addr : Int := (ti : Int) * 16 + row * 2
  if 0x2000 ≤ addr + 1 then p
  else
    let lo := p.vram addr.toNat
    let hi := p.vram (addr.toNat + 1)
    let base := p.ly * 160 * 3
    (List.range 8).foldl
      (fun (p : PPU) (px : Nat) =>
        let sx : Int := ox + (px : Int)
        if sx < 0 ∨ 160 ≤ sx then p
        else
          let bit : Nat := if fx then px else 7 - px
          let c := 2 * ((hi >>> bit) % 2) + (lo >>> bit) % 2
          if c = 0 then p
          else if prio ∧ bgIdx sx.toNat ≠ 0 then p
          else
            let shd := shade pal c
            let pix := upd (upd (upd p.pixels (base + sx.toNat * 3) shd.1)
              (base + sx.toNat * 3 + 1) shd.2.1) (base + sx.toNat * 3 + 2) shd.2.2
            { p with pixels := pix })
      p

/-- Sprite pass of `PPU._render` (only when LCDC bit 1 is set). -/
def renderSprites (p : PPU) (bgIdx : Nat → Nat) : PPU :=
  if p.lcdc &&& 2 ≠ 0 then (collectSprites p (sprHeight p)).reverse.foldl (sprBody bgIdx) p
  else p

/-- `PPU._render`: draw one scanline (no-op for LY ≥ 144). -/
def renderLine (p : PPU) : PPU :=
  if 144 ≤ p.ly then p
  else
    let pb := renderBG p
    renderSprites pb.1 pb.2

/-- `PPU.step(cyc)`: the mode state machine.  Returns (vblank-request,
stat-request, ppu'). -/
def PPU.step (p : PPU) (cyc : Nat) : Bool × Bool × PPU :=
  if p.lcdc &&& 0x80 = 0 then (false, false, p)
  else
    let p := { p with cycles := p.cycles + cyc }
    let r :=
      if p.mode = 2 then
        (if 80 ≤ p.cycles then (false, false, { p with cycles := p.cycles - 80, mode := 3 })
         else (false, false, p))
      else if p.mode = 3 then
        (if 172 ≤ p.cycles then
           (let p := { p with cycles := p.cycles - 172 }
            let p := renderLine p
            let p := { p with mode := 0 }
            (false, p.stat &&& 8 != 0, p))
         else (false, false, p))
      else if p.mode = 0 then
        (if 204 ≤ p.cycles then
           (let p := { p with cycles := p.cycles - 204, ly := p.ly + 1 }
            let st0 : Bool := (p.ly == p.lyc) && (p.stat &&& 0x40 != 0)
            if p.ly = 144 then
              (let p := { p with mode := 1, winLine := 0, winActive := false, frameReady := true }
               (true, st0 || (p.stat &&& 0x10 != 0), p))
            else
              (let p := { p with mode := 2 }
               (false, st0 || (p.stat &&& 0x20 != 0), p)))
         else (false, false, p))
      else if p.mode = 1 then
        (if 456 ≤ p.cycles then
           (let p := { p with cycles := p.cycles - 456, ly := p.ly + 1 }
            let st0 : Bool := (p.ly == p.lyc) && (p.stat &&& 0x40 != 0)
            if 153 < p.ly then
              (let p := { p with ly := 0, mode := 2 }
               (false, st0 || (p.stat &&& 0x20 != 0), p))
            else (false, st0, p))
         else (false, false, p))
      else (false, false, p)
    let p := r.2.2
    let p := { p with stat := (p.stat &&& 0xFC) ||| p.mode }
    let p := { p with stat := andNot p.stat 4 ||| (if p.ly = p.lyc then 4 else 0) }
    (r.1, r.2.1, p)

-- ══════════════════════════════════════════════════════════════════════
--  MMU  (class MMU)
-- ══════════════════════════════════════════════════════════════════════

structure MMU where
  cart : Cartridge
  ppu : PPU
  timer : Timer
  joy : Joypad
  wram : Nat → Nat
  hram : Nat → Nat
  IE : Nat
  IF : Nat
  sb : Nat
  sc : Nat

/-- `MMU.__init__`: note `IF` starts at 0xE1. -/
def MMU.init (cart : Cartridge) (ppu : PPU) (timer : Timer) (joy : Joypad) : MMU :=
  { cart := cart, ppu := ppu, timer := timer, joy := joy,
    wram := fun _ => 0, hram := fun _ => 0, IE := 0, IF := 0xE1, sb := 0, sc := 0 }

/-- `MMU.rb`: the 8-bit read decoder. -/
def MMU.rb (m : MMU) (a0 : Nat) : Nat :=
  let a := a0 % 65536
  if a < 0x8000 then m.cart.read a
  else if a < 0xA000 then m.ppu.read a
  else if a < 0xC000 then m.cart.read a
  else if a < 0xE000 then m.wram (a - 0xC000)
  else if a < 0xFE00 then m.wram (a - 0xE000)
  else if a < 0xFEA0 then m.ppu.read a
  else if a < 0xFF00 then 0xFF
  else if a = 0xFF00 then m.joy.read
  else if 0xFF01 ≤ a ∧ a ≤ 0xFF02 then (if a = 0xFF01 then m.sb else m.sc)
  else if 0xFF04 ≤ a ∧ a ≤ 0xFF07 then m.timer.read a
  else if a = 0xFF0F then m.IF ||| 0xE0
  else if 0xFF10 ≤ a ∧ a < 0xFF40 then 0xFF
  else if 0xFF40 ≤ a ∧ a ≤ 0xFF4B then m.ppu.read a
  else if 0xFF80 ≤ a ∧ a < 0xFFFF then m.hram (a - 0xFF80)
  else if a = 0xFFFF then m.IE
  else 0xFF

/-- `MMU.wb`: the 8-bit write decoder, including OAM DMA at $FF46. -/
def MMU.wb (m : MMU) (a0 v0 : Nat) : MMU :=
  let a := a0 % 65536
  let v := v0 % 256
  if a < 0x8000 then { m with cart := m.cart.write a v }
  else if a < 0xA000 then { m with ppu := m.ppu.write a v }
  else if a < 0xC000 then { m with cart := m.cart.write a v }
  else if a < 0xE000 then { m with wram := upd m.wram (a - 0xC000) v }
  else if a < 0xFE00 then { m with wram := upd m.wram (a - 0xE000) v }
  else if a < 0xFEA0 then { m with ppu := m.ppu.write a v }
  else if a < 0xFF00 then m
  else if a = 0xFF00 then { m with joy := m.joy.write v }
  else if a = 0xFF01 then { m with sb := v }
  else if a = 0xFF02 then { m with sc := v }
  else if 0xFF04 ≤ a ∧ a ≤ 0xFF07 then { m with timer := m.timer.write a v }
  else if a = 0xFF0F then { m with IF := v % 32 }
  else if a = 0xFF46 then
    (let src := v <<< 8
     (List.range 0xA0).foldl
       (fun m i => { m with ppu := { m.ppu with oam := upd m.ppu.oam i (MMU.rb m (src + i)) } })
       m)
  else if 0xFF10 ≤ a ∧ a < 0xFF40 then m
  else if 0xFF40 ≤ a ∧ a ≤ 0xFF4B then { m with ppu := m.ppu.write a v }
  else if 0xFF80 ≤ a ∧ a < 0xFFFF then { m with hram := upd m.hram (a - 0xFF80) v }
  else if a = 0xFFFF then { m with IE := v }
  else m

/-- `MMU.rw`: little-endian 16-bit read. -/
def MMU.rw (m : MMU) (a : Nat) : Nat := m.rb a ||| (m.rb ((a + 1) % 65536)) <<< 8

/-- `MMU.ww`: little-endian 16-bit write. -/
def MMU.ww (m : MMU) (a v : Nat) : MMU :=
  (m.wb a (v % 256)).wb ((a + 1) % 65536) ((v >>> 8) % 256)

-- ══════════════════════════════════════════════════════════════════════
--  CPU  (class CPU, SM83)
-- ══════════════════════════════════════════════════════════════════════

structure CPU where
  mmu : MMU
  pc : Nat
  sp : Nat
  a : Nat
  f : Nat
  b : Nat
  c : Nat
  d : Nat
  e : Nat
  h : Nat
  l : Nat
  halted : Bool
  ime : Bool
  imePending : Nat
  cycles : Nat

/-- `CPU.__init__`: post-boot DMG register file, `F = 0xB0`. -/
def CPU.init (m : MMU) : CPU :=
  { mmu := m, pc := 0x0100, sp := 0xFFFE, a := 0x01, f := 0xB0,
    b := 0x00, c := 0x13, d := 0x00, e := 0xD8, h := 0x01, l := 0x4D,
    halted := false, ime := false, imePending := 0, cycles := 0 }

/-- `CPU._zf`. -/
def CPU.zfB (s : CPU) : Bool := s.f &&& 0x80 != 0
/-- `CPU._nf`. -/
def CPU.nfB (s : CPU) : Bool := s.f &&& 0x40 != 0
/-- `CPU._hf`. -/
def CPU.hfB (s : CPU) : Bool := s.f &&& 0x20 != 0
/-- `CPU._cf`. -/
def CPU.cfB (s : CPU) : Bool := s.f &&& 0x10 != 0
/-- `int(self._cf())`. -/
def CPU.cfN (s : CPU) : Nat := if s.cfB then 1 else 0

/-- `CPU._sf`: build F from the four flags; the low nibble is always 0. -/
def sf (z n h c : Bool) : Nat :=
  (if z then 0x80 else 0) ||| (if n then 0x40 else 0) |||
  (if h then 0x20 else 0) ||| (if c then 0x10 else 0)

/-- `CPU._af` (low nibble of F masked). -/
def CPU.af (s : CPU) : Nat := (s.a <<< 8) ||| (s.f &&& 0xF0)
/-- `CPU._bc`. -/
def CPU.bc (s : CPU) : Nat := (s.b <<< 8) ||| s.c
/-- `CPU._de`. -/
def CPU.de (s : CPU) : Nat := (s.d <<< 8) ||| s.e
/-- `CPU._hl`. -/
def CPU.hl (s : CPU) : Nat := (s.h <<< 8) ||| s.l

/-- `CPU._set_af`: `v &= 0xFFF0` first, so F's low nibble stays 0. -/
def CPU.setAF (s : CPU) (v0 : Nat) : CPU :=
  let v := v0 &&& 0xFFF0
  { s with a := (v >>> 8) % 256, f := v % 256 }
/-- `CPU._set_bc`. -/
def CPU.setBC (s : CPU) (v : Nat) : CPU := { s with b := (v >>> 8) % 256, c := v % 256 }
/-- `CPU._set_de`. -/
def CPU.setDE (s : CPU) (v : Nat) : CPU := { s with d := (v >>> 8) % 256, e := v % 256 }
/-- `CPU._set_hl`. -/
def CPU.setHL (s : CPU) (v : Nat) : CPU := { s with h := (v >>> 8) % 256, l := v % 256 }

/-- `CPU._r8`: 8-bit register read, `reg = 6` reads `(HL)`. -/
def CPU.r8 (s : CPU) (reg : Nat) : Nat :=
  if reg = 0 then s.b
  else if reg = 1 then s.c
  else if reg = 2 then s.d
  else if reg = 3 then s.e
  else if reg = 4 then s.h
  else if reg = 5 then s.l
  else if reg = 6 then s.mmu.rb s.hl
  else s.a

/-- `CPU._w8`: 8-bit register write, `reg = 6` writes `(HL)`. -/
def CPU.w8 (s : CPU) (reg v0 : Nat) : CPU :=
  let v := v0 % 256
  if reg = 0 then { s with b := v }
  else if reg = 1 then { s with c := v }
  else if reg = 2 then { s with d := v }
  else if reg = 3 then { s with e := v }
  else if reg = 4 then { s with h := v }
  else if reg = 5 then { s with l := v }
  else if reg = 6 then { s with mmu := s.mmu.wb s.hl v }
  else if reg = 7 then { s with a := v }
  else s

/-- `CPU._fetch`. -/
def CPU.fetch (s : CPU) : Nat × CPU :=
  (s.mmu.rb s.pc, { s with pc := (s.pc + 1) % 65536 })

/-- `CPU._fetch16` (little endian). -/
def CPU.fetch16 (s : CPU) : Nat × CPU :=
  let (lo, s) := s.fetch
  let (hi, s) := s.fetch
  (lo ||| (hi <<< 8), s)

/-- `CPU._add` (ADD/ADC). -/
def CPU.addA (s : CPU) (v carry : Nat) : CPU :=
  let r := s.a + v + carry
  { s with
    f := sf (r % 256 == 0) false (decide (0xF < s.a % 16 + v % 16 + carry)) (decide (0xFF < r)),
    a := r % 256 }

/-- `CPU._sub` (SUB/SBC). -/
def CPU.subA (s : CPU) (v carry : Nat) : CPU :=
  let r : Int := (s.a : Int) - (v : Int) - (carry : Int)
  { s with
    f := sf (r.emod 256 == 0) true
      (decide (((s.a % 16 : Nat) : Int) - ((v % 16 : Nat) : Int) - (carry : Int) < 0))
      (decide (r < 0)),
    a := (r.emod 256).toNat }

/-- `CPU._and`. -/
def CPU.andA (s : CPU) (v : Nat) : CPU :=
  let a := s.a &&& v
  { s with a := a, f := sf (a == 0) false true false }

/-- `CPU._xor`. -/
def CPU.xorA (s : CPU) (v : Nat) : CPU :=
  let a := s.a ^^^ v
  { s with a := a, f := sf (a == 0) false false false }

/-- `CPU._or`. -/
def CPU.orA (s : CPU) (v : Nat) : CPU :=
  let a := s.a ||| v
  { s with a := a, f := sf (a == 0) false false false }

/-- `CPU._cp`. -/
def CPU.cpA (s : CPU) (v : Nat) : CPU :=
  let r : Int := (s.a : Int) - (v : Int)
  { s with
    f := sf (r.emod 256 == 0) true
      (decide (((s.a % 16 : Nat) : Int) - ((v % 16 : Nat) : Int) < 0))
      (decide (r < 0)) }

/-- `CPU._add_hl`. -/
def CPU.addHL (s : CPU) (v : Nat) : CPU :=
  let hl := s.hl
  let r := hl + v
  let s := { s with
    f := sf s.zfB false (decide (0xFFF < hl % 4096 + v % 4096)) (decide (0xFFFF < r)) }
  s.setHL (r % 65536)

/-- `CPU._inc8` (carry preserved). -/
def CPU.inc8 (s : CPU) (v : Nat) : Nat × CPU :=
  let r := (v + 1) % 256
  (r, { s with f := sf (r == 0) false (v % 16 == 15) s.cfB })

/-- `CPU._dec8` (carry preserved). -/
def CPU.dec8 (s : CPU) (v : Nat) : Nat × CPU :=
  let r := (v + 255) % 256
  (r, { s with f := sf (r == 0) true (v % 16 == 0) s.cfB })

/-- `CPU._rl`: effective semantics (the first two lines of the Python body
are dead reassignments): through-carry shifts in the old carry flag,
non-through shifts in old bit 7; new carry is old bit 7 either way. -/
def CPU.rl (s : CPU) (v : Nat) (thru : Bool) : Nat × CPU :=
  let r := if thru then ((v <<< 1) ||| (if s.cfB then 1 else 0)) % 256
           else ((v <<< 1) ||| ((v >>> 7) &&& 1)) % 256
  (r, { s with f := sf (r == 0) false false (v &&& 0x80 != 0) })

/-- `CPU._rr`: through-carry shifts in the old carry flag, non-through
shifts in old bit 0; new carry is old bit 0 either way. -/
def CPU.rr (s : CPU) (v : Nat) (thru : Bool) : Nat × CPU :=
  let c := v &&& 1
  let r := if thru then ((v >>> 1) ||| (if s.cfB then 0x80 else 0)) % 256
           else ((v >>> 1) ||| (c <<< 7)) % 256
  (r, { s with f := sf (r == 0) false false (c != 0) })

/-- `CPU._sla`. -/
def CPU.sla (s : CPU) (v : Nat) : Nat × CPU :=
  let r := (v <<< 1) % 256
  (r, { s with f := sf (r == 0) false false (v &&& 0x80 != 0) })

/-- `CPU._sra`. -/
def CPU.sra (s : CPU) (v : Nat) : Nat × CPU :=
  let r := ((v >>> 1) ||| (v &&& 0x80)) % 256
  (r, { s with f := sf (r == 0) false false (v &&& 1 != 0) })

/-- `CPU._srl`. -/
def CPU.srl (s : CPU) (v : Nat) : Nat × CPU :=
  let r := (v >>> 1) % 256
  (r, { s with f := sf (r == 0) false false (v &&& 1 != 0) })

/-- `CPU._swap`. -/
def CPU.swap (s : CPU) (v : Nat) : Nat × CPU :=
  let r := ((v % 16) <<< 4) ||| ((v >>> 4) % 16)
  (r, { s with f := sf (r == 0) false false false })

/-- `CPU._bit`. -/
def CPU.bitT (s : CPU) (n v : Nat) : CPU :=
  { s with f := sf (v &&& (1 <<< n) == 0) false true s.cfB }

/-- `CPU._set_b`. -/
def setB (n v : Nat) : Nat := v ||| (1 <<< n)
/-- `CPU._res_b`. -/
def resB (n v : Nat) : Nat := andNot v (1 <<< n)

/-- `CPU._push`. -/
def CPU.push (s : CPU) (v : Nat) : CPU :=
  let sp := (s.sp + 65534) % 65536
  { s with sp := sp, mmu := s.mmu.ww sp v }

/-- `CPU._pop`. -/
def CPU.pop (s : CPU) : Nat × CPU :=
  (s.mmu.rw s.sp, { s with sp := (s.sp + 2) % 65536 })

/-- `CPU._call`. -/
def CPU.call (s : CPU) (a : Nat) : CPU :=
  let s := s.push (s.pc % 65536)
  { s with pc := a }

/-- `CPU._ret`. -/
def CPU.ret (s : CPU) : CPU :=
  let vs := s.pop
  { vs.2 with pc := vs.1 }

/-- `CPU._jr`: signed 8-bit relative jump. -/
def CPU.jr (s : CPU) (off : Nat) : CPU :=
  { s with pc := (((s.pc : Int) + (((off ^^^ 0x80 : Nat) : Int) - 0x80)).emod 65536).toNat }

/-- `CPU._sp_add` (ADD SP,r8 / LD HL,SP+r8 core). -/
def CPU.spAdd (s : CPU) (v : Nat) : Nat × CPU :=
  let sv : Int := ((v ^^^ 0x80 : Nat) : Int) - 0x80
  let r := (((s.sp : Int) + sv).emod 65536).toNat
  (r, { s with
    f := sf false false (decide (0xF < s.sp % 16 + v % 16)) (decide (0xFF < s.sp % 256 + v % 256)) })

/-- Opcode 0x27 (DAA): BCD adjust, direction by N flag; the second
add-path condition tests the already-adjusted value. -/
def CPU.daa (s : CPU) : CPU :=
  if !s.nfB then
    let a1 : Int := if s.hfB ∨ 9 < s.a % 16 then (s.a : Int) + 6 else (s.a : Int)
    let af2 : Int × Nat := if s.cfB ∨ 0x99 < a1 then (a1 + 0x60, s.f ||| 0x10) else (a1, s.f)
    let aN := (af2.1.emod 256).toNat
    { s with a := aN, f := andNot af2.2 0xA0 ||| (if aN = 0 then 0x80 else 0) }
  else
    let a1 : Int := if s.hfB then (s.a : Int) - 6 else (s.a : Int)
    let a2 : Int := if s.cfB then a1 - 0x60 else a1
    let aN := (a2.emod 256).toNat
    { s with a := aN, f := andNot s.f 0xA0 ||| (if aN = 0 then 0x80 else 0) }

/-- `CPU._cb`: the CB-prefixed dispatch.  Both RLC (bit pattern 0) and RL
(pattern 2) call `_rl` with `thru=True`, and both RRC (1) and RR (3) call
`_rr` with `thru=True`; the "fix rotate-not-thru" block in the source has
no effect.  Returns (cycles, state). -/
def CPU.cb (s : CPU) : Nat × CPU :=
  let os := s.fetch
  let op := os.1
  let s := os.2
  let reg := op % 8
  let bit := (op >>> 3) % 8
  let grp := op >>> 6
  let v := s.r8 reg
  let c := 8 + (if reg = 6 then 4 else 0)
  if grp = 0 then
    (let rs :=
       if bit = 0 then s.rl v true
       else if bit = 1 then s.rr v true
       else if bit = 2 then s.rl v true
       else if bit = 3 then s.rr v true
       else if bit = 4 then s.sla v
       else if bit = 5 then s.sra v
       else if bit = 6 then s.swap v
       else s.srl v
     (c + 4, rs.2.w8 reg rs.1))
  else if grp = 1 then (c + 4, s.bitT bit v)
  else if grp = 2 then (c + 4, s.w8 reg (resB bit v))
  else if grp = 3 then (c + 4, s.w8 reg (setB bit v))
  else (c + 4, s)

/-- Main opcode table, row 0x00–0x0F (source lines 485–505). -/
def exec00 (op : Nat) (s : CPU) : Nat × CPU :=
  if op = 0x00 then (4, s)
  else if op = 0x01 then (let vs := s.fetch16; (12, vs.2.setBC vs.1))
  else if op = 0x02 then (8, { s with mmu := s.mmu.wb s.bc s.a })
  else if op = 0x03 then (8, s.setBC ((s.bc + 1) % 65536))
  else if op = 0x04 then (let rs := s.inc8 s.b; (4, { rs.2 with b := rs.1 }))
  else if op = 0x05 then (let rs := s.dec8 s.b; (4, { rs.2 with b := rs.1 }))
  else if op = 0x06 then (let vs := s.fetch; (8, { vs.2 with b := vs.1 }))
  else if op = 0x07 then
    (let c2 := s.a >>> 7
     (4, { s with a := ((s.a <<< 1) ||| c2) % 256, f := sf false false false (c2 != 0) }))
  else if op = 0x08 then (let vs := s.fetch16; (20, { vs.2 with mmu := vs.2.mmu.ww vs.1 vs.2.sp }))
  else if op = 0x09 then (8, s.addHL s.bc)
  else if op = 0x0A then (8, { s with a := s.mmu.rb s.bc })
  else if op = 0x0B then (8, s.setBC ((s.bc + 65535) % 65536))
  else if op = 0x0C then (let rs := s.inc8 s.c; (4, { rs.2 with c := rs.1 }))
  else if op = 0x0D then (let rs := s.dec8 s.c; (4, { rs.2 with c := rs.1 }))
  else if op = 0x0E then (let vs := s.fetch; (8, { vs.2 with c := vs.1 }))
  else if op = 0x0F then
    (let c2 := s.a &&& 1
     (4, { s with a := ((s.a >>> 1) ||| (c2 <<< 7)) % 256, f := sf false false false (c2 != 0) }))
  else (4, s)

/-- Main opcode table, row 0x10–0x1F (source lines 506–523). -/
def exec01 (op : Nat) (s : CPU) : Nat × CPU :=
  if op = 0x10 then (let vs := s.fetch; (4, vs.2))
  else if op = 0x11 then (let vs := s.fetch16; (12, vs.2.setDE vs.1))
  else if op = 0x12 then (8, { s with mmu := s.mmu.wb s.de s.a })
  else if op = 0x13 then (8, s.setDE ((s.de + 1) % 65536))
  else if op = 0x14 then (let rs := s.inc8 s.d; (4, { rs.2 with d := rs.1 }))
  else if op = 0x15 then (let rs := s.dec8 s.d; (4, { rs.2 with d := rs.1 }))
  else if op = 0x16 then (let vs := s.fetch; (8, { vs.2 with d := vs.1 }))
  else if op = 0x17 then
    (let nc := s.a >>> 7
     (4, { s with a := ((s.a <<< 1) ||| s.cfN) % 256, f := sf false false false (nc != 0) }))
  else if op = 0x18 then (let vs := s.fetch; (12, vs.2.jr vs.1))
  else if op = 0x19 then (8, s.addHL s.de)
  else if op = 0x1A then (8, { s with a := s.mmu.rb s.de })
  else if op = 0x1B then (8, s.setDE ((s.de + 65535) % 65536))
  else if op = 0x1C then (let rs := s.inc8 s.e; (4, { rs.2 with e := rs.1 }))
  else if op = 0x1D then (let rs := s.dec8 s.e; (4, { rs.2 with e := rs.1 }))
  else if op = 0x1E then (let vs := s.fetch; (8, { vs.2 with e := vs.1 }))
  else if op = 0x1F then
    (let c2 := s.a &&& 1
     (4, { s with a := ((s.a >>> 1) ||| (if s.cfB then 0x80 else 0)) % 256,
                  f := sf false false false (c2 != 0) }))
  else (4, s)

/-- Main opcode table, row 0x20–0x2F (source lines 524–541). -/
def exec02 (op : Nat) (s : CPU) : Nat × CPU :=
  if op = 0x20 then
    (let vs := s.fetch
     if !vs.2.zfB then (12, vs.2.jr vs.1) else (8, vs.2))
  else if op = 0x21 then (let vs := s.fetch16; (12, vs.2.setHL vs.1))
  else if op = 0x22 then
    (let s := { s with mmu := s.mmu.wb s.hl s.a }
     (8, s.setHL ((s.hl + 1) % 65536)))
  else if op = 0x23 then (8, s.setHL ((s.hl + 1) % 65536))
  else if op = 0x24 then (let rs := s.inc8 s.h; (4, { rs.2 with h := rs.1 }))
  else if op = 0x25 then (let rs := s.dec8 s.h; (4, { rs.2 with h := rs.1 }))
  else if op = 0x26 then (let vs := s.fetch; (8, { vs.2 with h := vs.1 }))
  else if op = 0x27 then (4, s.daa)
  else if op = 0x28 then
    (let vs := s.fetch
     if vs.2.zfB then (12, vs.2.jr vs.1) else (8, vs.2))
  else if op = 0x29 then (8, s.addHL s.hl)
  else if op = 0x2A then
    (let s := { s with a := s.mmu.rb s.hl }
     (8, s.setHL ((s.hl + 1) % 65536)))
  else if op = 0x2B then (8, s.setHL ((s.hl + 65535) % 65536))
  else if op = 0x2C then (let rs := s.inc8 s.l; (4, { rs.2 with l := rs.1 }))
  else if op = 0x2D then (let rs := s.dec8 s.l; (4, { rs.2 with l := rs.1 }))
  else if op = 0x2E then (let vs := s.fetch; (8, { vs.2 with l := vs.1 }))
  else if op = 0x2F then (4, { s with a := s.a ^^^ 0xFF, f := s.f ||| 0x60 })
  else (4, s)

/-- Main opcode table, row 0x30–0x3F (source lines 542–569). -/
def exec03 (op : Nat) (s : CPU) : Nat × CPU :=
  if op = 0x30 then
    (let vs := s.fetch
     if !vs.2.cfB then (12, vs.2.jr vs.1) else (8, vs.2))
  else if op = 0x31 then (let vs := s.fetch16; (12, { vs.2 with sp := vs.1 }))
  else if op = 0x32 then
    (let s := { s with mmu := s.mmu.wb s.hl s.a }
     (8, s.setHL ((s.hl + 65535) % 65536)))
  else if op = 0x33 then (8, { s with sp := (s.sp + 1) % 65536 })
  else if op = 0x34 then
    (let hl := s.hl
     let rs := s.inc8 (s.mmu.rb hl)
     (12, { rs.2 with mmu := rs.2.mmu.wb hl rs.1 }))
  else if op = 0x35 then
    (let hl := s.hl
     let rs := s.dec8 (s.mmu.rb hl)
     (12, { rs.2 with mmu := rs.2.mmu.wb hl rs.1 }))
  else if op = 0x36 then (let vs := s.fetch; (12, { vs.2 with mmu := vs.2.mmu.wb vs.2.hl vs.1 }))
  else if op = 0x37 then (4, { s with f := sf s.zfB false false true })
  else if op = 0x38 then
    (let vs := s.fetch
     if vs.2.cfB then (12, vs.2.jr vs.1) else (8, vs.2))
  else if op = 0x39 then (8, s.addHL s.sp)
  else if op = 0x3A then
    (let s := { s with a := s.mmu.rb s.hl }
     (8, s.setHL ((s.hl + 65535) % 65536)))
  else if op = 0x3B then (8, { s with sp := (s.sp + 65535) % 65536 })
  else if op = 0x3C then (let rs := s.inc8 s.a; (4, { rs.2 with a := rs.1 }))
  else if op = 0x3D then (let rs := s.dec8 s.a; (4, { rs.2 with a := rs.1 }))
  else if op = 0x3E then (let vs := s.fetch; (8, { vs.2 with a := vs.1 }))
  else if op = 0x3F then (4, { s with f := sf s.zfB false false (!s.cfB) })
  else (4, s)

/-- Main opcode table, rows 0x00–0x3F (source lines 485–569): the single
`elif` chain, grouped here by 16-opcode row; guards are disjoint value
tests, so the grouping preserves the chain's semantics. -/
def exec0 (op : Nat) (s : CPU) : Nat × CPU :=
  if op ≤ 0x0F then exec00 op s
  else if op ≤ 0x1F then exec01 op s
  else if op ≤ 0x2F then exec02 op s
  else if op ≤ 0x3F then exec03 op s
  else (4, s)

/-- Main opcode table, rows 0x40–0x7F: `LD r,r` and HALT (source lines 570–575). -/
def execLd (op : Nat) (s : CPU) : Nat × CPU :=
  if op = 0x76 then (4, { s with halted := true })
  else
    let dst := (op - 0x40) >>> 3
    let src := op &&& 7
    let v := s.r8 src
    let s := s.w8 dst v
    (if src = 6 ∨ dst = 6 then 8 else 4, s)

/-- Main opcode table, rows 0x80–0xBF: the ALU block (source lines 576–583). -/
def execAlu (op : Nat) (s : CPU) : Nat × CPU :=
  let c := 4 + (if op &&& 7 = 6 then 4 else 0)
  if op ≤ 0x87 then (c, s.addA (s.r8 (op &&& 7)) 0)
  else if op ≤ 0x8F then (c, s.addA (s.r8 (op &&& 7)) s.cfN)
  else if op ≤ 0x97 then (c, s.subA (s.r8 (op &&& 7)) 0)
  else if op ≤ 0x9F then (c, s.subA (s.r8 (op &&& 7)) s.cfN)
  else if op ≤ 0xA7 then (c, s.andA (s.r8 (op &&& 7)))
  else if op ≤ 0xAF then (c, s.xorA (s.r8 (op &&& 7)))
  else if op ≤ 0xB7 then (c, s.orA (s.r8 (op &&& 7)))
  else (c, s.cpA (s.r8 (op &&& 7)))

/-- Main opcode table, row 0xC0–0xCF (source lines 584–610). -/
def execHiC (op : Nat) (s : CPU) : Nat × CPU :=
  if op = 0xC0 then (if !s.zfB then (20, s.ret) else (8, s))
  else if op = 0xC1 then (let vs := s.pop; (12, vs.2.setBC vs.1))
  else if op = 0xC2 then
    (let vs := s.fetch16
     if !vs.2.zfB then (16, { vs.2 with pc := vs.1 }) else (12, vs.2))
  else if op = 0xC3 then (let vs := s.fetch16; (16, { vs.2 with pc := vs.1 }))
  else if op = 0xC4 then
    (let vs := s.fetch16
     if !vs.2.zfB then (24, vs.2.call vs.1) else (12, vs.2))
  else if op = 0xC5 then (16, s.push s.bc)
  else if op = 0xC6 then (let vs := s.fetch; (8, vs.2.addA vs.1 0))
  else if op = 0xC7 then (16, s.call 0x00)
  else if op = 0xC8 then (if s.zfB then (20, s.ret) else (8, s))
  else if op = 0xC9 then (16, s.ret)
  else if op = 0xCA then
    (let vs := s.fetch16
     if vs.2.zfB then (16, { vs.2 with pc := vs.1 }) else (12, vs.2))
  else if op = 0xCB then s.cb
  else if op = 0xCC then
    (let vs := s.fetch16
     if vs.2.zfB then (24, vs.2.call vs.1) else (12, vs.2))
  else if op = 0xCD then (let vs := s.fetch16; (24, vs.2.call vs.1))
  else if op = 0xCE then (let vs := s.fetch; (8, vs.2.addA vs.1 vs.2.cfN))
  else if op = 0xCF then (16, s.call 0x08)
  else (4, s)

/-- Main opcode table, row 0xD0–0xDF (source lines 611–627); 0xD3, 0xDB,
0xDD have no handler and fall through to the default 4-cycle case. -/
def execHiD (op : Nat) (s : CPU) : Nat × CPU :=
  if op = 0xD0 then (if !s.cfB then (20, s.ret) else (8, s))
  else if op = 0xD1 then (let vs := s.pop; (12, vs.2.setDE vs.1))
  else if op = 0xD2 then
    (let vs := s.fetch16
     if !vs.2.cfB then (16, { vs.2 with pc := vs.1 }) else (12, vs.2))
  else if op = 0xD4 then
    (let vs := s.fetch16
     if !vs.2.cfB then (24, vs.2.call vs.1) else (12, vs.2))
  else if op = 0xD5 then (16, s.push s.de)
  else if op = 0xD6 then (let vs := s.fetch; (8, vs.2.subA vs.1 0))
  else if op = 0xD7 then (16, s.call 0x10)
  else if op = 0xD8 then (if s.cfB then (20, s.ret) else (8, s))
  else if op = 0xD9 then (16, { s.ret with ime := true })
  else if op = 0xDA then
    (let vs := s.fetch16
     if vs.2.cfB then (16, { vs.2 with pc := vs.1 }) else (12, vs.2))
  else if op = 0xDC then
    (let vs := s.fetch16
     if vs.2.cfB then (24, vs.2.call vs.1) else (12, vs.2))
  else if op = 0xDE then (let vs := s.fetch; (8, vs.2.subA vs.1 vs.2.cfN))
  else if op = 0xDF then (16, s.call 0x18)
  else (4, s)

/-- Main opcode table, row 0xE0–0xEF (source lines 628–643); 0xE3, 0xE4,
0xEB, 0xEC, 0xED have no handler. -/
def execHiE (op : Nat) (s : CPU) : Nat × CPU :=
  if op = 0xE0 then (let vs := s.fetch; (12, { vs.2 with mmu := vs.2.mmu.wb (0xFF00 ||| vs.1) vs.2.a }))
  else if op = 0xE1 then (let vs := s.pop; (12, vs.2.setHL vs.1))
  else if op = 0xE2 then (8, { s with mmu := s.mmu.wb (0xFF00 ||| s.c) s.a })
  else if op = 0xE5 then (16, s.push s.hl)
  else if op = 0xE6 then (let vs := s.fetch; (8, vs.2.andA vs.1))
  else if op = 0xE7 then (16, s.call 0x20)
  else if op = 0xE8 then (let vs := s.fetch; let rs := vs.2.spAdd vs.1; (16, { rs.2 with sp := rs.1 }))
  else if op = 0xE9 then (4, { s with pc := s.hl })
  else if op = 0xEA then (let vs := s.fetch16; (16, { vs.2 with mmu := vs.2.mmu.wb vs.1 vs.2.a }))
  else if op = 0xEE then (let vs := s.fetch; (8, vs.2.xorA vs.1))
  else if op = 0xEF then (16, s.call 0x28)
  else (4, s)

/-- Main opcode table, row 0xF0–0xFF (source lines 644–662); 0xF4, 0xFC,
0xFD have no handler. -/
def execHiF (op : Nat) (s : CPU) : Nat × CPU :=
  if op = 0xF0 then (let vs := s.fetch; (12, { vs.2 with a := vs.2.mmu.rb (0xFF00 ||| vs.1) }))
  else if op = 0xF1 then (let vs := s.pop; (12, vs.2.setAF vs.1))
  else if op = 0xF2 then (8, { s with a := s.mmu.rb (0xFF00 ||| s.c) })
  else if op = 0xF3 then (4, { s with ime := false, imePending := 0 })
  else if op = 0xF5 then (16, s.push s.af)
  else if op = 0xF6 then (let vs := s.fetch; (8, vs.2.orA vs.1))
  else if op = 0xF7 then (16, s.call 0x30)
  else if op = 0xF8 then (let vs := s.fetch; let rs := vs.2.spAdd vs.1; (12, rs.2.setHL rs.1))
  else if op = 0xF9 then (8, { s with sp := s.hl })
  else if op = 0xFA then (let vs := s.fetch16; (16, { vs.2 with a := vs.2.mmu.rb vs.1 }))
  else if op = 0xFB then (4, { s with imePending := 2 })
  else if op = 0xFE then (let vs := s.fetch; (8, vs.2.cpA vs.1))
  else if op = 0xFF then (16, s.call 0x38)
  else (4, s)

/-- Main opcode table, rows 0xC0–0xFF (source lines 584–662): the single
`elif` chain, grouped here by 16-opcode row; guards are disjoint value
tests, so the grouping preserves the chain's semantics.  Opcodes with no
handler (0xD3, 0xDB, ...) fall through to the default 4-cycle case. -/
def execHi (op : Nat) (s : CPU) : Nat × CPU :=
  if op ≤ 0xCF then execHiC op s
  else if op ≤ 0xDF then execHiD op s
  else if op ≤ 0xEF then execHiE op s
  else if op ≤ 0xFF then execHiF op s
  else (4, s)

/-- Dispatch over the main opcode table: the source's single `elif` chain,
split here by opcode row (all guards are disjoint value tests). -/
def execOp (op : Nat) (s : CPU) : Nat × CPU :=
  if op ≤ 0x3F then exec0 op s
  else if op ≤ 0x7F then execLd op s
  else if op ≤ 0xBF then execAlu op s
  else execHi op s

/-- Body of the dispatch loop in `CPU.handle_interrupts`: clear bit `bit`
in IF, push PC, jump to `vec`, charge 20 T-cycles. -/
def dispatchTo (s : CPU) (bit vec : Nat) : CPU :=
  let s := { s with mmu := { s.mmu with IF := andNot s.mmu.IF (1 <<< bit) } }
  let s := s.push s.pc
  { s with pc := vec, cycles := s.cycles + 20 }

/-- `CPU.handle_interrupts`: wake from HALT on any pending interrupt;
with IME set, dispatch the lowest-numbered pending bit. -/
def CPU.handleInterrupts (s : CPU) : CPU :=
  let fired := s.mmu.IE &&& s.mmu.IF &&& 0x1F
  if fired ≠ 0 then
    let s := if s.halted then { s with halted := false } else s
    if s.ime then
      let s := { s with ime := false }
      if fired &&& 1 ≠ 0 then dispatchTo s 0 0x40
      else if fired &&& 2 ≠ 0 then dispatchTo s 1 0x48
      else if fired &&& 4 ≠ 0 then dispatchTo s 2 0x50
      else if fired &&& 8 ≠ 0 then dispatchTo s 3 0x58
      else if fired &&& 16 ≠ 0 then dispatchTo s 4 0x60
      else s
    else s
  else s

/-- `CPU.step`: EI delay bookkeeping, interrupt service, then either the
4-cycle halted path or fetch/decode/execute with the instruction cost
added to the cycle counter. -/
def CPU.step (s : CPU) : CPU :=
  let s := if 0 < s.imePending then
      (let p := s.imePending - 1
       if p = 0 then { s with imePending := p, ime := true } else { s with imePending := p })
    else s
  let s := s.handleInterrupts
  if s.halted then { s with cycles := s.cycles + 4 }
  else
    let os := s.fetch
    let cs := execOp os.1 os.2
    { cs.2 with cycles := cs.2.cycles + cs.1 }

-- ══════════════════════════════════════════════════════════════════════
--  GAMEBOY  (class GameBoy)
-- ══════════════════════════════════════════════════════════════════════

structure GameBoy where
  cpu : CPU
  totalCyc : Nat

/-- `GameBoy.load`: build a fresh system from ROM bytes. -/
def GameBoy.load (data : Nat → Nat) (len : Nat) : GameBoy :=
  let cart := Cartridge.init data len
  let mmu := MMU.init cart PPU.init Timer.init Joypad.init
  { cpu := CPU.init mmu, totalCyc := 0 }

/-- One iteration of the `run_frame` loop: step the CPU, feed the elapsed
cycles into PPU then Timer, and OR raised interrupts into IF. -/
def frameIter (g : GameBoy) : GameBoy :=
  let before := g.cpu.cycles
  let cpu := g.cpu.step
  let elapsed := cpu.cycles - before
  let total := g.totalCyc + elapsed
  let pr := cpu.mmu.ppu.step elapsed
  let tr := cpu.mmu.timer.step elapsed
  let m := { cpu.mmu with ppu := pr.2.2, timer := tr.2 }
  let m := if pr.1 then { m with IF := m.IF ||| 1 } else m
  let m := if pr.2.1 then { m with IF := m.IF ||| 2 } else m
  let m := if tr.1 then { m with IF := m.IF ||| 4 } else m
  { cpu := { cpu with mmu := m }, totalCyc := total }

/-- `CYCLES_PER_FRAME`. -/
def CYCLES_PER_FRAME : Nat := 70224

/-- The `while self.total_cyc < target` loop of `run_frame`, with explicit
fuel; since every CPU step costs at least 4 T-cycles, 17 556 iterations
always reach the target. -/
def frameLoop (target : Nat) : Nat → GameBoy → GameBoy
  | 0, g => g
  | fuel + 1, g => if g.totalCyc < target then frameLoop target fuel (frameIter g) else g

/-- `GameBoy.run_frame`. -/
def GameBoy.run_frame (g : GameBoy) : GameBoy :=
  frameLoop (g.totalCyc + CYCLES_PER_FRAME) 17556 g

-- ══════════════════════════════════════════════════════════════════════
--  A concrete frame run (used for claim C8)
-- ══════════════════════════════════════════════════════════════════════

/-- A test ROM: disable the LCD, clear IF, set IE=1, EI, then a long sled
of `LD A,(0x0106)` instructions and three NOPs; at the end it sets IF=1 so
that the final loop iteration dispatches the VBlank vector (where an
8-cycle `LD B,d8` sits) for a 20+8 = 28-cycle step. -/
def romC8 : Nat → Nat := fun a =>
  if a = 0x40 then 0x06
  else if a = 0x41 then 0x00
  else if a = 0x0100 then 0xAF
  else if a = 0x0101 then 0xE0
  else if a = 0x0102 then 0x40
  else if a = 0x0103 then 0xE0
  else if a = 0x0104 then 0x0F
  else if a = 0x0105 then 0x3E
  else if a = 0x0106 then 0x01
  else if a = 0x0107 then 0xE0
  else if a = 0x0108 then 0xFF
  else if a = 0x0109 then 0xFB
  else if 0x010A ≤ a ∧ a < 0x346A then
    (if (a - 0x010A) % 3 = 0 then 0xFA else if (a - 0x010A) % 3 = 1 then 0x06 else 0x01)
  else if a = 0x346D then 0xE0
  else if a = 0x346E then 0x0F
  else 0

/-- The loaded test system. -/
def gC8 : GameBoy := GameBoy.load romC8 0x8000

/-- The cartridge state of `gC8` (never written). -/
def cartC8 : Cartridge :=
  { rom := romC8, romLen := 0x8000, ram := fun _ => 0, mbcType := 6, romBank := 1,
    ramBank := 0, ramEnabled := false, mode := 0, numRomBanks := 4, ramSize := 0 }

/-- PPU state after the test ROM turns the LCD off. -/
def ppuOff : PPU :=
  { vram := fun _ => 0, oam := fun _ => 0, lcdc := 0, stat := 0x86, scy := 0, scx := 0,
    ly := 0, lyc := 0, bgp := 0xFC, obp0 := 0xFF, obp1 := 0xFF, wy := 0, wx := 7,
    mode := 0, cycles := 0, winLine := 0, winActive := false, pixels := fun _ => 0,
    frameReady := true }

def timerSled (div : Nat) : Timer :=
  { div := div, tima := 0, tma := 0, tac := 0, of := false, ofD := 0 }

def mmuSled (div : Nat) : MMU :=
  { cart := cartC8, ppu := ppuOff, timer := timerSled div, joy := Joypad.init,
    wram := fun _ => 0, hram := fun _ => 0, IE := 1, IF := 0, sb := 0, sc := 0 }

/-- System state during the instruction sled of the test ROM, as a function
of the program counter, total cycles, and DIV. -/
def sled (pc total div : Nat) : GameBoy :=
  { cpu := { mmu := mmuSled div, pc := pc, sp := 0xFFFE, a := 1, f := 0x80, b := 0,
             c := 0x13, d := 0, e := 0xD8, h := 1, l := 0x4D, halted := false,
             ime := true, imePending := 0, cycles := total },
    totalCyc := total }

def hramF : Nat → Nat := upd (upd (fun _ => 0) 124 111) 125 52

def mmuF (div : Nat) : MMU := { mmuSled div with hram := hramF }

/-- System state after the full test frame: the last step dispatched to
$40 (pushing PC into HRAM) and executed `LD B,d8`, for 28 cycles. -/
def gFinal : GameBoy :=
  { cpu := { mmu := mmuF 48692, pc := 66, sp := 65532, a := 1, f := 0x80, b := 0,
             c := 0x13, d := 0, e := 0xD8, h := 1, l := 0x4D, halted := false,
             ime := false, imePending := 0, cycles := 70248 },
    totalCyc := 70248 }



-- ══════════════════════════════════════════════════════════════════════
--  Concrete states and spec-modelled definitions used by the claims
-- ══════════════════════════════════════════════════════════════════════

/-- C5 scenario: direction group selected, only Right held. -/
def joyC5 : Joypad := { Joypad.init with selDir := true, right := true }

/-- C3 scenario: TAC=0x05, DIV=0. -/
def tC3 : Timer := { div := 0, tima := 0, tma := 0, tac := 5, of := false, ofD := 0 }

/-- Modelled from the spec (claim C3): number of falling edges of the given
DIV bit while the counter advances from `old` by `c` without wrapping — one
edge each time the counter crosses a multiple of `2^(bit+1)`. -/
def fallingEdgeCount (bit old c : Nat) : Nat :=
  (old + c) / 2 ^ (bit + 1) - old / 2 ^ (bit + 1)

/-- Modelled from the spec (claim C1): RLC as a non-carry left rotate:
result `((v<<1)|(v>>7)) & 0xFF`, carry flag = old bit 7. -/
def rlcSpec (v : Nat) : Nat × Bool := (((v <<< 1) ||| (v >>> 7)) % 256, v &&& 0x80 != 0)

/-- Modelled from the spec (claim C1): RRC as a non-carry right rotate:
result `((v>>1)|((v&1)<<7)) & 0xFF`, carry flag = old bit 0. -/
def rrcSpec (v : Nat) : Nat × Bool := (((v >>> 1) ||| ((v &&& 1) <<< 7)) % 256, v &&& 1 != 0)

/-- A fresh system around a 32 KiB ROM image. -/
def mkSys (rom : Nat → Nat) : CPU :=
  CPU.init (MMU.init (Cartridge.init rom 0x8000) PPU.init Timer.init Joypad.init)

def romRLC : Nat → Nat := fun a => if a = 0x0100 then 0xCB else if a = 0x0101 then 0x00 else 0
def sRLC : CPU := { mkSys romRLC with b := 0x80, f := 0 }
def romRRC : Nat → Nat := fun a => if a = 0x0100 then 0xCB else if a = 0x0101 then 0x08 else 0
def sRRC : CPU := { mkSys romRRC with b := 0x01, f := 0 }

/-- Modelled from the spec (claim C2): tile addressing with signed mode
centered at $9000, i.e. VRAM offset 0x1000. -/
def bgTileAddrSpec (lcdc ti row : Nat) : Int :=
  if lcdc &&& 0x10 ≠ 0 then (ti : Int) * 16 + (row : Int) * 2
  else 0x1000 + (if ti < 128 then (ti : Int) else (ti : Int) - 256) * 16 + (row : Int) * 2

/-- C2 scenario: signed tile mode, distinctive tile bytes at VRAM 0x0800. -/
def vramC2 : Nat → Nat := fun a => if a = 0x0800 then 0xFF else if a = 0x0801 then 0xFF else 0
def pC2 : PPU := { PPU.init with lcdc := 0x81, bgp := 0xE4, vram := vramC2 }

/-- C6 scenario: window enabled but WX=200, so no window pixel can be emitted. -/
def pC6 : PPU := { PPU.init with lcdc := 0xB1, wy := 0, ly := 0, wx := 200 }

def romNOP : Nat → Nat := fun _ => 0
/-- C4 scenario bus state: IE=1 and IF=1 (interrupt pending but masked by IME=0). -/
def mmuC4 (rom : Nat → Nat) : MMU := { (mkSys rom).mmu with IE := 1, IF := 1 }
def sC4nop : CPU := { mkSys romNOP with halted := true, ime := false, mmu := mmuC4 romNOP }
def romLdBC : Nat → Nat := fun a => if a = 0x0100 then 0x01 else 0
def sC4ld : CPU := { mkSys romLdBC with halted := true, ime := false, mmu := mmuC4 romLdBC }

/-- C7: the lowest set bit among the five interrupt bits. -/
def lowBit (n : Nat) : Nat :=
  if n &&& 1 ≠ 0 then 0 else if n &&& 2 ≠ 0 then 1 else if n &&& 4 ≠ 0 then 2
  else if n &&& 8 ≠ 0 then 3 else 4

/-- C7 witness state: IE=IF=0x03, IME set, SP in WRAM. -/
def mmuC7 : MMU := { (mkSys romNOP).mmu with IE := 3, IF := 3 }
def sC7 : CPU := { mkSys romNOP with ime := true, sp := 0xD000, pc := 0x1234, mmu := mmuC7 }


-- ══════════════════════════════════════════════════════════════════════
--  THEOREMS
-- ══════════════════════════════════════════════════════════════════════

theorem mod16_eq_and (x : Nat) : x % 16 = x &&& 15 := by
  have h := Nat.and_pow_two_sub_one_eq_mod x 4
  norm_num at h
  omega

theorem or_mod16 (x m : Nat) (h : m &&& 15 = 0) : (x ||| m) % 16 = x % 16 := by
  rw [mod16_eq_and, mod16_eq_and, Nat.and_comm (x ||| m) 15, Nat.and_or_distrib_left,
    Nat.and_comm 15 x, Nat.and_comm 15 m, h, Nat.or_zero]

theorem and_mod16 (x m : Nat) (h : m &&& 15 = 0) : (x &&& m) % 16 = 0 := by
  rw [mod16_eq_and, Nat.and_assoc, h, Nat.and_zero]

theorem andNot_mod16 (x m : Nat) (h : m &&& 15 = 0) : andNot x m % 16 = x % 16 := by
  unfold andNot
  have h1 : x &&& m ≤ x := Nat.and_le_left
  have h2 : (x &&& m) % 16 = 0 := and_mod16 x m h
  omega

theorem frameLoop_stop (t f : Nat) (g : GameBoy) (h : ¬ g.totalCyc < t) :
    frameLoop t f g = g := by
  cases f <;> simp [frameLoop, h]

theorem frameLoop_add (t a b : Nat) (g : GameBoy) :
    frameLoop t (a + b) g = frameLoop t b (frameLoop t a g) := by
  induction a generalizing g with
  | zero => simp [frameLoop]
  | succ n ih =>
    rw [show n + 1 + b = (n + b) + 1 from by omega]
    by_cases h : g.totalCyc < t
    · simp only [frameLoop, if_pos h]
      exact ih (frameIter g)
    · simp only [frameLoop, if_neg h]
      exact (frameLoop_stop t b g h).symm

set_option maxRecDepth 200000 in
theorem sledCh0 : frameLoop 70224 8 gC8 = sled 272 84 44064 := rfl
set_option maxRecDepth 200000 in
theorem sledCh1 : frameLoop 70224 250 (sled 272 84 44064) = sled 1022 4084 48064 := rfl
set_option maxRecDepth 200000 in
theorem sledCh2 : frameLoop 70224 250 (sled 1022 4084 48064) = sled 1772 8084 52064 := rfl
set_option maxRecDepth 200000 in
theorem sledCh3 : frameLoop 70224 250 (sled 1772 8084 52064) = sled 2522 12084 56064 := rfl
set_option maxRecDepth 200000 in
theorem sledCh4 : frameLoop 70224 250 (sled 2522 12084 56064) = sled 3272 16084 60064 := rfl
set_option maxRecDepth 200000 in
theorem sledCh5 : frameLoop 70224 250 (sled 3272 16084 60064) = sled 4022 20084 64064 := rfl
set_option maxRecDepth 200000 in
theorem sledCh6 : frameLoop 70224 250 (sled 4022 20084 64064) = sled 4772 24084 2528 := rfl
set_option maxRecDepth 200000 in
theorem sledCh7 : frameLoop 70224 250 (sled 4772 24084 2528) = sled 5522 28084 6528 := rfl
set_option maxRecDepth 200000 in
theorem sledCh8 : frameLoop 70224 250 (sled 5522 28084 6528) = sled 6272 32084 10528 := rfl
set_option maxRecDepth 200000 in
theorem sledCh9 : frameLoop 70224 250 (sled 6272 32084 10528) = sled 7022 36084 14528 := rfl
set_option maxRecDepth 200000 in
theorem sledCh10 : frameLoop 70224 250 (sled 7022 36084 14528) = sled 7772 40084 18528 := rfl
set_option maxRecDepth 200000 in
theorem sledCh11 : frameLoop 70224 250 (sled 7772 40084 18528) = sled 8522 44084 22528 := rfl
set_option maxRecDepth 200000 in
theorem sledCh12 : frameLoop 70224 250 (sled 8522 44084 22528) = sled 9272 48084 26528 := rfl
set_option maxRecDepth 200000 in
theorem sledCh13 : frameLoop 70224 250 (sled 9272 48084 26528) = sled 10022 52084 30528 := rfl
set_option maxRecDepth 200000 in
theorem sledCh14 : frameLoop 70224 250 (sled 10022 52084 30528) = sled 10772 56084 34528 := rfl
set_option maxRecDepth 200000 in
theorem sledCh15 : frameLoop 70224 250 (sled 10772 56084 34528) = sled 11522 60084 38528 := rfl
set_option maxRecDepth 200000 in
theorem sledCh16 : frameLoop 70224 250 (sled 11522 60084 38528) = sled 12272 64084 42528 := rfl
set_option maxRecDepth 200000 in
theorem sledCh17 : frameLoop 70224 250 (sled 12272 64084 42528) = sled 13022 68084 46528 := rfl
set_option maxRecDepth 200000 in
theorem sledChF : frameLoop 70224 137 (sled 13022 68084 46528) = gFinal := rfl

/-- Full evaluation of `run_frame` on the test ROM: the frame ends after
70 248 T-cycles because the final step costs 28 (20-cycle dispatch plus an
8-cycle instruction). -/
theorem c8run : GameBoy.run_frame gC8 = gFinal := by
  have ht : gC8.totalCyc + CYCLES_PER_FRAME = 70224 := rfl
  rw [GameBoy.run_frame, ht]
  rw [show (17556 : Nat) = 8 + 17548 from rfl, frameLoop_add, sledCh0]
  rw [show (17548 : Nat) = 250 + 17298 from rfl, frameLoop_add, sledCh1]
  rw [show (17298 : Nat) = 250 + 17048 from rfl, frameLoop_add, sledCh2]
  rw [show (17048 : Nat) = 250 + 16798 from rfl, frameLoop_add, sledCh3]
  rw [show (16798 : Nat) = 250 + 16548 from rfl, frameLoop_add, sledCh4]
  rw [show (16548 : Nat) = 250 + 16298 from rfl, frameLoop_add, sledCh5]
  rw [show (16298 : Nat) = 250 + 16048 from rfl, frameLoop_add, sledCh6]
  rw [show (16048 : Nat) = 250 + 15798 from rfl, frameLoop_add, sledCh7]
  rw [show (15798 : Nat) = 250 + 15548 from rfl, frameLoop_add, sledCh8]
  rw [show (15548 : Nat) = 250 + 15298 from rfl, frameLoop_add, sledCh9]
  rw [show (15298 : Nat) = 250 + 15048 from rfl, frameLoop_add, sledCh10]
  rw [show (15048 : Nat) = 250 + 14798 from rfl, frameLoop_add, sledCh11]
  rw [show (14798 : Nat) = 250 + 14548 from rfl, frameLoop_add, sledCh12]
  rw [show (14548 : Nat) = 250 + 14298 from rfl, frameLoop_add, sledCh13]
  rw [show (14298 : Nat) = 250 + 14048 from rfl, frameLoop_add, sledCh14]
  rw [show (14048 : Nat) = 250 + 13798 from rfl, frameLoop_add, sledCh15]
  rw [show (13798 : Nat) = 250 + 13548 from rfl, frameLoop_add, sledCh16]
  rw [show (13548 : Nat) = 250 + 13298 from rfl, frameLoop_add, sledCh17]
  rw [show (13298 : Nat) = 137 + 13161 from rfl, frameLoop_add, sledChF]
  exact frameLoop_stop _ _ _ (by decide)




-- ── Helper lemmas for the per-opcode invariants (claims C8–C10) ──────

theorem sf_mod (z n h c : Bool) : sf z n h c % 16 = 0 := by
  cases z <;> cases n <;> cases h <;> cases c <;> rfl

theorem addA_f (s : CPU) (v c : Nat) : (s.addA v c).f % 16 = 0 := sf_mod _ _ _ _
theorem subA_f (s : CPU) (v c : Nat) : (s.subA v c).f % 16 = 0 := sf_mod _ _ _ _
theorem andA_f (s : CPU) (v : Nat) : (s.andA v).f % 16 = 0 := sf_mod _ _ _ _
theorem xorA_f (s : CPU) (v : Nat) : (s.xorA v).f % 16 = 0 := sf_mod _ _ _ _
theorem orA_f (s : CPU) (v : Nat) : (s.orA v).f % 16 = 0 := sf_mod _ _ _ _
theorem cpA_f (s : CPU) (v : Nat) : (s.cpA v).f % 16 = 0 := sf_mod _ _ _ _
theorem addHL_f (s : CPU) (v : Nat) : (s.addHL v).f % 16 = 0 := sf_mod _ _ _ _
theorem inc8_f (s : CPU) (v : Nat) : (s.inc8 v).2.f % 16 = 0 := sf_mod _ _ _ _
theorem dec8_f (s : CPU) (v : Nat) : (s.dec8 v).2.f % 16 = 0 := sf_mod _ _ _ _
theorem rl_f (s : CPU) (v : Nat) (th : Bool) : (s.rl v th).2.f % 16 = 0 := sf_mod _ _ _ _
theorem rr_f (s : CPU) (v : Nat) (th : Bool) : (s.rr v th).2.f % 16 = 0 := sf_mod _ _ _ _
theorem sla_f (s : CPU) (v : Nat) : (s.sla v).2.f % 16 = 0 := sf_mod _ _ _ _
theorem sra_f (s : CPU) (v : Nat) : (s.sra v).2.f % 16 = 0 := sf_mod _ _ _ _
theorem srl_f (s : CPU) (v : Nat) : (s.srl v).2.f % 16 = 0 := sf_mod _ _ _ _
theorem swap_f (s : CPU) (v : Nat) : (s.swap v).2.f % 16 = 0 := sf_mod _ _ _ _
theorem bitT_f (s : CPU) (n v : Nat) : (s.bitT n v).f % 16 = 0 := sf_mod _ _ _ _
theorem spAdd_f (s : CPU) (v : Nat) : (s.spAdd v).2.f % 16 = 0 := sf_mod _ _ _ _

theorem setAF_f (s : CPU) (v : Nat) : (s.setAF v).f % 16 = 0 := by
  show (v &&& 0xFFF0) % 256 % 16 = 0
  rw [Nat.mod_mod_of_dvd _ (by norm_num : (16:Nat) ∣ 256)]
  exact and_mod16 v 0xFFF0 (by decide)

theorem daa_mix (x m : Nat) (hx : x % 16 = 0) (hm : m &&& 15 = 0) :
    (andNot x 0xA0 ||| m) % 16 = 0 := by
  rw [or_mod16 _ _ hm, andNot_mod16 _ _ (by decide)]
  exact hx

theorem pair_ite_2 (c : Prop) [Decidable c] (p q : Int × Nat) :
    (if c then p else q).2 = if c then p.2 else q.2 := by split <;> rfl

theorem ite_and15 (c : Prop) [Decidable c] :
    (if c then (128:Nat) else 0) &&& 15 = 0 := by split <;> decide

theorem ite_or16_mod (c : Prop) [Decidable c] (f0 : Nat) (h0 : f0 % 16 = 0) :
    (if c then f0 ||| 16 else f0) % 16 = 0 := by
  split
  · rw [or_mod16 _ _ (by decide)]; exact h0
  · exact h0

theorem daa_f (s : CPU) (h : s.f % 16 = 0) : s.daa.f % 16 = 0 := by
  unfold CPU.daa
  split
  · refine daa_mix _ _ ?_ (ite_and15 _)
    rw [pair_ite_2]
    exact ite_or16_mod _ _ h
  · exact daa_mix _ _ h (ite_and15 _)

theorem fetch_f (s : CPU) : s.fetch.2.f = s.f := rfl
theorem fetch16_f (s : CPU) : s.fetch16.2.f = s.f := rfl
theorem push_f (s : CPU) (v : Nat) : (s.push v).f = s.f := by unfold CPU.push; rfl
theorem pop_f (s : CPU) : s.pop.2.f = s.f := rfl
theorem call_f (s : CPU) (a : Nat) : (s.call a).f = s.f := by unfold CPU.call; rw [push_f]
theorem ret_f (s : CPU) : s.ret.f = s.f := rfl
theorem jr_f (s : CPU) (d : Nat) : (s.jr d).f = s.f := rfl
theorem setBC_f (s : CPU) (v : Nat) : (s.setBC v).f = s.f := rfl
theorem setDE_f (s : CPU) (v : Nat) : (s.setDE v).f = s.f := rfl
theorem setHL_f (s : CPU) (v : Nat) : (s.setHL v).f = s.f := rfl

theorem w8_f (s : CPU) (r v : Nat) : (s.w8 r v).f = s.f := by
  simp only [CPU.w8]
  repeat' split
  all_goals rfl

theorem addA_cy (s : CPU) (v c : Nat) : (s.addA v c).cycles = s.cycles := rfl
theorem subA_cy (s : CPU) (v c : Nat) : (s.subA v c).cycles = s.cycles := rfl
theorem andA_cy (s : CPU) (v : Nat) : (s.andA v).cycles = s.cycles := rfl
theorem xorA_cy (s : CPU) (v : Nat) : (s.xorA v).cycles = s.cycles := rfl
theorem orA_cy (s : CPU) (v : Nat) : (s.orA v).cycles = s.cycles := rfl
theorem cpA_cy (s : CPU) (v : Nat) : (s.cpA v).cycles = s.cycles := rfl
theorem addHL_cy (s : CPU) (v : Nat) : (s.addHL v).cycles = s.cycles := rfl
theorem inc8_cy (s : CPU) (v : Nat) : (s.inc8 v).2.cycles = s.cycles := rfl
theorem dec8_cy (s : CPU) (v : Nat) : (s.dec8 v).2.cycles = s.cycles := rfl
theorem rl_cy (s : CPU) (v : Nat) (th : Bool) : (s.rl v th).2.cycles = s.cycles := rfl
theorem rr_cy (s : CPU) (v : Nat) (th : Bool) : (s.rr v th).2.cycles = s.cycles := rfl
theorem sla_cy (s : CPU) (v : Nat) : (s.sla v).2.cycles = s.cycles := rfl
theorem sra_cy (s : CPU) (v : Nat) : (s.sra v).2.cycles = s.cycles := rfl
theorem srl_cy (s : CPU) (v : Nat) : (s.srl v).2.cycles = s.cycles := rfl
theorem swap_cy (s : CPU) (v : Nat) : (s.swap v).2.cycles = s.cycles := rfl
theorem bitT_cy (s : CPU) (n v : Nat) : (s.bitT n v).cycles = s.cycles := rfl
theorem spAdd_cy (s : CPU) (v : Nat) : (s.spAdd v).2.cycles = s.cycles := rfl
theorem setAF_cy (s : CPU) (v : Nat) : (s.setAF v).cycles = s.cycles := rfl
theorem fetch_cy (s : CPU) : s.fetch.2.cycles = s.cycles := rfl
theorem fetch16_cy (s : CPU) : s.fetch16.2.cycles = s.cycles := rfl
theorem push_cy (s : CPU) (v : Nat) : (s.push v).cycles = s.cycles := by unfold CPU.push; rfl
theorem pop_cy (s : CPU) : s.pop.2.cycles = s.cycles := rfl
theorem call_cy (s : CPU) (a : Nat) : (s.call a).cycles = s.cycles := by unfold CPU.call; rw [push_cy]
theorem ret_cy (s : CPU) : s.ret.cycles = s.cycles := rfl
theorem jr_cy (s : CPU) (d : Nat) : (s.jr d).cycles = s.cycles := rfl
theorem setBC_cy (s : CPU) (v : Nat) : (s.setBC v).cycles = s.cycles := rfl
theorem setDE_cy (s : CPU) (v : Nat) : (s.setDE v).cycles = s.cycles := rfl
theorem setHL_cy (s : CPU) (v : Nat) : (s.setHL v).cycles = s.cycles := rfl

theorem w8_cy (s : CPU) (r v : Nat) : (s.w8 r v).cycles = s.cycles := by
  simp only [CPU.w8]
  repeat' split
  all_goals rfl

theorem daa_cy (s : CPU) : s.daa.cycles = s.cycles := by
  unfold CPU.daa
  repeat' split
  all_goals rfl




set_option maxHeartbeats 4000000

-- CB-prefix helper lemmas
theorem cb_f (s : CPU) (h : s.f % 16 = 0) : s.cb.2.f % 16 = 0 := by
  unfold CPU.cb
  by_cases hg0 : s.fetch.1 >>> 6 = 0
  · rw [if_pos hg0]
    try simp only []
    rw [w8_f]
    by_cases hb0 : s.fetch.1 >>> 3 % 8 = 0
    · rw [if_pos hb0]; exact rl_f _ _ _
    rw [if_neg hb0]
    by_cases hb1 : s.fetch.1 >>> 3 % 8 = 1
    · rw [if_pos hb1]; exact rr_f _ _ _
    rw [if_neg hb1]
    by_cases hb2 : s.fetch.1 >>> 3 % 8 = 2
    · rw [if_pos hb2]; exact rl_f _ _ _
    rw [if_neg hb2]
    by_cases hb3 : s.fetch.1 >>> 3 % 8 = 3
    · rw [if_pos hb3]; exact rr_f _ _ _
    rw [if_neg hb3]
    by_cases hb4 : s.fetch.1 >>> 3 % 8 = 4
    · rw [if_pos hb4]; exact sla_f _ _
    rw [if_neg hb4]
    by_cases hb5 : s.fetch.1 >>> 3 % 8 = 5
    · rw [if_pos hb5]; exact sra_f _ _
    rw [if_neg hb5]
    by_cases hb6 : s.fetch.1 >>> 3 % 8 = 6
    · rw [if_pos hb6]; exact swap_f _ _
    rw [if_neg hb6]
    exact srl_f _ _
  rw [if_neg hg0]
  by_cases hg1 : s.fetch.1 >>> 6 = 1
  · rw [if_pos hg1]
    dsimp only
    exact bitT_f _ _ _
  rw [if_neg hg1]
  by_cases hg2 : s.fetch.1 >>> 6 = 2
  · rw [if_pos hg2]
    dsimp only
    rw [w8_f, fetch_f]
    exact h
  rw [if_neg hg2]
  by_cases hg3 : s.fetch.1 >>> 6 = 3
  · rw [if_pos hg3]
    dsimp only
    rw [w8_f, fetch_f]
    exact h
  rw [if_neg hg3]
  dsimp only
  rw [fetch_f]
  exact h

theorem cb_cy (s : CPU) : s.cb.2.cycles = s.cycles := by
  unfold CPU.cb
  by_cases hg0 : s.fetch.1 >>> 6 = 0
  · rw [if_pos hg0]
    try simp only []
    repeat' split
    all_goals try dsimp only
    all_goals try simp only [w8_cy, fetch_cy, bitT_cy, rl_cy, rr_cy, sla_cy, sra_cy, srl_cy, swap_cy]
    all_goals rfl
  rw [if_neg hg0]
  by_cases hg1 : s.fetch.1 >>> 6 = 1
  · rw [if_pos hg1]
    dsimp only
    rw [bitT_cy, fetch_cy]
  rw [if_neg hg1]
  by_cases hg2 : s.fetch.1 >>> 6 = 2
  · rw [if_pos hg2]
    dsimp only
    rw [w8_cy, fetch_cy]
  rw [if_neg hg2]
  by_cases hg3 : s.fetch.1 >>> 6 = 3
  · rw [if_pos hg3]
    dsimp only
    rw [w8_cy, fetch_cy]
  rw [if_neg hg3]
  dsimp only
  rw [fetch_cy]

theorem cb_cost (s : CPU) : 4 ≤ s.cb.1 ∧ s.cb.1 ≤ 24 := by
  unfold CPU.cb
  by_cases hg0 : s.fetch.1 >>> 6 = 0
  · rw [if_pos hg0]
    try simp only []
    repeat' split
    all_goals try dsimp only
    all_goals first | decide | (split <;> decide)
  rw [if_neg hg0]
  by_cases hg1 : s.fetch.1 >>> 6 = 1
  · rw [if_pos hg1]
    try simp only []
    repeat' split
    all_goals try dsimp only
    all_goals first | decide | (split <;> decide)
  rw [if_neg hg1]
  by_cases hg2 : s.fetch.1 >>> 6 = 2
  · rw [if_pos hg2]
    try simp only []
    repeat' split
    all_goals try dsimp only
    all_goals first | decide | (split <;> decide)
  rw [if_neg hg2]
  by_cases hg3 : s.fetch.1 >>> 6 = 3
  · rw [if_pos hg3]
    try simp only []
    repeat' split
    all_goals try dsimp only
    all_goals first | decide | (split <;> decide)
  rw [if_neg hg3]
  try simp only []
  repeat' split
  all_goals try dsimp only
  all_goals first | decide | (split <;> decide)

theorem exec00_f (op : Nat) (s : CPU) (h : s.f % 16 = 0) : (exec00 op s).2.f % 16 = 0 := by
  unfold exec00
  by_cases ha0 : op = 0x00
  · rw [if_pos ha0]
    try simp only []
    repeat' split
    all_goals try dsimp only
    all_goals try simp only [jr_f, fetch_f, fetch16_f, setBC_f, setDE_f, setHL_f, w8_f, push_f, pop_f, call_f, ret_f]
    all_goals
      first
        | exact h
        | exact sf_mod _ _ _ _
        | exact inc8_f _ _
        | exact dec8_f _ _
        | exact addHL_f _ _
        | exact daa_f _ h
        | exact addA_f _ _ _
        | exact subA_f _ _ _
        | exact andA_f _ _
        | exact xorA_f _ _
        | exact orA_f _ _
        | exact cpA_f _ _
        | exact setAF_f _ _
        | exact spAdd_f _ _
        | exact bitT_f _ _ _
        | exact rl_f _ _ _
        | exact rr_f _ _ _
        | exact sla_f _ _
        | exact sra_f _ _
        | exact srl_f _ _
        | exact swap_f _ _
        | exact cb_f _ h
        | (rw [or_mod16 _ _ (by decide)]; exact h)
  rw [if_neg ha0]
  by_cases ha1 : op = 0x01
  · rw [if_pos ha1]
    try simp only []
    repeat' split
    all_goals try dsimp only
    all_goals try simp only [jr_f, fetch_f, fetch16_f, setBC_f, setDE_f, setHL_f, w8_f, push_f, pop_f, call_f, ret_f]
    all_goals
      first
        | exact h
        | exact sf_mod _ _ _ _
        | exact inc8_f _ _
        | exact dec8_f _ _
        | exact addHL_f _ _
        | exact daa_f _ h
        | exact addA_f _ _ _
        | exact subA_f _ _ _
        | exact andA_f _ _
        | exact xorA_f _ _
        | exact orA_f _ _
        | exact cpA_f _ _
        | exact setAF_f _ _
        | exact spAdd_f _ _
        | exact bitT_f _ _ _
        | exact rl_f _ _ _
        | exact rr_f _ _ _
        | exact sla_f _ _
        | exact sra_f _ _
        | exact srl_f _ _
        | exact swap_f _ _
        | exact cb_f _ h
        | (rw [or_mod16 _ _ (by decide)]; exact h)
  rw [if_neg ha1]
  by_cases ha2 : op = 0x02
  · rw [if_pos ha2]
    try simp only []
    repeat' split
    all_goals try dsimp only
    all_goals try simp only [jr_f, fetch_f, fetch16_f, setBC_f, setDE_f, setHL_f, w8_f, push_f, pop_f, call_f, ret_f]
    all_goals
      first
        | exact h
        | exact sf_mod _ _ _ _
        | exact inc8_f _ _
        | exact dec8_f _ _
        | exact addHL_f _ _
        | exact daa_f _ h
        | exact addA_f _ _ _
        | exact subA_f _ _ _
        | exact andA_f _ _
        | exact xorA_f _ _
        | exact orA_f _ _
        | exact cpA_f _ _
        | exact setAF_f _ _
        | exact spAdd_f _ _
        | exact bitT_f _ _ _
        | exact rl_f _ _ _
        | exact rr_f _ _ _
        | exact sla_f _ _
        | exact sra_f _ _
        | exact srl_f _ _
        | exact swap_f _ _
        | exact cb_f _ h
        | (rw [or_mod16 _ _ (by decide)]; exact h)
  rw [if_neg ha2]
  by_cases ha3 : op = 0x03
  · rw [if_pos ha3]
    try simp only []
    repeat' split
    all_goals try dsimp only
    all_goals try simp only [jr_f, fetch_f, fetch16_f, setBC_f, setDE_f, setHL_f, w8_f, push_f, pop_f, call_f, ret_f]
    all_goals
      first
        | exact h
        | exact sf_mod _ _ _ _
        | exact inc8_f _ _
        | exact dec8_f _ _
        | exact addHL_f _ _
        | exact daa_f _ h
        | exact addA_f _ _ _
        | exact subA_f _ _ _
        | exact andA_f _ _
        | exact xorA_f _ _
        | exact orA_f _ _
        | exact cpA_f _ _
        | exact setAF_f _ _
        | exact spAdd_f _ _
        | exact bitT_f _ _ _
        | exact rl_f _ _ _
        | exact rr_f _ _ _
        | exact sla_f _ _
        | exact sra_f _ _
        | exact srl_f _ _
        | exact swap_f _ _
        | exact cb_f _ h
        | (rw [or_mod16 _ _ (by decide)]; exact h)
  rw [if_neg ha3]
  by_cases ha4 : op = 0x04
  · rw [if_pos ha4]
    try simp only []
    repeat' split
    all_goals try dsimp only
    all_goals try simp only [jr_f, fetch_f, fetch16_f, setBC_f, setDE_f, setHL_f, w8_f, push_f, pop_f, call_f, ret_f]
    all_goals
      first
        | exact h
        | exact sf_mod _ _ _ _
        | exact inc8_f _ _
        | exact dec8_f _ _
        | exact addHL_f _ _
        | exact daa_f _ h
        | exact addA_f _ _ _
        | exact subA_f _ _ _
        | exact andA_f _ _
        | exact xorA_f _ _
        | exact orA_f _ _
        | exact cpA_f _ _
        | exact setAF_f _ _
        | exact spAdd_f _ _
        | exact bitT_f _ _ _
        | exact rl_f _ _ _
        | exact rr_f _ _ _
        | exact sla_f _ _
        | exact sra_f _ _
        | exact srl_f _ _
        | exact swap_f _ _
        | exact cb_f _ h
        | (rw [or_mod16 _ _ (by decide)]; exact h)
  rw [if_neg ha4]
  by_cases ha5 : op = 0x05
  · rw [if_pos ha5]
    try simp only []
    repeat' split
    all_goals try dsimp only
    all_goals try simp only [jr_f, fetch_f, fetch16_f, setBC_f, setDE_f, setHL_f, w8_f, push_f, pop_f, call_f, ret_f]
    all_goals
      first
        | exact h
        | exact sf_mod _ _ _ _
        | exact inc8_f _ _
        | exact dec8_f _ _
        | exact addHL_f _ _
        | exact daa_f _ h
        | exact addA_f _ _ _
        | exact subA_f _ _ _
        | exact andA_f _ _
        | exact xorA_f _ _
        | exact orA_f _ _
        | exact cpA_f _ _
        | exact setAF_f _ _
        | exact spAdd_f _ _
        | exact bitT_f _ _ _
        | exact rl_f _ _ _
        | exact rr_f _ _ _
        | exact sla_f _ _
        | exact sra_f _ _
        | exact srl_f _ _
        | exact swap_f _ _
        | exact cb_f _ h
        | (rw [or_mod16 _ _ (by decide)]; exact h)
  rw [if_neg ha5]
  by_cases ha6 : op = 0x06
  · rw [if_pos ha6]
    try simp only []
    repeat' split
    all_goals try dsimp only
    all_goals try simp only [jr_f, fetch_f, fetch16_f, setBC_f, setDE_f, setHL_f, w8_f, push_f, pop_f, call_f, ret_f]
    all_goals
      first
        | exact h
        | exact sf_mod _ _ _ _
        | exact inc8_f _ _
        | exact dec8_f _ _
        | exact addHL_f _ _
        | exact daa_f _ h
        | exact addA_f _ _ _
        | exact subA_f _ _ _
        | exact andA_f _ _
        | exact xorA_f _ _
        | exact orA_f _ _
        | exact cpA_f _ _
        | exact setAF_f _ _
        | exact spAdd_f _ _
        | exact bitT_f _ _ _
        | exact rl_f _ _ _
        | exact rr_f _ _ _
        | exact sla_f _ _
        | exact sra_f _ _
        | exact srl_f _ _
        | exact swap_f _ _
        | exact cb_f _ h
        | (rw [or_mod16 _ _ (by decide)]; exact h)
  rw [if_neg ha6]
  by_cases ha7 : op = 0x07
  · rw [if_pos ha7]
    try simp only []
    repeat' split
    all_goals try dsimp only
    all_goals try simp only [jr_f, fetch_f, fetch16_f, setBC_f, setDE_f, setHL_f, w8_f, push_f, pop_f, call_f, ret_f]
    all_goals
      first
        | exact h
        | exact sf_mod _ _ _ _
        | exact inc8_f _ _
        | exact dec8_f _ _
        | exact addHL_f _ _
        | exact daa_f _ h
        | exact addA_f _ _ _
        | exact subA_f _ _ _
        | exact andA_f _ _
        | exact xorA_f _ _
        | exact orA_f _ _
        | exact cpA_f _ _
        | exact setAF_f _ _
        | exact spAdd_f _ _
        | exact bitT_f _ _ _
        | exact rl_f _ _ _
        | exact rr_f _ _ _
        | exact sla_f _ _
        | exact sra_f _ _
        | exact srl_f _ _
        | exact swap_f _ _
        | exact cb_f _ h
        | (rw [or_mod16 _ _ (by decide)]; exact h)
  rw [if_neg ha7]
  by_cases ha8 : op = 0x08
  · rw [if_pos ha8]
    try simp only []
    repeat' split
    all_goals try dsimp only
    all_goals try simp only [jr_f, fetch_f, fetch16_f, setBC_f, setDE_f, setHL_f, w8_f, push_f, pop_f, call_f, ret_f]
    all_goals
      first
        | exact h
        | exact sf_mod _ _ _ _
        | exact inc8_f _ _
        | exact dec8_f _ _
        | exact addHL_f _ _
        | exact daa_f _ h
        | exact addA_f _ _ _
        | exact subA_f _ _ _
        | exact andA_f _ _
        | exact xorA_f _ _
        | exact orA_f _ _
        | exact cpA_f _ _
        | exact setAF_f _ _
        | exact spAdd_f _ _
        | exact bitT_f _ _ _
        | exact rl_f _ _ _
        | exact rr_f _ _ _
        | exact sla_f _ _
        | exact sra_f _ _
        | exact srl_f _ _
        | exact swap_f _ _
        | exact cb_f _ h
        | (rw [or_mod16 _ _ (by decide)]; exact h)
  rw [if_neg ha8]
  by_cases ha9 : op = 0x09
  · rw [if_pos ha9]
    try simp only []
    repeat' split
    all_goals try dsimp only
    all_goals try simp only [jr_f, fetch_f, fetch16_f, setBC_f, setDE_f, setHL_f, w8_f, push_f, pop_f, call_f, ret_f]
    all_goals
      first
        | exact h
        | exact sf_mod _ _ _ _
        | exact inc8_f _ _
        | exact dec8_f _ _
        | exact addHL_f _ _
        | exact daa_f _ h
        | exact addA_f _ _ _
        | exact subA_f _ _ _
        | exact andA_f _ _
        | exact xorA_f _ _
        | exact orA_f _ _
        | exact cpA_f _ _
        | exact setAF_f _ _
        | exact spAdd_f _ _
        | exact bitT_f _ _ _
        | exact rl_f _ _ _
        | exact rr_f _ _ _
        | exact sla_f _ _
        | exact sra_f _ _
        | exact srl_f _ _
        | exact swap_f _ _
        | exact cb_f _ h
        | (rw [or_mod16 _ _ (by decide)]; exact h)
  rw [if_neg ha9]
  by_cases ha10 : op = 0x0A
  · rw [if_pos ha10]
    try simp only []
    repeat' split
    all_goals try dsimp only
    all_goals try simp only [jr_f, fetch_f, fetch16_f, setBC_f, setDE_f, setHL_f, w8_f, push_f, pop_f, call_f, ret_f]
    all_goals
      first
        | exact h
        | exact sf_mod _ _ _ _
        | exact inc8_f _ _
        | exact dec8_f _ _
        | exact addHL_f _ _
        | exact daa_f _ h
        | exact addA_f _ _ _
        | exact subA_f _ _ _
        | exact andA_f _ _
        | exact xorA_f _ _
        | exact orA_f _ _
        | exact cpA_f _ _
        | exact setAF_f _ _
        | exact spAdd_f _ _
        | exact bitT_f _ _ _
        | exact rl_f _ _ _
        | exact rr_f _ _ _
        | exact sla_f _ _
        | exact sra_f _ _
        | exact srl_f _ _
        | exact swap_f _ _
        | exact cb_f _ h
        | (rw [or_mod16 _ _ (by decide)]; exact h)
  rw [if_neg ha10]
  by_cases ha11 : op = 0x0B
  · rw [if_pos ha11]
    try simp only []
    repeat' split
    all_goals try dsimp only
    all_goals try simp only [jr_f, fetch_f, fetch16_f, setBC_f, setDE_f, setHL_f, w8_f, push_f, pop_f, call_f, ret_f]
    all_goals
      first
        | exact h
        | exact sf_mod _ _ _ _
        | exact inc8_f _ _
        | exact dec8_f _ _
        | exact addHL_f _ _
        | exact daa_f _ h
        | exact addA_f _ _ _
        | exact subA_f _ _ _
        | exact andA_f _ _
        | exact xorA_f _ _
        | exact orA_f _ _
        | exact cpA_f _ _
        | exact setAF_f _ _
        | exact spAdd_f _ _
        | exact bitT_f _ _ _
        | exact rl_f _ _ _
        | exact rr_f _ _ _
        | exact sla_f _ _
        | exact sra_f _ _
        | exact srl_f _ _
        | exact swap_f _ _
        | exact cb_f _ h
        | (rw [or_mod16 _ _ (by decide)]; exact h)
  rw [if_neg ha11]
  by_cases ha12 : op = 0x0C
  · rw [if_pos ha12]
    try simp only []
    repeat' split
    all_goals try dsimp only
    all_goals try simp only [jr_f, fetch_f, fetch16_f, setBC_f, setDE_f, setHL_f, w8_f, push_f, pop_f, call_f, ret_f]
    all_goals
      first
        | exact h
        | exact sf_mod _ _ _ _
        | exact inc8_f _ _
        | exact dec8_f _ _
        | exact addHL_f _ _
        | exact daa_f _ h
        | exact addA_f _ _ _
        | exact subA_f _ _ _
        | exact andA_f _ _
        | exact xorA_f _ _
        | exact orA_f _ _
        | exact cpA_f _ _
        | exact setAF_f _ _
        | exact spAdd_f _ _
        | exact bitT_f _ _ _
        | exact rl_f _ _ _
        | exact rr_f _ _ _
        | exact sla_f _ _
        | exact sra_f _ _
        | exact srl_f _ _
        | exact swap_f _ _
        | exact cb_f _ h
        | (rw [or_mod16 _ _ (by decide)]; exact h)
  rw [if_neg ha12]
  by_cases ha13 : op = 0x0D
  · rw [if_pos ha13]
    try simp only []
    repeat' split
    all_goals try dsimp only
    all_goals try simp only [jr_f, fetch_f, fetch16_f, setBC_f, setDE_f, setHL_f, w8_f, push_f, pop_f, call_f, ret_f]
    all_goals
      first
        | exact h
        | exact sf_mod _ _ _ _
        | exact inc8_f _ _
        | exact dec8_f _ _
        | exact addHL_f _ _
        | exact daa_f _ h
        | exact addA_f _ _ _
        | exact subA_f _ _ _
        | exact andA_f _ _
        | exact xorA_f _ _
        | exact orA_f _ _
        | exact cpA_f _ _
        | exact setAF_f _ _
        | exact spAdd_f _ _
        | exact bitT_f _ _ _
        | exact rl_f _ _ _
        | exact rr_f _ _ _
        | exact sla_f _ _
        | exact sra_f _ _
        | exact srl_f _ _
        | exact swap_f _ _
        | exact cb_f _ h
        | (rw [or_mod16 _ _ (by decide)]; exact h)
  rw [if_neg ha13]
  by_cases ha14 : op = 0x0E
  · rw [if_pos ha14]
    try simp only []
    repeat' split
    all_goals try dsimp only
    all_goals try simp only [jr_f, fetch_f, fetch16_f, setBC_f, setDE_f, setHL_f, w8_f, push_f, pop_f, call_f, ret_f]
    all_goals
      first
        | exact h
        | exact sf_mod _ _ _ _
        | exact inc8_f _ _
        | exact dec8_f _ _
        | exact addHL_f _ _
        | exact daa_f _ h
        | exact addA_f _ _ _
        | exact subA_f _ _ _
        | exact andA_f _ _
        | exact xorA_f _ _
        | exact orA_f _ _
        | exact cpA_f _ _
        | exact setAF_f _ _
        | exact spAdd_f _ _
        | exact bitT_f _ _ _
        | exact rl_f _ _ _
        | exact rr_f _ _ _
        | exact sla_f _ _
        | exact sra_f _ _
        | exact srl_f _ _
        | exact swap_f _ _
        | exact cb_f _ h
        | (rw [or_mod16 _ _ (by decide)]; exact h)
  rw [if_neg ha14]
  by_cases ha15 : op = 0x0F
  · rw [if_pos ha15]
    try simp only []
    repeat' split
    all_goals try dsimp only
    all_goals try simp only [jr_f, fetch_f, fetch16_f, setBC_f, setDE_f, setHL_f, w8_f, push_f, pop_f, call_f, ret_f]
    all_goals
      first
        | exact h
        | exact sf_mod _ _ _ _
        | exact inc8_f _ _
        | exact dec8_f _ _
        | exact addHL_f _ _
        | exact daa_f _ h
        | exact addA_f _ _ _
        | exact subA_f _ _ _
        | exact andA_f _ _
        | exact xorA_f _ _
        | exact orA_f _ _
        | exact cpA_f _ _
        | exact setAF_f _ _
        | exact spAdd_f _ _
        | exact bitT_f _ _ _
        | exact rl_f _ _ _
        | exact rr_f _ _ _
        | exact sla_f _ _
        | exact sra_f _ _
        | exact srl_f _ _
        | exact swap_f _ _
        | exact cb_f _ h
        | (rw [or_mod16 _ _ (by decide)]; exact h)
  rw [if_neg ha15]
  try simp only []
  repeat' split
  all_goals try dsimp only
  all_goals try simp only [jr_f, fetch_f, fetch16_f, setBC_f, setDE_f, setHL_f, w8_f, push_f, pop_f, call_f, ret_f]
  all_goals
    first
      | exact h
      | exact sf_mod _ _ _ _
      | exact inc8_f _ _
      | exact dec8_f _ _
      | exact addHL_f _ _
      | exact daa_f _ h
      | exact addA_f _ _ _
      | exact subA_f _ _ _
      | exact andA_f _ _
      | exact xorA_f _ _
      | exact orA_f _ _
      | exact cpA_f _ _
      | exact setAF_f _ _
      | exact spAdd_f _ _
      | exact bitT_f _ _ _
      | exact rl_f _ _ _
      | exact rr_f _ _ _
      | exact sla_f _ _
      | exact sra_f _ _
      | exact srl_f _ _
      | exact swap_f _ _
      | exact cb_f _ h
      | (rw [or_mod16 _ _ (by decide)]; exact h)

theorem exec00_cy (op : Nat) (s : CPU) : (exec00 op s).2.cycles = s.cycles := by
  unfold exec00
  by_cases ha0 : op = 0x00
  · rw [if_pos ha0]
    try simp only []
    repeat' split
    all_goals try dsimp only
    all_goals try simp only [jr_cy, fetch_cy, fetch16_cy, setBC_cy, setDE_cy, setHL_cy, w8_cy, push_cy, pop_cy, call_cy, ret_cy, addHL_cy, inc8_cy, dec8_cy, daa_cy, addA_cy, subA_cy, andA_cy, xorA_cy, orA_cy, cpA_cy, setAF_cy, spAdd_cy, bitT_cy, rl_cy, rr_cy, sla_cy, sra_cy, srl_cy, swap_cy]
    all_goals first | rfl | exact cb_cy _
  rw [if_neg ha0]
  by_cases ha1 : op = 0x01
  · rw [if_pos ha1]
    try simp only []
    repeat' split
    all_goals try dsimp only
    all_goals try simp only [jr_cy, fetch_cy, fetch16_cy, setBC_cy, setDE_cy, setHL_cy, w8_cy, push_cy, pop_cy, call_cy, ret_cy, addHL_cy, inc8_cy, dec8_cy, daa_cy, addA_cy, subA_cy, andA_cy, xorA_cy, orA_cy, cpA_cy, setAF_cy, spAdd_cy, bitT_cy, rl_cy, rr_cy, sla_cy, sra_cy, srl_cy, swap_cy]
    all_goals first | rfl | exact cb_cy _
  rw [if_neg ha1]
  by_cases ha2 : op = 0x02
  · rw [if_pos ha2]
    try simp only []
    repeat' split
    all_goals try dsimp only
    all_goals try simp only [jr_cy, fetch_cy, fetch16_cy, setBC_cy, setDE_cy, setHL_cy, w8_cy, push_cy, pop_cy, call_cy, ret_cy, addHL_cy, inc8_cy, dec8_cy, daa_cy, addA_cy, subA_cy, andA_cy, xorA_cy, orA_cy, cpA_cy, setAF_cy, spAdd_cy, bitT_cy, rl_cy, rr_cy, sla_cy, sra_cy, srl_cy, swap_cy]
    all_goals first | rfl | exact cb_cy _
  rw [if_neg ha2]
  by_cases ha3 : op = 0x03
  · rw [if_pos ha3]
    try simp only []
    repeat' split
    all_goals try dsimp only
    all_goals try simp only [jr_cy, fetch_cy, fetch16_cy, setBC_cy, setDE_cy, setHL_cy, w8_cy, push_cy, pop_cy, call_cy, ret_cy, addHL_cy, inc8_cy, dec8_cy, daa_cy, addA_cy, subA_cy, andA_cy, xorA_cy, orA_cy, cpA_cy, setAF_cy, spAdd_cy, bitT_cy, rl_cy, rr_cy, sla_cy, sra_cy, srl_cy, swap_cy]
    all_goals first | rfl | exact cb_cy _
  rw [if_neg ha3]
  by_cases ha4 : op = 0x04
  · rw [if_pos ha4]
    try simp only []
    repeat' split
    all_goals try dsimp only
    all_goals try simp only [jr_cy, fetch_cy, fetch16_cy, setBC_cy, setDE_cy, setHL_cy, w8_cy, push_cy, pop_cy, call_cy, ret_cy, addHL_cy, inc8_cy, dec8_cy, daa_cy, addA_cy, subA_cy, andA_cy, xorA_cy, orA_cy, cpA_cy, setAF_cy, spAdd_cy, bitT_cy, rl_cy, rr_cy, sla_cy, sra_cy, srl_cy, swap_cy]
    all_goals first | rfl | exact cb_cy _
  rw [if_neg ha4]
  by_cases ha5 : op = 0x05
  · rw [if_pos ha5]
    try simp only []
    repeat' split
    all_goals try dsimp only
    all_goals try simp only [jr_cy, fetch_cy, fetch16_cy, setBC_cy, setDE_cy, setHL_cy, w8_cy, push_cy, pop_cy, call_cy, ret_cy, addHL_cy, inc8_cy, dec8_cy, daa_cy, addA_cy, subA_cy, andA_cy, xorA_cy, orA_cy, cpA_cy, setAF_cy, spAdd_cy, bitT_cy, rl_cy, rr_cy, sla_cy, sra_cy, srl_cy, swap_cy]
    all_goals first | rfl | exact cb_cy _
  rw [if_neg ha5]
  by_cases ha6 : op = 0x06
  · rw [if_pos ha6]
    try simp only []
    repeat' split
    all_goals try dsimp only
    all_goals try simp only [jr_cy, fetch_cy, fetch16_cy, setBC_cy, setDE_cy, setHL_cy, w8_cy, push_cy, pop_cy, call_cy, ret_cy, addHL_cy, inc8_cy, dec8_cy, daa_cy, addA_cy, subA_cy, andA_cy, xorA_cy, orA_cy, cpA_cy, setAF_cy, spAdd_cy, bitT_cy, rl_cy, rr_cy, sla_cy, sra_cy, srl_cy, swap_cy]
    all_goals first | rfl | exact cb_cy _
  rw [if_neg ha6]
  by_cases ha7 : op = 0x07
  · rw [if_pos ha7]
    try simp only []
    repeat' split
    all_goals try dsimp only
    all_goals try simp only [jr_cy, fetch_cy, fetch16_cy, setBC_cy, setDE_cy, setHL_cy, w8_cy, push_cy, pop_cy, call_cy, ret_cy, addHL_cy, inc8_cy, dec8_cy, daa_cy, addA_cy, subA_cy, andA_cy, xorA_cy, orA_cy, cpA_cy, setAF_cy, spAdd_cy, bitT_cy, rl_cy, rr_cy, sla_cy, sra_cy, srl_cy, swap_cy]
    all_goals first | rfl | exact cb_cy _
  rw [if_neg ha7]
  by_cases ha8 : op = 0x08
  · rw [if_pos ha8]
    try simp only []
    repeat' split
    all_goals try dsimp only
    all_goals try simp only [jr_cy, fetch_cy, fetch16_cy, setBC_cy, setDE_cy, setHL_cy, w8_cy, push_cy, pop_cy, call_cy, ret_cy, addHL_cy, inc8_cy, dec8_cy, daa_cy, addA_cy, subA_cy, andA_cy, xorA_cy, orA_cy, cpA_cy, setAF_cy, spAdd_cy, bitT_cy, rl_cy, rr_cy, sla_cy, sra_cy, srl_cy, swap_cy]
    all_goals first | rfl | exact cb_cy _
  rw [if_neg ha8]
  by_cases ha9 : op = 0x09
  · rw [if_pos ha9]
    try simp only []
    repeat' split
    all_goals try dsimp only
    all_goals try simp only [jr_cy, fetch_cy, fetch16_cy, setBC_cy, setDE_cy, setHL_cy, w8_cy, push_cy, pop_cy, call_cy, ret_cy, addHL_cy, inc8_cy, dec8_cy, daa_cy, addA_cy, subA_cy, andA_cy, xorA_cy, orA_cy, cpA_cy, setAF_cy, spAdd_cy, bitT_cy, rl_cy, rr_cy, sla_cy, sra_cy, srl_cy, swap_cy]
    all_goals first | rfl | exact cb_cy _
  rw [if_neg ha9]
  by_cases ha10 : op = 0x0A
  · rw [if_pos ha10]
    try simp only []
    repeat' split
    all_goals try dsimp only
    all_goals try simp only [jr_cy, fetch_cy, fetch16_cy, setBC_cy, setDE_cy, setHL_cy, w8_cy, push_cy, pop_cy, call_cy, ret_cy, addHL_cy, inc8_cy, dec8_cy, daa_cy, addA_cy, subA_cy, andA_cy, xorA_cy, orA_cy, cpA_cy, setAF_cy, spAdd_cy, bitT_cy, rl_cy, rr_cy, sla_cy, sra_cy, srl_cy, swap_cy]
    all_goals first | rfl | exact cb_cy _
  rw [if_neg ha10]
  by_cases ha11 : op = 0x0B
  · rw [if_pos ha11]
    try simp only []
    repeat' split
    all_goals try dsimp only
    all_goals try simp only [jr_cy, fetch_cy, fetch16_cy, setBC_cy, setDE_cy, setHL_cy, w8_cy, push_cy, pop_cy, call_cy, ret_cy, addHL_cy, inc8_cy, dec8_cy, daa_cy, addA_cy, subA_cy, andA_cy, xorA_cy, orA_cy, cpA_cy, setAF_cy, spAdd_cy, bitT_cy, rl_cy, rr_cy, sla_cy, sra_cy, srl_cy, swap_cy]
    all_goals first | rfl | exact cb_cy _
  rw [if_neg ha11]
  by_cases ha12 : op = 0x0C
  · rw [if_pos ha12]
    try simp only []
    repeat' split
    all_goals try dsimp only
    all_goals try simp only [jr_cy, fetch_cy, fetch16_cy, setBC_cy, setDE_cy, setHL_cy, w8_cy, push_cy, pop_cy, call_cy, ret_cy, addHL_cy, inc8_cy, dec8_cy, daa_cy, addA_cy, subA_cy, andA_cy, xorA_cy, orA_cy, cpA_cy, setAF_cy, spAdd_cy, bitT_cy, rl_cy, rr_cy, sla_cy, sra_cy, srl_cy, swap_cy]
    all_goals first | rfl | exact cb_cy _
  rw [if_neg ha12]
  by_cases ha13 : op = 0x0D
  · rw [if_pos ha13]
    try simp only []
    repeat' split
    all_goals try dsimp only
    all_goals try simp only [jr_cy, fetch_cy, fetch16_cy, setBC_cy, setDE_cy, setHL_cy, w8_cy, push_cy, pop_cy, call_cy, ret_cy, addHL_cy, inc8_cy, dec8_cy, daa_cy, addA_cy, subA_cy, andA_cy, xorA_cy, orA_cy, cpA_cy, setAF_cy, spAdd_cy, bitT_cy, rl_cy, rr_cy, sla_cy, sra_cy, srl_cy, swap_cy]
    all_goals first | rfl | exact cb_cy _
  rw [if_neg ha13]
  by_cases ha14 : op = 0x0E
  · rw [if_pos ha14]
    try simp only []
    repeat' split
    all_goals try dsimp only
    all_goals try simp only [jr_cy, fetch_cy, fetch16_cy, setBC_cy, setDE_cy, setHL_cy, w8_cy, push_cy, pop_cy, call_cy, ret_cy, addHL_cy, inc8_cy, dec8_cy, daa_cy, addA_cy, subA_cy, andA_cy, xorA_cy, orA_cy, cpA_cy, setAF_cy, spAdd_cy, bitT_cy, rl_cy, rr_cy, sla_cy, sra_cy, srl_cy, swap_cy]
    all_goals first | rfl | exact cb_cy _
  rw [if_neg ha14]
  by_cases ha15 : op = 0x0F
  · rw [if_pos ha15]
    try simp only []
    repeat' split
    all_goals try dsimp only
    all_goals try simp only [jr_cy, fetch_cy, fetch16_cy, setBC_cy, setDE_cy, setHL_cy, w8_cy, push_cy, pop_cy, call_cy, ret_cy, addHL_cy, inc8_cy, dec8_cy, daa_cy, addA_cy, subA_cy, andA_cy, xorA_cy, orA_cy, cpA_cy, setAF_cy, spAdd_cy, bitT_cy, rl_cy, rr_cy, sla_cy, sra_cy, srl_cy, swap_cy]
    all_goals first | rfl | exact cb_cy _
  rw [if_neg ha15]
  try simp only []
  repeat' split
  all_goals try dsimp only
  all_goals try simp only [jr_cy, fetch_cy, fetch16_cy, setBC_cy, setDE_cy, setHL_cy, w8_cy, push_cy, pop_cy, call_cy, ret_cy, addHL_cy, inc8_cy, dec8_cy, daa_cy, addA_cy, subA_cy, andA_cy, xorA_cy, orA_cy, cpA_cy, setAF_cy, spAdd_cy, bitT_cy, rl_cy, rr_cy, sla_cy, sra_cy, srl_cy, swap_cy]
  all_goals first | rfl | exact cb_cy _

theorem exec00_cost (op : Nat) (s : CPU) : 4 ≤ (exec00 op s).1 ∧ (exec00 op s).1 ≤ 24 := by
  unfold exec00
  by_cases ha0 : op = 0x00
  · rw [if_pos ha0]
    try simp only []
    repeat' split
    all_goals try dsimp only
    all_goals first | decide | (split <;> decide) | exact cb_cost _
  rw [if_neg ha0]
  by_cases ha1 : op = 0x01
  · rw [if_pos ha1]
    try simp only []
    repeat' split
    all_goals try dsimp only
    all_goals first | decide | (split <;> decide) | exact cb_cost _
  rw [if_neg ha1]
  by_cases ha2 : op = 0x02
  · rw [if_pos ha2]
    try simp only []
    repeat' split
    all_goals try dsimp only
    all_goals first | decide | (split <;> decide) | exact cb_cost _
  rw [if_neg ha2]
  by_cases ha3 : op = 0x03
  · rw [if_pos ha3]
    try simp only []
    repeat' split
    all_goals try dsimp only
    all_goals first | decide | (split <;> decide) | exact cb_cost _
  rw [if_neg ha3]
  by_cases ha4 : op = 0x04
  · rw [if_pos ha4]
    try simp only []
    repeat' split
    all_goals try dsimp only
    all_goals first | decide | (split <;> decide) | exact cb_cost _
  rw [if_neg ha4]
  by_cases ha5 : op = 0x05
  · rw [if_pos ha5]
    try simp only []
    repeat' split
    all_goals try dsimp only
    all_goals first | decide | (split <;> decide) | exact cb_cost _
  rw [if_neg ha5]
  by_cases ha6 : op = 0x06
  · rw [if_pos ha6]
    try simp only []
    repeat' split
    all_goals try dsimp only
    all_goals first | decide | (split <;> decide) | exact cb_cost _
  rw [if_neg ha6]
  by_cases ha7 : op = 0x07
  · rw [if_pos ha7]
    try simp only []
    repeat' split
    all_goals try dsimp only
    all_goals first | decide | (split <;> decide) | exact cb_cost _
  rw [if_neg ha7]
  by_cases ha8 : op = 0x08
  · rw [if_pos ha8]
    try simp only []
    repeat' split
    all_goals try dsimp only
    all_goals first | decide | (split <;> decide) | exact cb_cost _
  rw [if_neg ha8]
  by_cases ha9 : op = 0x09
  · rw [if_pos ha9]
    try simp only []
    repeat' split
    all_goals try dsimp only
    all_goals first | decide | (split <;> decide) | exact cb_cost _
  rw [if_neg ha9]
  by_cases ha10 : op = 0x0A
  · rw [if_pos ha10]
    try simp only []
    repeat' split
    all_goals try dsimp only
    all_goals first | decide | (split <;> decide) | exact cb_cost _
  rw [if_neg ha10]
  by_cases ha11 : op = 0x0B
  · rw [if_pos ha11]
    try simp only []
    repeat' split
    all_goals try dsimp only
    all_goals first | decide | (split <;> decide) | exact cb_cost _
  rw [if_neg ha11]
  by_cases ha12 : op = 0x0C
  · rw [if_pos ha12]
    try simp only []
    repeat' split
    all_goals try dsimp only
    all_goals first | decide | (split <;> decide) | exact cb_cost _
  rw [if_neg ha12]
  by_cases ha13 : op = 0x0D
  · rw [if_pos ha13]
    try simp only []
    repeat' split
    all_goals try dsimp only
    all_goals first | decide | (split <;> decide) | exact cb_cost _
  rw [if_neg ha13]
  by_cases ha14 : op = 0x0E
  · rw [if_pos ha14]
    try simp only []
    repeat' split
    all_goals try dsimp only
    all_goals first | decide | (split <;> decide) | exact cb_cost _
  rw [if_neg ha14]
  by_cases ha15 : op = 0x0F
  · rw [if_pos ha15]
    try simp only []
    repeat' split
    all_goals try dsimp only
    all_goals first | decide | (split <;> decide) | exact cb_cost _
  rw [if_neg ha15]
  try simp only []
  repeat' split
  all_goals try dsimp only
  all_goals first | decide | (split <;> decide) | exact cb_cost _

theorem exec01_f (op : Nat) (s : CPU) (h : s.f % 16 = 0) : (exec01 op s).2.f % 16 = 0 := by
  unfold exec01
  by_cases ha0 : op = 0x10
  · rw [if_pos ha0]
    try simp only []
    repeat' split
    all_goals try dsimp only
    all_goals try simp only [jr_f, fetch_f, fetch16_f, setBC_f, setDE_f, setHL_f, w8_f, push_f, pop_f, call_f, ret_f]
    all_goals
      first
        | exact h
        | exact sf_mod _ _ _ _
        | exact inc8_f _ _
        | exact dec8_f _ _
        | exact addHL_f _ _
        | exact daa_f _ h
        | exact addA_f _ _ _
        | exact subA_f _ _ _
        | exact andA_f _ _
        | exact xorA_f _ _
        | exact orA_f _ _
        | exact cpA_f _ _
        | exact setAF_f _ _
        | exact spAdd_f _ _
        | exact bitT_f _ _ _
        | exact rl_f _ _ _
        | exact rr_f _ _ _
        | exact sla_f _ _
        | exact sra_f _ _
        | exact srl_f _ _
        | exact swap_f _ _
        | exact cb_f _ h
        | (rw [or_mod16 _ _ (by decide)]; exact h)
  rw [if_neg ha0]
  by_cases ha1 : op = 0x11
  · rw [if_pos ha1]
    try simp only []
    repeat' split
    all_goals try dsimp only
    all_goals try simp only [jr_f, fetch_f, fetch16_f, setBC_f, setDE_f, setHL_f, w8_f, push_f, pop_f, call_f, ret_f]
    all_goals
      first
        | exact h
        | exact sf_mod _ _ _ _
        | exact inc8_f _ _
        | exact dec8_f _ _
        | exact addHL_f _ _
        | exact daa_f _ h
        | exact addA_f _ _ _
        | exact subA_f _ _ _
        | exact andA_f _ _
        | exact xorA_f _ _
        | exact orA_f _ _
        | exact cpA_f _ _
        | exact setAF_f _ _
        | exact spAdd_f _ _
        | exact bitT_f _ _ _
        | exact rl_f _ _ _
        | exact rr_f _ _ _
        | exact sla_f _ _
        | exact sra_f _ _
        | exact srl_f _ _
        | exact swap_f _ _
        | exact cb_f _ h
        | (rw [or_mod16 _ _ (by decide)]; exact h)
  rw [if_neg ha1]
  by_cases ha2 : op = 0x12
  · rw [if_pos ha2]
    try simp only []
    repeat' split
    all_goals try dsimp only
    all_goals try simp only [jr_f, fetch_f, fetch16_f, setBC_f, setDE_f, setHL_f, w8_f, push_f, pop_f, call_f, ret_f]
    all_goals
      first
        | exact h
        | exact sf_mod _ _ _ _
        | exact inc8_f _ _
        | exact dec8_f _ _
        | exact addHL_f _ _
        | exact daa_f _ h
        | exact addA_f _ _ _
        | exact subA_f _ _ _
        | exact andA_f _ _
        | exact xorA_f _ _
        | exact orA_f _ _
        | exact cpA_f _ _
        | exact setAF_f _ _
        | exact spAdd_f _ _
        | exact bitT_f _ _ _
        | exact rl_f _ _ _
        | exact rr_f _ _ _
        | exact sla_f _ _
        | exact sra_f _ _
        | exact srl_f _ _
        | exact swap_f _ _
        | exact cb_f _ h
        | (rw [or_mod16 _ _ (by decide)]; exact h)
  rw [if_neg ha2]
  by_cases ha3 : op = 0x13
  · rw [if_pos ha3]
    try simp only []
    repeat' split
    all_goals try dsimp only
    all_goals try simp only [jr_f, fetch_f, fetch16_f, setBC_f, setDE_f, setHL_f, w8_f, push_f, pop_f, call_f, ret_f]
    all_goals
      first
        | exact h
        | exact sf_mod _ _ _ _
        | exact inc8_f _ _
        | exact dec8_f _ _
        | exact addHL_f _ _
        | exact daa_f _ h
        | exact addA_f _ _ _
        | exact subA_f _ _ _
        | exact andA_f _ _
        | exact xorA_f _ _
        | exact orA_f _ _
        | exact cpA_f _ _
        | exact setAF_f _ _
        | exact spAdd_f _ _
        | exact bitT_f _ _ _
        | exact rl_f _ _ _
        | exact rr_f _ _ _
        | exact sla_f _ _
        | exact sra_f _ _
        | exact srl_f _ _
        | exact swap_f _ _
        | exact cb_f _ h
        | (rw [or_mod16 _ _ (by decide)]; exact h)
  rw [if_neg ha3]
  by_cases ha4 : op = 0x14
  · rw [if_pos ha4]
    try simp only []
    repeat' split
    all_goals try dsimp only
    all_goals try simp only [jr_f, fetch_f, fetch16_f, setBC_f, setDE_f, setHL_f, w8_f, push_f, pop_f, call_f, ret_f]
    all_goals
      first
        | exact h
        | exact sf_mod _ _ _ _
        | exact inc8_f _ _
        | exact dec8_f _ _
        | exact addHL_f _ _
        | exact daa_f _ h
        | exact addA_f _ _ _
        | exact subA_f _ _ _
        | exact andA_f _ _
        | exact xorA_f _ _
        | exact orA_f _ _
        | exact cpA_f _ _
        | exact setAF_f _ _
        | exact spAdd_f _ _
        | exact bitT_f _ _ _
        | exact rl_f _ _ _
        | exact rr_f _ _ _
        | exact sla_f _ _
        | exact sra_f _ _
        | exact srl_f _ _
        | exact swap_f _ _
        | exact cb_f _ h
        | (rw [or_mod16 _ _ (by decide)]; exact h)
  rw [if_neg ha4]
  by_cases ha5 : op = 0x15
  · rw [if_pos ha5]
    try simp only []
    repeat' split
    all_goals try dsimp only
    all_goals try simp only [jr_f, fetch_f, fetch16_f, setBC_f, setDE_f, setHL_f, w8_f, push_f, pop_f, call_f, ret_f]
    all_goals
      first
        | exact h
        | exact sf_mod _ _ _ _
        | exact inc8_f _ _
        | exact dec8_f _ _
        | exact addHL_f _ _
        | exact daa_f _ h
        | exact addA_f _ _ _
        | exact subA_f _ _ _
        | exact andA_f _ _
        | exact xorA_f _ _
        | exact orA_f _ _
        | exact cpA_f _ _
        | exact setAF_f _ _
        | exact spAdd_f _ _
        | exact bitT_f _ _ _
        | exact rl_f _ _ _
        | exact rr_f _ _ _
        | exact sla_f _ _
        | exact sra_f _ _
        | exact srl_f _ _
        | exact swap_f _ _
        | exact cb_f _ h
        | (rw [or_mod16 _ _ (by decide)]; exact h)
  rw [if_neg ha5]
  by_cases ha6 : op = 0x16
  · rw [if_pos ha6]
    try simp only []
    repeat' split
    all_goals try dsimp only
    all_goals try simp only [jr_f, fetch_f, fetch16_f, setBC_f, setDE_f, setHL_f, w8_f, push_f, pop_f, call_f, ret_f]
    all_goals
      first
        | exact h
        | exact sf_mod _ _ _ _
        | exact inc8_f _ _
        | exact dec8_f _ _
        | exact addHL_f _ _
        | exact daa_f _ h
        | exact addA_f _ _ _
        | exact subA_f _ _ _
        | exact andA_f _ _
        | exact xorA_f _ _
        | exact orA_f _ _
        | exact cpA_f _ _
        | exact setAF_f _ _
        | exact spAdd_f _ _
        | exact bitT_f _ _ _
        | exact rl_f _ _ _
        | exact rr_f _ _ _
        | exact sla_f _ _
        | exact sra_f _ _
        | exact srl_f _ _
        | exact swap_f _ _
        | exact cb_f _ h
        | (rw [or_mod16 _ _ (by decide)]; exact h)
  rw [if_neg ha6]
  by_cases ha7 : op = 0x17
  · rw [if_pos ha7]
    try simp only []
    repeat' split
    all_goals try dsimp only
    all_goals try simp only [jr_f, fetch_f, fetch16_f, setBC_f, setDE_f, setHL_f, w8_f, push_f, pop_f, call_f, ret_f]
    all_goals
      first
        | exact h
        | exact sf_mod _ _ _ _
        | exact inc8_f _ _
        | exact dec8_f _ _
        | exact addHL_f _ _
        | exact daa_f _ h
        | exact addA_f _ _ _
        | exact subA_f _ _ _
        | exact andA_f _ _
        | exact xorA_f _ _
        | exact orA_f _ _
        | exact cpA_f _ _
        | exact setAF_f _ _
        | exact spAdd_f _ _
        | exact bitT_f _ _ _
        | exact rl_f _ _ _
        | exact rr_f _ _ _
        | exact sla_f _ _
        | exact sra_f _ _
        | exact srl_f _ _
        | exact swap_f _ _
        | exact cb_f _ h
        | (rw [or_mod16 _ _ (by decide)]; exact h)
  rw [if_neg ha7]
  by_cases ha8 : op = 0x18
  · rw [if_pos ha8]
    try simp only []
    repeat' split
    all_goals try dsimp only
    all_goals try simp only [jr_f, fetch_f, fetch16_f, setBC_f, setDE_f, setHL_f, w8_f, push_f, pop_f, call_f, ret_f]
    all_goals
      first
        | exact h
        | exact sf_mod _ _ _ _
        | exact inc8_f _ _
        | exact dec8_f _ _
        | exact addHL_f _ _
        | exact daa_f _ h
        | exact addA_f _ _ _
        | exact subA_f _ _ _
        | exact andA_f _ _
        | exact xorA_f _ _
        | exact orA_f _ _
        | exact cpA_f _ _
        | exact setAF_f _ _
        | exact spAdd_f _ _
        | exact bitT_f _ _ _
        | exact rl_f _ _ _
        | exact rr_f _ _ _
        | exact sla_f _ _
        | exact sra_f _ _
        | exact srl_f _ _
        | exact swap_f _ _
        | exact cb_f _ h
        | (rw [or_mod16 _ _ (by decide)]; exact h)
  rw [if_neg ha8]
  by_cases ha9 : op = 0x19
  · rw [if_pos ha9]
    try simp only []
    repeat' split
    all_goals try dsimp only
    all_goals try simp only [jr_f, fetch_f, fetch16_f, setBC_f, setDE_f, setHL_f, w8_f, push_f, pop_f, call_f, ret_f]
    all_goals
      first
        | exact h
        | exact sf_mod _ _ _ _
        | exact inc8_f _ _
        | exact dec8_f _ _
        | exact addHL_f _ _
        | exact daa_f _ h
        | exact addA_f _ _ _
        | exact subA_f _ _ _
        | exact andA_f _ _
        | exact xorA_f _ _
        | exact orA_f _ _
        | exact cpA_f _ _
        | exact setAF_f _ _
        | exact spAdd_f _ _
        | exact bitT_f _ _ _
        | exact rl_f _ _ _
        | exact rr_f _ _ _
        | exact sla_f _ _
        | exact sra_f _ _
        | exact srl_f _ _
        | exact swap_f _ _
        | exact cb_f _ h
        | (rw [or_mod16 _ _ (by decide)]; exact h)
  rw [if_neg ha9]
  by_cases ha10 : op = 0x1A
  · rw [if_pos ha10]
    try simp only []
    repeat' split
    all_goals try dsimp only
    all_goals try simp only [jr_f, fetch_f, fetch16_f, setBC_f, setDE_f, setHL_f, w8_f, push_f, pop_f, call_f, ret_f]
    all_goals
      first
        | exact h
        | exact sf_mod _ _ _ _
        | exact inc8_f _ _
        | exact dec8_f _ _
        | exact addHL_f _ _
        | exact daa_f _ h
        | exact addA_f _ _ _
        | exact subA_f _ _ _
        | exact andA_f _ _
        | exact xorA_f _ _
        | exact orA_f _ _
        | exact cpA_f _ _
        | exact setAF_f _ _
        | exact spAdd_f _ _
        | exact bitT_f _ _ _
        | exact rl_f _ _ _
        | exact rr_f _ _ _
        | exact sla_f _ _
        | exact sra_f _ _
        | exact srl_f _ _
        | exact swap_f _ _
        | exact cb_f _ h
        | (rw [or_mod16 _ _ (by decide)]; exact h)
  rw [if_neg ha10]
  by_cases ha11 : op = 0x1B
  · rw [if_pos ha11]
    try simp only []
    repeat' split
    all_goals try dsimp only
    all_goals try simp only [jr_f, fetch_f, fetch16_f, setBC_f, setDE_f, setHL_f, w8_f, push_f, pop_f, call_f, ret_f]
    all_goals
      first
        | exact h
        | exact sf_mod _ _ _ _
        | exact inc8_f _ _
        | exact dec8_f _ _
        | exact addHL_f _ _
        | exact daa_f _ h
        | exact addA_f _ _ _
        | exact subA_f _ _ _
        | exact andA_f _ _
        | exact xorA_f _ _
        | exact orA_f _ _
        | exact cpA_f _ _
        | exact setAF_f _ _
        | exact spAdd_f _ _
        | exact bitT_f _ _ _
        | exact rl_f _ _ _
        | exact rr_f _ _ _
        | exact sla_f _ _
        | exact sra_f _ _
        | exact srl_f _ _
        | exact swap_f _ _
        | exact cb_f _ h
        | (rw [or_mod16 _ _ (by decide)]; exact h)
  rw [if_neg ha11]
  by_cases ha12 : op = 0x1C
  · rw [if_pos ha12]
    try simp only []
    repeat' split
    all_goals try dsimp only
    all_goals try simp only [jr_f, fetch_f, fetch16_f, setBC_f, setDE_f, setHL_f, w8_f, push_f, pop_f, call_f, ret_f]
    all_goals
      first
        | exact h
        | exact sf_mod _ _ _ _
        | exact inc8_f _ _
        | exact dec8_f _ _
        | exact addHL_f _ _
        | exact daa_f _ h
        | exact addA_f _ _ _
        | exact subA_f _ _ _
        | exact andA_f _ _
        | exact xorA_f _ _
        | exact orA_f _ _
        | exact cpA_f _ _
        | exact setAF_f _ _
        | exact spAdd_f _ _
        | exact bitT_f _ _ _
        | exact rl_f _ _ _
        | exact rr_f _ _ _
        | exact sla_f _ _
        | exact sra_f _ _
        | exact srl_f _ _
        | exact swap_f _ _
        | exact cb_f _ h
        | (rw [or_mod16 _ _ (by decide)]; exact h)
  rw [if_neg ha12]
  by_cases ha13 : op = 0x1D
  · rw [if_pos ha13]
    try simp only []
    repeat' split
    all_goals try dsimp only
    all_goals try simp only [jr_f, fetch_f, fetch16_f, setBC_f, setDE_f, setHL_f, w8_f, push_f, pop_f, call_f, ret_f]
    all_goals
      first
        | exact h
        | exact sf_mod _ _ _ _
        | exact inc8_f _ _
        | exact dec8_f _ _
        | exact addHL_f _ _
        | exact daa_f _ h
        | exact addA_f _ _ _
        | exact subA_f _ _ _
        | exact andA_f _ _
        | exact xorA_f _ _
        | exact orA_f _ _
        | exact cpA_f _ _
        | exact setAF_f _ _
        | exact spAdd_f _ _
        | exact bitT_f _ _ _
        | exact rl_f _ _ _
        | exact rr_f _ _ _
        | exact sla_f _ _
        | exact sra_f _ _
        | exact srl_f _ _
        | exact swap_f _ _
        | exact cb_f _ h
        | (rw [or_mod16 _ _ (by decide)]; exact h)
  rw [if_neg ha13]
  by_cases ha14 : op = 0x1E
  · rw [if_pos ha14]
    try simp only []
    repeat' split
    all_goals try dsimp only
    all_goals try simp only [jr_f, fetch_f, fetch16_f, setBC_f, setDE_f, setHL_f, w8_f, push_f, pop_f, call_f, ret_f]
    all_goals
      first
        | exact h
        | exact sf_mod _ _ _ _
        | exact inc8_f _ _
        | exact dec8_f _ _
        | exact addHL_f _ _
        | exact daa_f _ h
        | exact addA_f _ _ _
        | exact subA_f _ _ _
        | exact andA_f _ _
        | exact xorA_f _ _
        | exact orA_f _ _
        | exact cpA_f _ _
        | exact setAF_f _ _
        | exact spAdd_f _ _
        | exact bitT_f _ _ _
        | exact rl_f _ _ _
        | exact rr_f _ _ _
        | exact sla_f _ _
        | exact sra_f _ _
        | exact srl_f _ _
        | exact swap_f _ _
        | exact cb_f _ h
        | (rw [or_mod16 _ _ (by decide)]; exact h)
  rw [if_neg ha14]
  by_cases ha15 : op = 0x1F
  · rw [if_pos ha15]
    try simp only []
    repeat' split
    all_goals try dsimp only
    all_goals try simp only [jr_f, fetch_f, fetch16_f, setBC_f, setDE_f, setHL_f, w8_f, push_f, pop_f, call_f, ret_f]
    all_goals
      first
        | exact h
        | exact sf_mod _ _ _ _
        | exact inc8_f _ _
        | exact dec8_f _ _
        | exact addHL_f _ _
        | exact daa_f _ h
        | exact addA_f _ _ _
        | exact subA_f _ _ _
        | exact andA_f _ _
        | exact xorA_f _ _
        | exact orA_f _ _
        | exact cpA_f _ _
        | exact setAF_f _ _
        | exact spAdd_f _ _
        | exact bitT_f _ _ _
        | exact rl_f _ _ _
        | exact rr_f _ _ _
        | exact sla_f _ _
        | exact sra_f _ _
        | exact srl_f _ _
        | exact swap_f _ _
        | exact cb_f _ h
        | (rw [or_mod16 _ _ (by decide)]; exact h)
  rw [if_neg ha15]
  try simp only []
  repeat' split
  all_goals try dsimp only
  all_goals try simp only [jr_f, fetch_f, fetch16_f, setBC_f, setDE_f, setHL_f, w8_f, push_f, pop_f, call_f, ret_f]
  all_goals
    first
      | exact h
      | exact sf_mod _ _ _ _
      | exact inc8_f _ _
      | exact dec8_f _ _
      | exact addHL_f _ _
      | exact daa_f _ h
      | exact addA_f _ _ _
      | exact subA_f _ _ _
      | exact andA_f _ _
      | exact xorA_f _ _
      | exact orA_f _ _
      | exact cpA_f _ _
      | exact setAF_f _ _
      | exact spAdd_f _ _
      | exact bitT_f _ _ _
      | exact rl_f _ _ _
      | exact rr_f _ _ _
      | exact sla_f _ _
      | exact sra_f _ _
      | exact srl_f _ _
      | exact swap_f _ _
      | exact cb_f _ h
      | (rw [or_mod16 _ _ (by decide)]; exact h)

theorem exec01_cy (op : Nat) (s : CPU) : (exec01 op s).2.cycles = s.cycles := by
  unfold exec01
  by_cases ha0 : op = 0x10
  · rw [if_pos ha0]
    try simp only []
    repeat' split
    all_goals try dsimp only
    all_goals try simp only [jr_cy, fetch_cy, fetch16_cy, setBC_cy, setDE_cy, setHL_cy, w8_cy, push_cy, pop_cy, call_cy, ret_cy, addHL_cy, inc8_cy, dec8_cy, daa_cy, addA_cy, subA_cy, andA_cy, xorA_cy, orA_cy, cpA_cy, setAF_cy, spAdd_cy, bitT_cy, rl_cy, rr_cy, sla_cy, sra_cy, srl_cy, swap_cy]
    all_goals first | rfl | exact cb_cy _
  rw [if_neg ha0]
  by_cases ha1 : op = 0x11
  · rw [if_pos ha1]
    try simp only []
    repeat' split
    all_goals try dsimp only
    all_goals try simp only [jr_cy, fetch_cy, fetch16_cy, setBC_cy, setDE_cy, setHL_cy, w8_cy, push_cy, pop_cy, call_cy, ret_cy, addHL_cy, inc8_cy, dec8_cy, daa_cy, addA_cy, subA_cy, andA_cy, xorA_cy, orA_cy, cpA_cy, setAF_cy, spAdd_cy, bitT_cy, rl_cy, rr_cy, sla_cy, sra_cy, srl_cy, swap_cy]
    all_goals first | rfl | exact cb_cy _
  rw [if_neg ha1]
  by_cases ha2 : op = 0x12
  · rw [if_pos ha2]
    try simp only []
    repeat' split
    all_goals try dsimp only
    all_goals try simp only [jr_cy, fetch_cy, fetch16_cy, setBC_cy, setDE_cy, setHL_cy, w8_cy, push_cy, pop_cy, call_cy, ret_cy, addHL_cy, inc8_cy, dec8_cy, daa_cy, addA_cy, subA_cy, andA_cy, xorA_cy, orA_cy, cpA_cy, setAF_cy, spAdd_cy, bitT_cy, rl_cy, rr_cy, sla_cy, sra_cy, srl_cy, swap_cy]
    all_goals first | rfl | exact cb_cy _
  rw [if_neg ha2]
  by_cases ha3 : op = 0x13
  · rw [if_pos ha3]
    try simp only []
    repeat' split
    all_goals try dsimp only
    all_goals try simp only [jr_cy, fetch_cy, fetch16_cy, setBC_cy, setDE_cy, setHL_cy, w8_cy, push_cy, pop_cy, call_cy, ret_cy, addHL_cy, inc8_cy, dec8_cy, daa_cy, addA_cy, subA_cy, andA_cy, xorA_cy, orA_cy, cpA_cy, setAF_cy, spAdd_cy, bitT_cy, rl_cy, rr_cy, sla_cy, sra_cy, srl_cy, swap_cy]
    all_goals first | rfl | exact cb_cy _
  rw [if_neg ha3]
  by_cases ha4 : op = 0x14
  · rw [if_pos ha4]
    try simp only []
    repeat' split
    all_goals try dsimp only
    all_goals try simp only [jr_cy, fetch_cy, fetch16_cy, setBC_cy, setDE_cy, setHL_cy, w8_cy, push_cy, pop_cy, call_cy, ret_cy, addHL_cy, inc8_cy, dec8_cy, daa_cy, addA_cy, subA_cy, andA_cy, xorA_cy, orA_cy, cpA_cy, setAF_cy, spAdd_cy, bitT_cy, rl_cy, rr_cy, sla_cy, sra_cy, srl_cy, swap_cy]
    all_goals first | rfl | exact cb_cy _
  rw [if_neg ha4]
  by_cases ha5 : op = 0x15
  · rw [if_pos ha5]
    try simp only []
    repeat' split
    all_goals try dsimp only
    all_goals try simp only [jr_cy, fetch_cy, fetch16_cy, setBC_cy, setDE_cy, setHL_cy, w8_cy, push_cy, pop_cy, call_cy, ret_cy, addHL_cy, inc8_cy, dec8_cy, daa_cy, addA_cy, subA_cy, andA_cy, xorA_cy, orA_cy, cpA_cy, setAF_cy, spAdd_cy, bitT_cy, rl_cy, rr_cy, sla_cy, sra_cy, srl_cy, swap_cy]
    all_goals first | rfl | exact cb_cy _
  rw [if_neg ha5]
  by_cases ha6 : op = 0x16
  · rw [if_pos ha6]
    try simp only []
    repeat' split
    all_goals try dsimp only
    all_goals try simp only [jr_cy, fetch_cy, fetch16_cy, setBC_cy, setDE_cy, setHL_cy, w8_cy, push_cy, pop_cy, call_cy, ret_cy, addHL_cy, inc8_cy, dec8_cy, daa_cy, addA_cy, subA_cy, andA_cy, xorA_cy, orA_cy, cpA_cy, setAF_cy, spAdd_cy, bitT_cy, rl_cy, rr_cy, sla_cy, sra_cy, srl_cy, swap_cy]
    all_goals first | rfl | exact cb_cy _
  rw [if_neg ha6]
  by_cases ha7 : op = 0x17
  · rw [if_pos ha7]
    try simp only []
    repeat' split
    all_goals try dsimp only
    all_goals try simp only [jr_cy, fetch_cy, fetch16_cy, setBC_cy, setDE_cy, setHL_cy, w8_cy, push_cy, pop_cy, call_cy, ret_cy, addHL_cy, inc8_cy, dec8_cy, daa_cy, addA_cy, subA_cy, andA_cy, xorA_cy, orA_cy, cpA_cy, setAF_cy, spAdd_cy, bitT_cy, rl_cy, rr_cy, sla_cy, sra_cy, srl_cy, swap_cy]
    all_goals first | rfl | exact cb_cy _
  rw [if_neg ha7]
  by_cases ha8 : op = 0x18
  · rw [if_pos ha8]
    try simp only []
    repeat' split
    all_goals try dsimp only
    all_goals try simp only [jr_cy, fetch_cy, fetch16_cy, setBC_cy, setDE_cy, setHL_cy, w8_cy, push_cy, pop_cy, call_cy, ret_cy, addHL_cy, inc8_cy, dec8_cy, daa_cy, addA_cy, subA_cy, andA_cy, xorA_cy, orA_cy, cpA_cy, setAF_cy, spAdd_cy, bitT_cy, rl_cy, rr_cy, sla_cy, sra_cy, srl_cy, swap_cy]
    all_goals first | rfl | exact cb_cy _
  rw [if_neg ha8]
  by_cases ha9 : op = 0x19
  · rw [if_pos ha9]
    try simp only []
    repeat' split
    all_goals try dsimp only
    all_goals try simp only [jr_cy, fetch_cy, fetch16_cy, setBC_cy, setDE_cy, setHL_cy, w8_cy, push_cy, pop_cy, call_cy, ret_cy, addHL_cy, inc8_cy, dec8_cy, daa_cy, addA_cy, subA_cy, andA_cy, xorA_cy, orA_cy, cpA_cy, setAF_cy, spAdd_cy, bitT_cy, rl_cy, rr_cy, sla_cy, sra_cy, srl_cy, swap_cy]
    all_goals first | rfl | exact cb_cy _
  rw [if_neg ha9]
  by_cases ha10 : op = 0x1A
  · rw [if_pos ha10]
    try simp only []
    repeat' split
    all_goals try dsimp only
    all_goals try simp only [jr_cy, fetch_cy, fetch16_cy, setBC_cy, setDE_cy, setHL_cy, w8_cy, push_cy, pop_cy, call_cy, ret_cy, addHL_cy, inc8_cy, dec8_cy, daa_cy, addA_cy, subA_cy, andA_cy, xorA_cy, orA_cy, cpA_cy, setAF_cy, spAdd_cy, bitT_cy, rl_cy, rr_cy, sla_cy, sra_cy, srl_cy, swap_cy]
    all_goals first | rfl | exact cb_cy _
  rw [if_neg ha10]
  by_cases ha11 : op = 0x1B
  · rw [if_pos ha11]
    try simp only []
    repeat' split
    all_goals try dsimp only
    all_goals try simp only [jr_cy, fetch_cy, fetch16_cy, setBC_cy, setDE_cy, setHL_cy, w8_cy, push_cy, pop_cy, call_cy, ret_cy, addHL_cy, inc8_cy, dec8_cy, daa_cy, addA_cy, subA_cy, andA_cy, xorA_cy, orA_cy, cpA_cy, setAF_cy, spAdd_cy, bitT_cy, rl_cy, rr_cy, sla_cy, sra_cy, srl_cy, swap_cy]
    all_goals first | rfl | exact cb_cy _
  rw [if_neg ha11]
  by_cases ha12 : op = 0x1C
  · rw [if_pos ha12]
    try simp only []
    repeat' split
    all_goals try dsimp only
    all_goals try simp only [jr_cy, fetch_cy, fetch16_cy, setBC_cy, setDE_cy, setHL_cy, w8_cy, push_cy, pop_cy, call_cy, ret_cy, addHL_cy, inc8_cy, dec8_cy, daa_cy, addA_cy, subA_cy, andA_cy, xorA_cy, orA_cy, cpA_cy, setAF_cy, spAdd_cy, bitT_cy, rl_cy, rr_cy, sla_cy, sra_cy, srl_cy, swap_cy]
    all_goals first | rfl | exact cb_cy _
  rw [if_neg ha12]
  by_cases ha13 : op = 0x1D
  · rw [if_pos ha13]
    try simp only []
    repeat' split
    all_goals try dsimp only
    all_goals try simp only [jr_cy, fetch_cy, fetch16_cy, setBC_cy, setDE_cy, setHL_cy, w8_cy, push_cy, pop_cy, call_cy, ret_cy, addHL_cy, inc8_cy, dec8_cy, daa_cy, addA_cy, subA_cy, andA_cy, xorA_cy, orA_cy, cpA_cy, setAF_cy, spAdd_cy, bitT_cy, rl_cy, rr_cy, sla_cy, sra_cy, srl_cy, swap_cy]
    all_goals first | rfl | exact cb_cy _
  rw [if_neg ha13]
  by_cases ha14 : op = 0x1E
  · rw [if_pos ha14]
    try simp only []
    repeat' split
    all_goals try dsimp only
    all_goals try simp only [jr_cy, fetch_cy, fetch16_cy, setBC_cy, setDE_cy, setHL_cy, w8_cy, push_cy, pop_cy, call_cy, ret_cy, addHL_cy, inc8_cy, dec8_cy, daa_cy, addA_cy, subA_cy, andA_cy, xorA_cy, orA_cy, cpA_cy, setAF_cy, spAdd_cy, bitT_cy, rl_cy, rr_cy, sla_cy, sra_cy, srl_cy, swap_cy]
    all_goals first | rfl | exact cb_cy _
  rw [if_neg ha14]
  by_cases ha15 : op = 0x1F
  · rw [if_pos ha15]
    try simp only []
    repeat' split
    all_goals try dsimp only
    all_goals try simp only [jr_cy, fetch_cy, fetch16_cy, setBC_cy, setDE_cy, setHL_cy, w8_cy, push_cy, pop_cy, call_cy, ret_cy, addHL_cy, inc8_cy, dec8_cy, daa_cy, addA_cy, subA_cy, andA_cy, xorA_cy, orA_cy, cpA_cy, setAF_cy, spAdd_cy, bitT_cy, rl_cy, rr_cy, sla_cy, sra_cy, srl_cy, swap_cy]
    all_goals first | rfl | exact cb_cy _
  rw [if_neg ha15]
  try simp only []
  repeat' split
  all_goals try dsimp only
  all_goals try simp only [jr_cy, fetch_cy, fetch16_cy, setBC_cy, setDE_cy, setHL_cy, w8_cy, push_cy, pop_cy, call_cy, ret_cy, addHL_cy, inc8_cy, dec8_cy, daa_cy, addA_cy, subA_cy, andA_cy, xorA_cy, orA_cy, cpA_cy, setAF_cy, spAdd_cy, bitT_cy, rl_cy, rr_cy, sla_cy, sra_cy, srl_cy, swap_cy]
  all_goals first | rfl | exact cb_cy _

theorem exec01_cost (op : Nat) (s : CPU) : 4 ≤ (exec01 op s).1 ∧ (exec01 op s).1 ≤ 24 := by
  unfold exec01
  by_cases ha0 : op = 0x10
  · rw [if_pos ha0]
    try simp only []
    repeat' split
    all_goals try dsimp only
    all_goals first | decide | (split <;> decide) | exact cb_cost _
  rw [if_neg ha0]
  by_cases ha1 : op = 0x11
  · rw [if_pos ha1]
    try simp only []
    repeat' split
    all_goals try dsimp only
    all_goals first | decide | (split <;> decide) | exact cb_cost _
  rw [if_neg ha1]
  by_cases ha2 : op = 0x12
  · rw [if_pos ha2]
    try simp only []
    repeat' split
    all_goals try dsimp only
    all_goals first | decide | (split <;> decide) | exact cb_cost _
  rw [if_neg ha2]
  by_cases ha3 : op = 0x13
  · rw [if_pos ha3]
    try simp only []
    repeat' split
    all_goals try dsimp only
    all_goals first | decide | (split <;> decide) | exact cb_cost _
  rw [if_neg ha3]
  by_cases ha4 : op = 0x14
  · rw [if_pos ha4]
    try simp only []
    repeat' split
    all_goals try dsimp only
    all_goals first | decide | (split <;> decide) | exact cb_cost _
  rw [if_neg ha4]
  by_cases ha5 : op = 0x15
  · rw [if_pos ha5]
    try simp only []
    repeat' split
    all_goals try dsimp only
    all_goals first | decide | (split <;> decide) | exact cb_cost _
  rw [if_neg ha5]
  by_cases ha6 : op = 0x16
  · rw [if_pos ha6]
    try simp only []
    repeat' split
    all_goals try dsimp only
    all_goals first | decide | (split <;> decide) | exact cb_cost _
  rw [if_neg ha6]
  by_cases ha7 : op = 0x17
  · rw [if_pos ha7]
    try simp only []
    repeat' split
    all_goals try dsimp only
    all_goals first | decide | (split <;> decide) | exact cb_cost _
  rw [if_neg ha7]
  by_cases ha8 : op = 0x18
  · rw [if_pos ha8]
    try simp only []
    repeat' split
    all_goals try dsimp only
    all_goals first | decide | (split <;> decide) | exact cb_cost _
  rw [if_neg ha8]
  by_cases ha9 : op = 0x19
  · rw [if_pos ha9]
    try simp only []
    repeat' split
    all_goals try dsimp only
    all_goals first | decide | (split <;> decide) | exact cb_cost _
  rw [if_neg ha9]
  by_cases ha10 : op = 0x1A
  · rw [if_pos ha10]
    try simp only []
    repeat' split
    all_goals try dsimp only
    all_goals first | decide | (split <;> decide) | exact cb_cost _
  rw [if_neg ha10]
  by_cases ha11 : op = 0x1B
  · rw [if_pos ha11]
    try simp only []
    repeat' split
    all_goals try dsimp only
    all_goals first | decide | (split <;> decide) | exact cb_cost _
  rw [if_neg ha11]
  by_cases ha12 : op = 0x1C
  · rw [if_pos ha12]
    try simp only []
    repeat' split
    all_goals try dsimp only
    all_goals first | decide | (split <;> decide) | exact cb_cost _
  rw [if_neg ha12]
  by_cases ha13 : op = 0x1D
  · rw [if_pos ha13]
    try simp only []
    repeat' split
    all_goals try dsimp only
    all_goals first | decide | (split <;> decide) | exact cb_cost _
  rw [if_neg ha13]
  by_cases ha14 : op = 0x1E
  · rw [if_pos ha14]
    try simp only []
    repeat' split
    all_goals try dsimp only
    all_goals first | decide | (split <;> decide) | exact cb_cost _
  rw [if_neg ha14]
  by_cases ha15 : op = 0x1F
  · rw [if_pos ha15]
    try simp only []
    repeat' split
    all_goals try dsimp only
    all_goals first | decide | (split <;> decide) | exact cb_cost _
  rw [if_neg ha15]
  try simp only []
  repeat' split
  all_goals try dsimp only
  all_goals first | decide | (split <;> decide) | exact cb_cost _

theorem exec02_f (op : Nat) (s : CPU) (h : s.f % 16 = 0) : (exec02 op s).2.f % 16 = 0 := by
  unfold exec02
  by_cases ha0 : op = 0x20
  · rw [if_pos ha0]
    try simp only []
    repeat' split
    all_goals try dsimp only
    all_goals try simp only [jr_f, fetch_f, fetch16_f, setBC_f, setDE_f, setHL_f, w8_f, push_f, pop_f, call_f, ret_f]
    all_goals
      first
        | exact h
        | exact sf_mod _ _ _ _
        | exact inc8_f _ _
        | exact dec8_f _ _
        | exact addHL_f _ _
        | exact daa_f _ h
        | exact addA_f _ _ _
        | exact subA_f _ _ _
        | exact andA_f _ _
        | exact xorA_f _ _
        | exact orA_f _ _
        | exact cpA_f _ _
        | exact setAF_f _ _
        | exact spAdd_f _ _
        | exact bitT_f _ _ _
        | exact rl_f _ _ _
        | exact rr_f _ _ _
        | exact sla_f _ _
        | exact sra_f _ _
        | exact srl_f _ _
        | exact swap_f _ _
        | exact cb_f _ h
        | (rw [or_mod16 _ _ (by decide)]; exact h)
  rw [if_neg ha0]
  by_cases ha1 : op = 0x21
  · rw [if_pos ha1]
    try simp only []
    repeat' split
    all_goals try dsimp only
    all_goals try simp only [jr_f, fetch_f, fetch16_f, setBC_f, setDE_f, setHL_f, w8_f, push_f, pop_f, call_f, ret_f]
    all_goals
      first
        | exact h
        | exact sf_mod _ _ _ _
        | exact inc8_f _ _
        | exact dec8_f _ _
        | exact addHL_f _ _
        | exact daa_f _ h
        | exact addA_f _ _ _
        | exact subA_f _ _ _
        | exact andA_f _ _
        | exact xorA_f _ _
        | exact orA_f _ _
        | exact cpA_f _ _
        | exact setAF_f _ _
        | exact spAdd_f _ _
        | exact bitT_f _ _ _
        | exact rl_f _ _ _
        | exact rr_f _ _ _
        | exact sla_f _ _
        | exact sra_f _ _
        | exact srl_f _ _
        | exact swap_f _ _
        | exact cb_f _ h
        | (rw [or_mod16 _ _ (by decide)]; exact h)
  rw [if_neg ha1]
  by_cases ha2 : op = 0x22
  · rw [if_pos ha2]
    try simp only []
    repeat' split
    all_goals try dsimp only
    all_goals try simp only [jr_f, fetch_f, fetch16_f, setBC_f, setDE_f, setHL_f, w8_f, push_f, pop_f, call_f, ret_f]
    all_goals
      first
        | exact h
        | exact sf_mod _ _ _ _
        | exact inc8_f _ _
        | exact dec8_f _ _
        | exact addHL_f _ _
        | exact daa_f _ h
        | exact addA_f _ _ _
        | exact subA_f _ _ _
        | exact andA_f _ _
        | exact xorA_f _ _
        | exact orA_f _ _
        | exact cpA_f _ _
        | exact setAF_f _ _
        | exact spAdd_f _ _
        | exact bitT_f _ _ _
        | exact rl_f _ _ _
        | exact rr_f _ _ _
        | exact sla_f _ _
        | exact sra_f _ _
        | exact srl_f _ _
        | exact swap_f _ _
        | exact cb_f _ h
        | (rw [or_mod16 _ _ (by decide)]; exact h)
  rw [if_neg ha2]
  by_cases ha3 : op = 0x23
  · rw [if_pos ha3]
    try simp only []
    repeat' split
    all_goals try dsimp only
    all_goals try simp only [jr_f, fetch_f, fetch16_f, setBC_f, setDE_f, setHL_f, w8_f, push_f, pop_f, call_f, ret_f]
    all_goals
      first
        | exact h
        | exact sf_mod _ _ _ _
        | exact inc8_f _ _
        | exact dec8_f _ _
        | exact addHL_f _ _
        | exact daa_f _ h
        | exact addA_f _ _ _
        | exact subA_f _ _ _
        | exact andA_f _ _
        | exact xorA_f _ _
        | exact orA_f _ _
        | exact cpA_f _ _
        | exact setAF_f _ _
        | exact spAdd_f _ _
        | exact bitT_f _ _ _
        | exact rl_f _ _ _
        | exact rr_f _ _ _
        | exact sla_f _ _
        | exact sra_f _ _
        | exact srl_f _ _
        | exact swap_f _ _
        | exact cb_f _ h
        | (rw [or_mod16 _ _ (by decide)]; exact h)
  rw [if_neg ha3]
  by_cases ha4 : op = 0x24
  · rw [if_pos ha4]
    try simp only []
    repeat' split
    all_goals try dsimp only
    all_goals try simp only [jr_f, fetch_f, fetch16_f, setBC_f, setDE_f, setHL_f, w8_f, push_f, pop_f, call_f, ret_f]
    all_goals
      first
        | exact h
        | exact sf_mod _ _ _ _
        | exact inc8_f _ _
        | exact dec8_f _ _
        | exact addHL_f _ _
        | exact daa_f _ h
        | exact addA_f _ _ _
        | exact subA_f _ _ _
        | exact andA_f _ _
        | exact xorA_f _ _
        | exact orA_f _ _
        | exact cpA_f _ _
        | exact setAF_f _ _
        | exact spAdd_f _ _
        | exact bitT_f _ _ _
        | exact rl_f _ _ _
        | exact rr_f _ _ _
        | exact sla_f _ _
        | exact sra_f _ _
        | exact srl_f _ _
        | exact swap_f _ _
        | exact cb_f _ h
        | (rw [or_mod16 _ _ (by decide)]; exact h)
  rw [if_neg ha4]
  by_cases ha5 : op = 0x25
  · rw [if_pos ha5]
    try simp only []
    repeat' split
    all_goals try dsimp only
    all_goals try simp only [jr_f, fetch_f, fetch16_f, setBC_f, setDE_f, setHL_f, w8_f, push_f, pop_f, call_f, ret_f]
    all_goals
      first
        | exact h
        | exact sf_mod _ _ _ _
        | exact inc8_f _ _
        | exact dec8_f _ _
        | exact addHL_f _ _
        | exact daa_f _ h
        | exact addA_f _ _ _
        | exact subA_f _ _ _
        | exact andA_f _ _
        | exact xorA_f _ _
        | exact orA_f _ _
        | exact cpA_f _ _
        | exact setAF_f _ _
        | exact spAdd_f _ _
        | exact bitT_f _ _ _
        | exact rl_f _ _ _
        | exact rr_f _ _ _
        | exact sla_f _ _
        | exact sra_f _ _
        | exact srl_f _ _
        | exact swap_f _ _
        | exact cb_f _ h
        | (rw [or_mod16 _ _ (by decide)]; exact h)
  rw [if_neg ha5]
  by_cases ha6 : op = 0x26
  · rw [if_pos ha6]
    try simp only []
    repeat' split
    all_goals try dsimp only
    all_goals try simp only [jr_f, fetch_f, fetch16_f, setBC_f, setDE_f, setHL_f, w8_f, push_f, pop_f, call_f, ret_f]
    all_goals
      first
        | exact h
        | exact sf_mod _ _ _ _
        | exact inc8_f _ _
        | exact dec8_f _ _
        | exact addHL_f _ _
        | exact daa_f _ h
        | exact addA_f _ _ _
        | exact subA_f _ _ _
        | exact andA_f _ _
        | exact xorA_f _ _
        | exact orA_f _ _
        | exact cpA_f _ _
        | exact setAF_f _ _
        | exact spAdd_f _ _
        | exact bitT_f _ _ _
        | exact rl_f _ _ _
        | exact rr_f _ _ _
        | exact sla_f _ _
        | exact sra_f _ _
        | exact srl_f _ _
        | exact swap_f _ _
        | exact cb_f _ h
        | (rw [or_mod16 _ _ (by decide)]; exact h)
  rw [if_neg ha6]
  by_cases ha7 : op = 0x27
  · rw [if_pos ha7]
    try simp only []
    repeat' split
    all_goals try dsimp only
    all_goals try simp only [jr_f, fetch_f, fetch16_f, setBC_f, setDE_f, setHL_f, w8_f, push_f, pop_f, call_f, ret_f]
    all_goals
      first
        | exact h
        | exact sf_mod _ _ _ _
        | exact inc8_f _ _
        | exact dec8_f _ _
        | exact addHL_f _ _
        | exact daa_f _ h
        | exact addA_f _ _ _
        | exact subA_f _ _ _
        | exact andA_f _ _
        | exact xorA_f _ _
        | exact orA_f _ _
        | exact cpA_f _ _
        | exact setAF_f _ _
        | exact spAdd_f _ _
        | exact bitT_f _ _ _
        | exact rl_f _ _ _
        | exact rr_f _ _ _
        | exact sla_f _ _
        | exact sra_f _ _
        | exact srl_f _ _
        | exact swap_f _ _
        | exact cb_f _ h
        | (rw [or_mod16 _ _ (by decide)]; exact h)
  rw [if_neg ha7]
  by_cases ha8 : op = 0x28
  · rw [if_pos ha8]
    try simp only []
    repeat' split
    all_goals try dsimp only
    all_goals try simp only [jr_f, fetch_f, fetch16_f, setBC_f, setDE_f, setHL_f, w8_f, push_f, pop_f, call_f, ret_f]
    all_goals
      first
        | exact h
        | exact sf_mod _ _ _ _
        | exact inc8_f _ _
        | exact dec8_f _ _
        | exact addHL_f _ _
        | exact daa_f _ h
        | exact addA_f _ _ _
        | exact subA_f _ _ _
        | exact andA_f _ _
        | exact xorA_f _ _
        | exact orA_f _ _
        | exact cpA_f _ _
        | exact setAF_f _ _
        | exact spAdd_f _ _
        | exact bitT_f _ _ _
        | exact rl_f _ _ _
        | exact rr_f _ _ _
        | exact sla_f _ _
        | exact sra_f _ _
        | exact srl_f _ _
        | exact swap_f _ _
        | exact cb_f _ h
        | (rw [or_mod16 _ _ (by decide)]; exact h)
  rw [if_neg ha8]
  by_cases ha9 : op = 0x29
  · rw [if_pos ha9]
    try simp only []
    repeat' split
    all_goals try dsimp only
    all_goals try simp only [jr_f, fetch_f, fetch16_f, setBC_f, setDE_f, setHL_f, w8_f, push_f, pop_f, call_f, ret_f]
    all_goals
      first
        | exact h
        | exact sf_mod _ _ _ _
        | exact inc8_f _ _
        | exact dec8_f _ _
        | exact addHL_f _ _
        | exact daa_f _ h
        | exact addA_f _ _ _
        | exact subA_f _ _ _
        | exact andA_f _ _
        | exact xorA_f _ _
        | exact orA_f _ _
        | exact cpA_f _ _
        | exact setAF_f _ _
        | exact spAdd_f _ _
        | exact bitT_f _ _ _
        | exact rl_f _ _ _
        | exact rr_f _ _ _
        | exact sla_f _ _
        | exact sra_f _ _
        | exact srl_f _ _
        | exact swap_f _ _
        | exact cb_f _ h
        | (rw [or_mod16 _ _ (by decide)]; exact h)
  rw [if_neg ha9]
  by_cases ha10 : op = 0x2A
  · rw [if_pos ha10]
    try simp only []
    repeat' split
    all_goals try dsimp only
    all_goals try simp only [jr_f, fetch_f, fetch16_f, setBC_f, setDE_f, setHL_f, w8_f, push_f, pop_f, call_f, ret_f]
    all_goals
      first
        | exact h
        | exact sf_mod _ _ _ _
        | exact inc8_f _ _
        | exact dec8_f _ _
        | exact addHL_f _ _
        | exact daa_f _ h
        | exact addA_f _ _ _
        | exact subA_f _ _ _
        | exact andA_f _ _
        | exact xorA_f _ _
        | exact orA_f _ _
        | exact cpA_f _ _
        | exact setAF_f _ _
        | exact spAdd_f _ _
        | exact bitT_f _ _ _
        | exact rl_f _ _ _
        | exact rr_f _ _ _
        | exact sla_f _ _
        | exact sra_f _ _
        | exact srl_f _ _
        | exact swap_f _ _
        | exact cb_f _ h
        | (rw [or_mod16 _ _ (by decide)]; exact h)
  rw [if_neg ha10]
  by_cases ha11 : op = 0x2B
  · rw [if_pos ha11]
    try simp only []
    repeat' split
    all_goals try dsimp only
    all_goals try simp only [jr_f, fetch_f, fetch16_f, setBC_f, setDE_f, setHL_f, w8_f, push_f, pop_f, call_f, ret_f]
    all_goals
      first
        | exact h
        | exact sf_mod _ _ _ _
        | exact inc8_f _ _
        | exact dec8_f _ _
        | exact addHL_f _ _
        | exact daa_f _ h
        | exact addA_f _ _ _
        | exact subA_f _ _ _
        | exact andA_f _ _
        | exact xorA_f _ _
        | exact orA_f _ _
        | exact cpA_f _ _
        | exact setAF_f _ _
        | exact spAdd_f _ _
        | exact bitT_f _ _ _
        | exact rl_f _ _ _
        | exact rr_f _ _ _
        | exact sla_f _ _
        | exact sra_f _ _
        | exact srl_f _ _
        | exact swap_f _ _
        | exact cb_f _ h
        | (rw [or_mod16 _ _ (by decide)]; exact h)
  rw [if_neg ha11]
  by_cases ha12 : op = 0x2C
  · rw [if_pos ha12]
    try simp only []
    repeat' split
    all_goals try dsimp only
    all_goals try simp only [jr_f, fetch_f, fetch16_f, setBC_f, setDE_f, setHL_f, w8_f, push_f, pop_f, call_f, ret_f]
    all_goals
      first
        | exact h
        | exact sf_mod _ _ _ _
        | exact inc8_f _ _
        | exact dec8_f _ _
        | exact addHL_f _ _
        | exact daa_f _ h
        | exact addA_f _ _ _
        | exact subA_f _ _ _
        | exact andA_f _ _
        | exact xorA_f _ _
        | exact orA_f _ _
        | exact cpA_f _ _
        | exact setAF_f _ _
        | exact spAdd_f _ _
        | exact bitT_f _ _ _
        | exact rl_f _ _ _
        | exact rr_f _ _ _
        | exact sla_f _ _
        | exact sra_f _ _
        | exact srl_f _ _
        | exact swap_f _ _
        | exact cb_f _ h
        | (rw [or_mod16 _ _ (by decide)]; exact h)
  rw [if_neg ha12]
  by_cases ha13 : op = 0x2D
  · rw [if_pos ha13]
    try simp only []
    repeat' split
    all_goals try dsimp only
    all_goals try simp only [jr_f, fetch_f, fetch16_f, setBC_f, setDE_f, setHL_f, w8_f, push_f, pop_f, call_f, ret_f]
    all_goals
      first
        | exact h
        | exact sf_mod _ _ _ _
        | exact inc8_f _ _
        | exact dec8_f _ _
        | exact addHL_f _ _
        | exact daa_f _ h
        | exact addA_f _ _ _
        | exact subA_f _ _ _
        | exact andA_f _ _
        | exact xorA_f _ _
        | exact orA_f _ _
        | exact cpA_f _ _
        | exact setAF_f _ _
        | exact spAdd_f _ _
        | exact bitT_f _ _ _
        | exact rl_f _ _ _
        | exact rr_f _ _ _
        | exact sla_f _ _
        | exact sra_f _ _
        | exact srl_f _ _
        | exact swap_f _ _
        | exact cb_f _ h
        | (rw [or_mod16 _ _ (by decide)]; exact h)
  rw [if_neg ha13]
  by_cases ha14 : op = 0x2E
  · rw [if_pos ha14]
    try simp only []
    repeat' split
    all_goals try dsimp only
    all_goals try simp only [jr_f, fetch_f, fetch16_f, setBC_f, setDE_f, setHL_f, w8_f, push_f, pop_f, call_f, ret_f]
    all_goals
      first
        | exact h
        | exact sf_mod _ _ _ _
        | exact inc8_f _ _
        | exact dec8_f _ _
        | exact addHL_f _ _
        | exact daa_f _ h
        | exact addA_f _ _ _
        | exact subA_f _ _ _
        | exact andA_f _ _
        | exact xorA_f _ _
        | exact orA_f _ _
        | exact cpA_f _ _
        | exact setAF_f _ _
        | exact spAdd_f _ _
        | exact bitT_f _ _ _
        | exact rl_f _ _ _
        | exact rr_f _ _ _
        | exact sla_f _ _
        | exact sra_f _ _
        | exact srl_f _ _
        | exact swap_f _ _
        | exact cb_f _ h
        | (rw [or_mod16 _ _ (by decide)]; exact h)
  rw [if_neg ha14]
  by_cases ha15 : op = 0x2F
  · rw [if_pos ha15]
    try simp only []
    repeat' split
    all_goals try dsimp only
    all_goals try simp only [jr_f, fetch_f, fetch16_f, setBC_f, setDE_f, setHL_f, w8_f, push_f, pop_f, call_f, ret_f]
    all_goals
      first
        | exact h
        | exact sf_mod _ _ _ _
        | exact inc8_f _ _
        | exact dec8_f _ _
        | exact addHL_f _ _
        | exact daa_f _ h
        | exact addA_f _ _ _
        | exact subA_f _ _ _
        | exact andA_f _ _
        | exact xorA_f _ _
        | exact orA_f _ _
        | exact cpA_f _ _
        | exact setAF_f _ _
        | exact spAdd_f _ _
        | exact bitT_f _ _ _
        | exact rl_f _ _ _
        | exact rr_f _ _ _
        | exact sla_f _ _
        | exact sra_f _ _
        | exact srl_f _ _
        | exact swap_f _ _
        | exact cb_f _ h
        | (rw [or_mod16 _ _ (by decide)]; exact h)
  rw [if_neg ha15]
  try simp only []
  repeat' split
  all_goals try dsimp only
  all_goals try simp only [jr_f, fetch_f, fetch16_f, setBC_f, setDE_f, setHL_f, w8_f, push_f, pop_f, call_f, ret_f]
  all_goals
    first
      | exact h
      | exact sf_mod _ _ _ _
      | exact inc8_f _ _
      | exact dec8_f _ _
      | exact addHL_f _ _
      | exact daa_f _ h
      | exact addA_f _ _ _
      | exact subA_f _ _ _
      | exact andA_f _ _
      | exact xorA_f _ _
      | exact orA_f _ _
      | exact cpA_f _ _
      | exact setAF_f _ _
      | exact spAdd_f _ _
      | exact bitT_f _ _ _
      | exact rl_f _ _ _
      | exact rr_f _ _ _
      | exact sla_f _ _
      | exact sra_f _ _
      | exact srl_f _ _
      | exact swap_f _ _
      | exact cb_f _ h
      | (rw [or_mod16 _ _ (by decide)]; exact h)

theorem exec02_cy (op : Nat) (s : CPU) : (exec02 op s).2.cycles = s.cycles := by
  unfold exec02
  by_cases ha0 : op = 0x20
  · rw [if_pos ha0]
    try simp only []
    repeat' split
    all_goals try dsimp only
    all_goals try simp only [jr_cy, fetch_cy, fetch16_cy, setBC_cy, setDE_cy, setHL_cy, w8_cy, push_cy, pop_cy, call_cy, ret_cy, addHL_cy, inc8_cy, dec8_cy, daa_cy, addA_cy, subA_cy, andA_cy, xorA_cy, orA_cy, cpA_cy, setAF_cy, spAdd_cy, bitT_cy, rl_cy, rr_cy, sla_cy, sra_cy, srl_cy, swap_cy]
    all_goals first | rfl | exact cb_cy _
  rw [if_neg ha0]
  by_cases ha1 : op = 0x21
  · rw [if_pos ha1]
    try simp only []
    repeat' split
    all_goals try dsimp only
    all_goals try simp only [jr_cy, fetch_cy, fetch16_cy, setBC_cy, setDE_cy, setHL_cy, w8_cy, push_cy, pop_cy, call_cy, ret_cy, addHL_cy, inc8_cy, dec8_cy, daa_cy, addA_cy, subA_cy, andA_cy, xorA_cy, orA_cy, cpA_cy, setAF_cy, spAdd_cy, bitT_cy, rl_cy, rr_cy, sla_cy, sra_cy, srl_cy, swap_cy]
    all_goals first | rfl | exact cb_cy _
  rw [if_neg ha1]
  by_cases ha2 : op = 0x22
  · rw [if_pos ha2]
    try simp only []
    repeat' split
    all_goals try dsimp only
    all_goals try simp only [jr_cy, fetch_cy, fetch16_cy, setBC_cy, setDE_cy, setHL_cy, w8_cy, push_cy, pop_cy, call_cy, ret_cy, addHL_cy, inc8_cy, dec8_cy, daa_cy, addA_cy, subA_cy, andA_cy, xorA_cy, orA_cy, cpA_cy, setAF_cy, spAdd_cy, bitT_cy, rl_cy, rr_cy, sla_cy, sra_cy, srl_cy, swap_cy]
    all_goals first | rfl | exact cb_cy _
  rw [if_neg ha2]
  by_cases ha3 : op = 0x23
  · rw [if_pos ha3]
    try simp only []
    repeat' split
    all_goals try dsimp only
    all_goals try simp only [jr_cy, fetch_cy, fetch16_cy, setBC_cy, setDE_cy, setHL_cy, w8_cy, push_cy, pop_cy, call_cy, ret_cy, addHL_cy, inc8_cy, dec8_cy, daa_cy, addA_cy, subA_cy, andA_cy, xorA_cy, orA_cy, cpA_cy, setAF_cy, spAdd_cy, bitT_cy, rl_cy, rr_cy, sla_cy, sra_cy, srl_cy, swap_cy]
    all_goals first | rfl | exact cb_cy _
  rw [if_neg ha3]
  by_cases ha4 : op = 0x24
  · rw [if_pos ha4]
    try simp only []
    repeat' split
    all_goals try dsimp only
    all_goals try simp only [jr_cy, fetch_cy, fetch16_cy, setBC_cy, setDE_cy, setHL_cy, w8_cy, push_cy, pop_cy, call_cy, ret_cy, addHL_cy, inc8_cy, dec8_cy, daa_cy, addA_cy, subA_cy, andA_cy, xorA_cy, orA_cy, cpA_cy, setAF_cy, spAdd_cy, bitT_cy, rl_cy, rr_cy, sla_cy, sra_cy, srl_cy, swap_cy]
    all_goals first | rfl | exact cb_cy _
  rw [if_neg ha4]
  by_cases ha5 : op = 0x25
  · rw [if_pos ha5]
    try simp only []
    repeat' split
    all_goals try dsimp only
    all_goals try simp only [jr_cy, fetch_cy, fetch16_cy, setBC_cy, setDE_cy, setHL_cy, w8_cy, push_cy, pop_cy, call_cy, ret_cy, addHL_cy, inc8_cy, dec8_cy, daa_cy, addA_cy, subA_cy, andA_cy, xorA_cy, orA_cy, cpA_cy, setAF_cy, spAdd_cy, bitT_cy, rl_cy, rr_cy, sla_cy, sra_cy, srl_cy, swap_cy]
    all_goals first | rfl | exact cb_cy _
  rw [if_neg ha5]
  by_cases ha6 : op = 0x26
  · rw [if_pos ha6]
    try simp only []
    repeat' split
    all_goals try dsimp only
    all_goals try simp only [jr_cy, fetch_cy, fetch16_cy, setBC_cy, setDE_cy, setHL_cy, w8_cy, push_cy, pop_cy, call_cy, ret_cy, addHL_cy, inc8_cy, dec8_cy, daa_cy, addA_cy, subA_cy, andA_cy, xorA_cy, orA_cy, cpA_cy, setAF_cy, spAdd_cy, bitT_cy, rl_cy, rr_cy, sla_cy, sra_cy, srl_cy, swap_cy]
    all_goals first | rfl | exact cb_cy _
  rw [if_neg ha6]
  by_cases ha7 : op = 0x27
  · rw [if_pos ha7]
    try simp only []
    repeat' split
    all_goals try dsimp only
    all_goals try simp only [jr_cy, fetch_cy, fetch16_cy, setBC_cy, setDE_cy, setHL_cy, w8_cy, push_cy, pop_cy, call_cy, ret_cy, addHL_cy, inc8_cy, dec8_cy, daa_cy, addA_cy, subA_cy, andA_cy, xorA_cy, orA_cy, cpA_cy, setAF_cy, spAdd_cy, bitT_cy, rl_cy, rr_cy, sla_cy, sra_cy, srl_cy, swap_cy]
    all_goals first | rfl | exact cb_cy _
  rw [if_neg ha7]
  by_cases ha8 : op = 0x28
  · rw [if_pos ha8]
    try simp only []
    repeat' split
    all_goals try dsimp only
    all_goals try simp only [jr_cy, fetch_cy, fetch16_cy, setBC_cy, setDE_cy, setHL_cy, w8_cy, push_cy, pop_cy, call_cy, ret_cy, addHL_cy, inc8_cy, dec8_cy, daa_cy, addA_cy, subA_cy, andA_cy, xorA_cy, orA_cy, cpA_cy, setAF_cy, spAdd_cy, bitT_cy, rl_cy, rr_cy, sla_cy, sra_cy, srl_cy, swap_cy]
    all_goals first | rfl | exact cb_cy _
  rw [if_neg ha8]
  by_cases ha9 : op = 0x29
  · rw [if_pos ha9]
    try simp only []
    repeat' split
    all_goals try dsimp only
    all_goals try simp only [jr_cy, fetch_cy, fetch16_cy, setBC_cy, setDE_cy, setHL_cy, w8_cy, push_cy, pop_cy, call_cy, ret_cy, addHL_cy, inc8_cy, dec8_cy, daa_cy, addA_cy, subA_cy, andA_cy, xorA_cy, orA_cy, cpA_cy, setAF_cy, spAdd_cy, bitT_cy, rl_cy, rr_cy, sla_cy, sra_cy, srl_cy, swap_cy]
    all_goals first | rfl | exact cb_cy _
  rw [if_neg ha9]
  by_cases ha10 : op = 0x2A
  · rw [if_pos ha10]
    try simp only []
    repeat' split
    all_goals try dsimp only
    all_goals try simp only [jr_cy, fetch_cy, fetch16_cy, setBC_cy, setDE_cy, setHL_cy, w8_cy, push_cy, pop_cy, call_cy, ret_cy, addHL_cy, inc8_cy, dec8_cy, daa_cy, addA_cy, subA_cy, andA_cy, xorA_cy, orA_cy, cpA_cy, setAF_cy, spAdd_cy, bitT_cy, rl_cy, rr_cy, sla_cy, sra_cy, srl_cy, swap_cy]
    all_goals first | rfl | exact cb_cy _
  rw [if_neg ha10]
  by_cases ha11 : op = 0x2B
  · rw [if_pos ha11]
    try simp only []
    repeat' split
    all_goals try dsimp only
    all_goals try simp only [jr_cy, fetch_cy, fetch16_cy, setBC_cy, setDE_cy, setHL_cy, w8_cy, push_cy, pop_cy, call_cy, ret_cy, addHL_cy, inc8_cy, dec8_cy, daa_cy, addA_cy, subA_cy, andA_cy, xorA_cy, orA_cy, cpA_cy, setAF_cy, spAdd_cy, bitT_cy, rl_cy, rr_cy, sla_cy, sra_cy, srl_cy, swap_cy]
    all_goals first | rfl | exact cb_cy _
  rw [if_neg ha11]
  by_cases ha12 : op = 0x2C
  · rw [if_pos ha12]
    try simp only []
    repeat' split
    all_goals try dsimp only
    all_goals try simp only [jr_cy, fetch_cy, fetch16_cy, setBC_cy, setDE_cy, setHL_cy, w8_cy, push_cy, pop_cy, call_cy, ret_cy, addHL_cy, inc8_cy, dec8_cy, daa_cy, addA_cy, subA_cy, andA_cy, xorA_cy, orA_cy, cpA_cy, setAF_cy, spAdd_cy, bitT_cy, rl_cy, rr_cy, sla_cy, sra_cy, srl_cy, swap_cy]
    all_goals first | rfl | exact cb_cy _
  rw [if_neg ha12]
  by_cases ha13 : op = 0x2D
  · rw [if_pos ha13]
    try simp only []
    repeat' split
    all_goals try dsimp only
    all_goals try simp only [jr_cy, fetch_cy, fetch16_cy, setBC_cy, setDE_cy, setHL_cy, w8_cy, push_cy, pop_cy, call_cy, ret_cy, addHL_cy, inc8_cy, dec8_cy, daa_cy, addA_cy, subA_cy, andA_cy, xorA_cy, orA_cy, cpA_cy, setAF_cy, spAdd_cy, bitT_cy, rl_cy, rr_cy, sla_cy, sra_cy, srl_cy, swap_cy]
    all_goals first | rfl | exact cb_cy _
  rw [if_neg ha13]
  by_cases ha14 : op = 0x2E
  · rw [if_pos ha14]
    try simp only []
    repeat' split
    all_goals try dsimp only
    all_goals try simp only [jr_cy, fetch_cy, fetch16_cy, setBC_cy, setDE_cy, setHL_cy, w8_cy, push_cy, pop_cy, call_cy, ret_cy, addHL_cy, inc8_cy, dec8_cy, daa_cy, addA_cy, subA_cy, andA_cy, xorA_cy, orA_cy, cpA_cy, setAF_cy, spAdd_cy, bitT_cy, rl_cy, rr_cy, sla_cy, sra_cy, srl_cy, swap_cy]
    all_goals first | rfl | exact cb_cy _
  rw [if_neg ha14]
  by_cases ha15 : op = 0x2F
  · rw [if_pos ha15]
    try simp only []
    repeat' split
    all_goals try dsimp only
    all_goals try simp only [jr_cy, fetch_cy, fetch16_cy, setBC_cy, setDE_cy, setHL_cy, w8_cy, push_cy, pop_cy, call_cy, ret_cy, addHL_cy, inc8_cy, dec8_cy, daa_cy, addA_cy, subA_cy, andA_cy, xorA_cy, orA_cy, cpA_cy, setAF_cy, spAdd_cy, bitT_cy, rl_cy, rr_cy, sla_cy, sra_cy, srl_cy, swap_cy]
    all_goals first | rfl | exact cb_cy _
  rw [if_neg ha15]
  try simp only []
  repeat' split
  all_goals try dsimp only
  all_goals try simp only [jr_cy, fetch_cy, fetch16_cy, setBC_cy, setDE_cy, setHL_cy, w8_cy, push_cy, pop_cy, call_cy, ret_cy, addHL_cy, inc8_cy, dec8_cy, daa_cy, addA_cy, subA_cy, andA_cy, xorA_cy, orA_cy, cpA_cy, setAF_cy, spAdd_cy, bitT_cy, rl_cy, rr_cy, sla_cy, sra_cy, srl_cy, swap_cy]
  all_goals first | rfl | exact cb_cy _

theorem exec02_cost (op : Nat) (s : CPU) : 4 ≤ (exec02 op s).1 ∧ (exec02 op s).1 ≤ 24 := by
  unfold exec02
  by_cases ha0 : op = 0x20
  · rw [if_pos ha0]
    try simp only []
    repeat' split
    all_goals try dsimp only
    all_goals first | decide | (split <;> decide) | exact cb_cost _
  rw [if_neg ha0]
  by_cases ha1 : op = 0x21
  · rw [if_pos ha1]
    try simp only []
    repeat' split
    all_goals try dsimp only
    all_goals first | decide | (split <;> decide) | exact cb_cost _
  rw [if_neg ha1]
  by_cases ha2 : op = 0x22
  · rw [if_pos ha2]
    try simp only []
    repeat' split
    all_goals try dsimp only
    all_goals first | decide | (split <;> decide) | exact cb_cost _
  rw [if_neg ha2]
  by_cases ha3 : op = 0x23
  · rw [if_pos ha3]
    try simp only []
    repeat' split
    all_goals try dsimp only
    all_goals first | decide | (split <;> decide) | exact cb_cost _
  rw [if_neg ha3]
  by_cases ha4 : op = 0x24
  · rw [if_pos ha4]
    try simp only []
    repeat' split
    all_goals try dsimp only
    all_goals first | decide | (split <;> decide) | exact cb_cost _
  rw [if_neg ha4]
  by_cases ha5 : op = 0x25
  · rw [if_pos ha5]
    try simp only []
    repeat' split
    all_goals try dsimp only
    all_goals first | decide | (split <;> decide) | exact cb_cost _
  rw [if_neg ha5]
  by_cases ha6 : op = 0x26
  · rw [if_pos ha6]
    try simp only []
    repeat' split
    all_goals try dsimp only
    all_goals first | decide | (split <;> decide) | exact cb_cost _
  rw [if_neg ha6]
  by_cases ha7 : op = 0x27
  · rw [if_pos ha7]
    try simp only []
    repeat' split
    all_goals try dsimp only
    all_goals first | decide | (split <;> decide) | exact cb_cost _
  rw [if_neg ha7]
  by_cases ha8 : op = 0x28
  · rw [if_pos ha8]
    try simp only []
    repeat' split
    all_goals try dsimp only
    all_goals first | decide | (split <;> decide) | exact cb_cost _
  rw [if_neg ha8]
  by_cases ha9 : op = 0x29
  · rw [if_pos ha9]
    try simp only []
    repeat' split
    all_goals try dsimp only
    all_goals first | decide | (split <;> decide) | exact cb_cost _
  rw [if_neg ha9]
  by_cases ha10 : op = 0x2A
  · rw [if_pos ha10]
    try simp only []
    repeat' split
    all_goals try dsimp only
    all_goals first | decide | (split <;> decide) | exact cb_cost _
  rw [if_neg ha10]
  by_cases ha11 : op = 0x2B
  · rw [if_pos ha11]
    try simp only []
    repeat' split
    all_goals try dsimp only
    all_goals first | decide | (split <;> decide) | exact cb_cost _
  rw [if_neg ha11]
  by_cases ha12 : op = 0x2C
  · rw [if_pos ha12]
    try simp only []
    repeat' split
    all_goals try dsimp only
    all_goals first | decide | (split <;> decide) | exact cb_cost _
  rw [if_neg ha12]
  by_cases ha13 : op = 0x2D
  · rw [if_pos ha13]
    try simp only []
    repeat' split
    all_goals try dsimp only
    all_goals first | decide | (split <;> decide) | exact cb_cost _
  rw [if_neg ha13]
  by_cases ha14 : op = 0x2E
  · rw [if_pos ha14]
    try simp only []
    repeat' split
    all_goals try dsimp only
    all_goals first | decide | (split <;> decide) | exact cb_cost _
  rw [if_neg ha14]
  by_cases ha15 : op = 0x2F
  · rw [if_pos ha15]
    try simp only []
    repeat' split
    all_goals try dsimp only
    all_goals first | decide | (split <;> decide) | exact cb_cost _
  rw [if_neg ha15]
  try simp only []
  repeat' split
  all_goals try dsimp only
  all_goals first | decide | (split <;> decide) | exact cb_cost _

theorem exec03_f (op : Nat) (s : CPU) (h : s.f % 16 = 0) : (exec03 op s).2.f % 16 = 0 := by
  unfold exec03
  by_cases ha0 : op = 0x30
  · rw [if_pos ha0]
    try simp only []
    repeat' split
    all_goals try dsimp only
    all_goals try simp only [jr_f, fetch_f, fetch16_f, setBC_f, setDE_f, setHL_f, w8_f, push_f, pop_f, call_f, ret_f]
    all_goals
      first
        | exact h
        | exact sf_mod _ _ _ _
        | exact inc8_f _ _
        | exact dec8_f _ _
        | exact addHL_f _ _
        | exact daa_f _ h
        | exact addA_f _ _ _
        | exact subA_f _ _ _
        | exact andA_f _ _
        | exact xorA_f _ _
        | exact orA_f _ _
        | exact cpA_f _ _
        | exact setAF_f _ _
        | exact spAdd_f _ _
        | exact bitT_f _ _ _
        | exact rl_f _ _ _
        | exact rr_f _ _ _
        | exact sla_f _ _
        | exact sra_f _ _
        | exact srl_f _ _
        | exact swap_f _ _
        | exact cb_f _ h
        | (rw [or_mod16 _ _ (by decide)]; exact h)
  rw [if_neg ha0]
  by_cases ha1 : op = 0x31
  · rw [if_pos ha1]
    try simp only []
    repeat' split
    all_goals try dsimp only
    all_goals try simp only [jr_f, fetch_f, fetch16_f, setBC_f, setDE_f, setHL_f, w8_f, push_f, pop_f, call_f, ret_f]
    all_goals
      first
        | exact h
        | exact sf_mod _ _ _ _
        | exact inc8_f _ _
        | exact dec8_f _ _
        | exact addHL_f _ _
        | exact daa_f _ h
        | exact addA_f _ _ _
        | exact subA_f _ _ _
        | exact andA_f _ _
        | exact xorA_f _ _
        | exact orA_f _ _
        | exact cpA_f _ _
        | exact setAF_f _ _
        | exact spAdd_f _ _
        | exact bitT_f _ _ _
        | exact rl_f _ _ _
        | exact rr_f _ _ _
        | exact sla_f _ _
        | exact sra_f _ _
        | exact srl_f _ _
        | exact swap_f _ _
        | exact cb_f _ h
        | (rw [or_mod16 _ _ (by decide)]; exact h)
  rw [if_neg ha1]
  by_cases ha2 : op = 0x32
  · rw [if_pos ha2]
    try simp only []
    repeat' split
    all_goals try dsimp only
    all_goals try simp only [jr_f, fetch_f, fetch16_f, setBC_f, setDE_f, setHL_f, w8_f, push_f, pop_f, call_f, ret_f]
    all_goals
      first
        | exact h
        | exact sf_mod _ _ _ _
        | exact inc8_f _ _
        | exact dec8_f _ _
        | exact addHL_f _ _
        | exact daa_f _ h
        | exact addA_f _ _ _
        | exact subA_f _ _ _
        | exact andA_f _ _
        | exact xorA_f _ _
        | exact orA_f _ _
        | exact cpA_f _ _
        | exact setAF_f _ _
        | exact spAdd_f _ _
        | exact bitT_f _ _ _
        | exact rl_f _ _ _
        | exact rr_f _ _ _
        | exact sla_f _ _
        | exact sra_f _ _
        | exact srl_f _ _
        | exact swap_f _ _
        | exact cb_f _ h
        | (rw [or_mod16 _ _ (by decide)]; exact h)
  rw [if_neg ha2]
  by_cases ha3 : op = 0x33
  · rw [if_pos ha3]
    try simp only []
    repeat' split
    all_goals try dsimp only
    all_goals try simp only [jr_f, fetch_f, fetch16_f, setBC_f, setDE_f, setHL_f, w8_f, push_f, pop_f, call_f, ret_f]
    all_goals
      first
        | exact h
        | exact sf_mod _ _ _ _
        | exact inc8_f _ _
        | exact dec8_f _ _
        | exact addHL_f _ _
        | exact daa_f _ h
        | exact addA_f _ _ _
        | exact subA_f _ _ _
        | exact andA_f _ _
        | exact xorA_f _ _
        | exact orA_f _ _
        | exact cpA_f _ _
        | exact setAF_f _ _
        | exact spAdd_f _ _
        | exact bitT_f _ _ _
        | exact rl_f _ _ _
        | exact rr_f _ _ _
        | exact sla_f _ _
        | exact sra_f _ _
        | exact srl_f _ _
        | exact swap_f _ _
        | exact cb_f _ h
        | (rw [or_mod16 _ _ (by decide)]; exact h)
  rw [if_neg ha3]
  by_cases ha4 : op = 0x34
  · rw [if_pos ha4]
    try simp only []
    repeat' split
    all_goals try dsimp only
    all_goals try simp only [jr_f, fetch_f, fetch16_f, setBC_f, setDE_f, setHL_f, w8_f, push_f, pop_f, call_f, ret_f]
    all_goals
      first
        | exact h
        | exact sf_mod _ _ _ _
        | exact inc8_f _ _
        | exact dec8_f _ _
        | exact addHL_f _ _
        | exact daa_f _ h
        | exact addA_f _ _ _
        | exact subA_f _ _ _
        | exact andA_f _ _
        | exact xorA_f _ _
        | exact orA_f _ _
        | exact cpA_f _ _
        | exact setAF_f _ _
        | exact spAdd_f _ _
        | exact bitT_f _ _ _
        | exact rl_f _ _ _
        | exact rr_f _ _ _
        | exact sla_f _ _
        | exact sra_f _ _
        | exact srl_f _ _
        | exact swap_f _ _
        | exact cb_f _ h
        | (rw [or_mod16 _ _ (by decide)]; exact h)
  rw [if_neg ha4]
  by_cases ha5 : op = 0x35
  · rw [if_pos ha5]
    try simp only []
    repeat' split
    all_goals try dsimp only
    all_goals try simp only [jr_f, fetch_f, fetch16_f, setBC_f, setDE_f, setHL_f, w8_f, push_f, pop_f, call_f, ret_f]
    all_goals
      first
        | exact h
        | exact sf_mod _ _ _ _
        | exact inc8_f _ _
        | exact dec8_f _ _
        | exact addHL_f _ _
        | exact daa_f _ h
        | exact addA_f _ _ _
        | exact subA_f _ _ _
        | exact andA_f _ _
        | exact xorA_f _ _
        | exact orA_f _ _
        | exact cpA_f _ _
        | exact setAF_f _ _
        | exact spAdd_f _ _
        | exact bitT_f _ _ _
        | exact rl_f _ _ _
        | exact rr_f _ _ _
        | exact sla_f _ _
        | exact sra_f _ _
        | exact srl_f _ _
        | exact swap_f _ _
        | exact cb_f _ h
        | (rw [or_mod16 _ _ (by decide)]; exact h)
  rw [if_neg ha5]
  by_cases ha6 : op = 0x36
  · rw [if_pos ha6]
    try simp only []
    repeat' split
    all_goals try dsimp only
    all_goals try simp only [jr_f, fetch_f, fetch16_f, setBC_f, setDE_f, setHL_f, w8_f, push_f, pop_f, call_f, ret_f]
    all_goals
      first
        | exact h
        | exact sf_mod _ _ _ _
        | exact inc8_f _ _
        | exact dec8_f _ _
        | exact addHL_f _ _
        | exact daa_f _ h
        | exact addA_f _ _ _
        | exact subA_f _ _ _
        | exact andA_f _ _
        | exact xorA_f _ _
        | exact orA_f _ _
        | exact cpA_f _ _
        | exact setAF_f _ _
        | exact spAdd_f _ _
        | exact bitT_f _ _ _
        | exact rl_f _ _ _
        | exact rr_f _ _ _
        | exact sla_f _ _
        | exact sra_f _ _
        | exact srl_f _ _
        | exact swap_f _ _
        | exact cb_f _ h
        | (rw [or_mod16 _ _ (by decide)]; exact h)
  rw [if_neg ha6]
  by_cases ha7 : op = 0x37
  · rw [if_pos ha7]
    try simp only []
    repeat' split
    all_goals try dsimp only
    all_goals try simp only [jr_f, fetch_f, fetch16_f, setBC_f, setDE_f, setHL_f, w8_f, push_f, pop_f, call_f, ret_f]
    all_goals
      first
        | exact h
        | exact sf_mod _ _ _ _
        | exact inc8_f _ _
        | exact dec8_f _ _
        | exact addHL_f _ _
        | exact daa_f _ h
        | exact addA_f _ _ _
        | exact subA_f _ _ _
        | exact andA_f _ _
        | exact xorA_f _ _
        | exact orA_f _ _
        | exact cpA_f _ _
        | exact setAF_f _ _
        | exact spAdd_f _ _
        | exact bitT_f _ _ _
        | exact rl_f _ _ _
        | exact rr_f _ _ _
        | exact sla_f _ _
        | exact sra_f _ _
        | exact srl_f _ _
        | exact swap_f _ _
        | exact cb_f _ h
        | (rw [or_mod16 _ _ (by decide)]; exact h)
  rw [if_neg ha7]
  by_cases ha8 : op = 0x38
  · rw [if_pos ha8]
    try simp only []
    repeat' split
    all_goals try dsimp only
    all_goals try simp only [jr_f, fetch_f, fetch16_f, setBC_f, setDE_f, setHL_f, w8_f, push_f, pop_f, call_f, ret_f]
    all_goals
      first
        | exact h
        | exact sf_mod _ _ _ _
        | exact inc8_f _ _
        | exact dec8_f _ _
        | exact addHL_f _ _
        | exact daa_f _ h
        | exact addA_f _ _ _
        | exact subA_f _ _ _
        | exact andA_f _ _
        | exact xorA_f _ _
        | exact orA_f _ _
        | exact cpA_f _ _
        | exact setAF_f _ _
        | exact spAdd_f _ _
        | exact bitT_f _ _ _
        | exact rl_f _ _ _
        | exact rr_f _ _ _
        | exact sla_f _ _
        | exact sra_f _ _
        | exact srl_f _ _
        | exact swap_f _ _
        | exact cb_f _ h
        | (rw [or_mod16 _ _ (by decide)]; exact h)
  rw [if_neg ha8]
  by_cases ha9 : op = 0x39
  · rw [if_pos ha9]
    try simp only []
    repeat' split
    all_goals try dsimp only
    all_goals try simp only [jr_f, fetch_f, fetch16_f, setBC_f, setDE_f, setHL_f, w8_f, push_f, pop_f, call_f, ret_f]
    all_goals
      first
        | exact h
        | exact sf_mod _ _ _ _
        | exact inc8_f _ _
        | exact dec8_f _ _
        | exact addHL_f _ _
        | exact daa_f _ h
        | exact addA_f _ _ _
        | exact subA_f _ _ _
        | exact andA_f _ _
        | exact xorA_f _ _
        | exact orA_f _ _
        | exact cpA_f _ _
        | exact setAF_f _ _
        | exact spAdd_f _ _
        | exact bitT_f _ _ _
        | exact rl_f _ _ _
        | exact rr_f _ _ _
        | exact sla_f _ _
        | exact sra_f _ _
        | exact srl_f _ _
        | exact swap_f _ _
        | exact cb_f _ h
        | (rw [or_mod16 _ _ (by decide)]; exact h)
  rw [if_neg ha9]
  by_cases ha10 : op = 0x3A
  · rw [if_pos ha10]
    try simp only []
    repeat' split
    all_goals try dsimp only
    all_goals try simp only [jr_f, fetch_f, fetch16_f, setBC_f, setDE_f, setHL_f, w8_f, push_f, pop_f, call_f, ret_f]
    all_goals
      first
        | exact h
        | exact sf_mod _ _ _ _
        | exact inc8_f _ _
        | exact dec8_f _ _
        | exact addHL_f _ _
        | exact daa_f _ h
        | exact addA_f _ _ _
        | exact subA_f _ _ _
        | exact andA_f _ _
        | exact xorA_f _ _
        | exact orA_f _ _
        | exact cpA_f _ _
        | exact setAF_f _ _
        | exact spAdd_f _ _
        | exact bitT_f _ _ _
        | exact rl_f _ _ _
        | exact rr_f _ _ _
        | exact sla_f _ _
        | exact sra_f _ _
        | exact srl_f _ _
        | exact swap_f _ _
        | exact cb_f _ h
        | (rw [or_mod16 _ _ (by decide)]; exact h)
  rw [if_neg ha10]
  by_cases ha11 : op = 0x3B
  · rw [if_pos ha11]
    try simp only []
    repeat' split
    all_goals try dsimp only
    all_goals try simp only [jr_f, fetch_f, fetch16_f, setBC_f, setDE_f, setHL_f, w8_f, push_f, pop_f, call_f, ret_f]
    all_goals
      first
        | exact h
        | exact sf_mod _ _ _ _
        | exact inc8_f _ _
        | exact dec8_f _ _
        | exact addHL_f _ _
        | exact daa_f _ h
        | exact addA_f _ _ _
        | exact subA_f _ _ _
        | exact andA_f _ _
        | exact xorA_f _ _
        | exact orA_f _ _
        | exact cpA_f _ _
        | exact setAF_f _ _
        | exact spAdd_f _ _
        | exact bitT_f _ _ _
        | exact rl_f _ _ _
        | exact rr_f _ _ _
        | exact sla_f _ _
        | exact sra_f _ _
        | exact srl_f _ _
        | exact swap_f _ _
        | exact cb_f _ h
        | (rw [or_mod16 _ _ (by decide)]; exact h)
  rw [if_neg ha11]
  by_cases ha12 : op = 0x3C
  · rw [if_pos ha12]
    try simp only []
    repeat' split
    all_goals try dsimp only
    all_goals try simp only [jr_f, fetch_f, fetch16_f, setBC_f, setDE_f, setHL_f, w8_f, push_f, pop_f, call_f, ret_f]
    all_goals
      first
        | exact h
        | exact sf_mod _ _ _ _
        | exact inc8_f _ _
        | exact dec8_f _ _
        | exact addHL_f _ _
        | exact daa_f _ h
        | exact addA_f _ _ _
        | exact subA_f _ _ _
        | exact andA_f _ _
        | exact xorA_f _ _
        | exact orA_f _ _
        | exact cpA_f _ _
        | exact setAF_f _ _
        | exact spAdd_f _ _
        | exact bitT_f _ _ _
        | exact rl_f _ _ _
        | exact rr_f _ _ _
        | exact sla_f _ _
        | exact sra_f _ _
        | exact srl_f _ _
        | exact swap_f _ _
        | exact cb_f _ h
        | (rw [or_mod16 _ _ (by decide)]; exact h)
  rw [if_neg ha12]
  by_cases ha13 : op = 0x3D
  · rw [if_pos ha13]
    try simp only []
    repeat' split
    all_goals try dsimp only
    all_goals try simp only [jr_f, fetch_f, fetch16_f, setBC_f, setDE_f, setHL_f, w8_f, push_f, pop_f, call_f, ret_f]
    all_goals
      first
        | exact h
        | exact sf_mod _ _ _ _
        | exact inc8_f _ _
        | exact dec8_f _ _
        | exact addHL_f _ _
        | exact daa_f _ h
        | exact addA_f _ _ _
        | exact subA_f _ _ _
        | exact andA_f _ _
        | exact xorA_f _ _
        | exact orA_f _ _
        | exact cpA_f _ _
        | exact setAF_f _ _
        | exact spAdd_f _ _
        | exact bitT_f _ _ _
        | exact rl_f _ _ _
        | exact rr_f _ _ _
        | exact sla_f _ _
        | exact sra_f _ _
        | exact srl_f _ _
        | exact swap_f _ _
        | exact cb_f _ h
        | (rw [or_mod16 _ _ (by decide)]; exact h)
  rw [if_neg ha13]
  by_cases ha14 : op = 0x3E
  · rw [if_pos ha14]
    try simp only []
    repeat' split
    all_goals try dsimp only
    all_goals try simp only [jr_f, fetch_f, fetch16_f, setBC_f, setDE_f, setHL_f, w8_f, push_f, pop_f, call_f, ret_f]
    all_goals
      first
        | exact h
        | exact sf_mod _ _ _ _
        | exact inc8_f _ _
        | exact dec8_f _ _
        | exact addHL_f _ _
        | exact daa_f _ h
        | exact addA_f _ _ _
        | exact subA_f _ _ _
        | exact andA_f _ _
        | exact xorA_f _ _
        | exact orA_f _ _
        | exact cpA_f _ _
        | exact setAF_f _ _
        | exact spAdd_f _ _
        | exact bitT_f _ _ _
        | exact rl_f _ _ _
        | exact rr_f _ _ _
        | exact sla_f _ _
        | exact sra_f _ _
        | exact srl_f _ _
        | exact swap_f _ _
        | exact cb_f _ h
        | (rw [or_mod16 _ _ (by decide)]; exact h)
  rw [if_neg ha14]
  by_cases ha15 : op = 0x3F
  · rw [if_pos ha15]
    try simp only []
    repeat' split
    all_goals try dsimp only
    all_goals try simp only [jr_f, fetch_f, fetch16_f, setBC_f, setDE_f, setHL_f, w8_f, push_f, pop_f, call_f, ret_f]
    all_goals
      first
        | exact h
        | exact sf_mod _ _ _ _
        | exact inc8_f _ _
        | exact dec8_f _ _
        | exact addHL_f _ _
        | exact daa_f _ h
        | exact addA_f _ _ _
        | exact subA_f _ _ _
        | exact andA_f _ _
        | exact xorA_f _ _
        | exact orA_f _ _
        | exact cpA_f _ _
        | exact setAF_f _ _
        | exact spAdd_f _ _
        | exact bitT_f _ _ _
        | exact rl_f _ _ _
        | exact rr_f _ _ _
        | exact sla_f _ _
        | exact sra_f _ _
        | exact srl_f _ _
        | exact swap_f _ _
        | exact cb_f _ h
        | (rw [or_mod16 _ _ (by decide)]; exact h)
  rw [if_neg ha15]
  try simp only []
  repeat' split
  all_goals try dsimp only
  all_goals try simp only [jr_f, fetch_f, fetch16_f, setBC_f, setDE_f, setHL_f, w8_f, push_f, pop_f, call_f, ret_f]
  all_goals
    first
      | exact h
      | exact sf_mod _ _ _ _
      | exact inc8_f _ _
      | exact dec8_f _ _
      | exact addHL_f _ _
      | exact daa_f _ h
      | exact addA_f _ _ _
      | exact subA_f _ _ _
      | exact andA_f _ _
      | exact xorA_f _ _
      | exact orA_f _ _
      | exact cpA_f _ _
      | exact setAF_f _ _
      | exact spAdd_f _ _
      | exact bitT_f _ _ _
      | exact rl_f _ _ _
      | exact rr_f _ _ _
      | exact sla_f _ _
      | exact sra_f _ _
      | exact srl_f _ _
      | exact swap_f _ _
      | exact cb_f _ h
      | (rw [or_mod16 _ _ (by decide)]; exact h)

theorem exec03_cy (op : Nat) (s : CPU) : (exec03 op s).2.cycles = s.cycles := by
  unfold exec03
  by_cases ha0 : op = 0x30
  · rw [if_pos ha0]
    try simp only []
    repeat' split
    all_goals try dsimp only
    all_goals try simp only [jr_cy, fetch_cy, fetch16_cy, setBC_cy, setDE_cy, setHL_cy, w8_cy, push_cy, pop_cy, call_cy, ret_cy, addHL_cy, inc8_cy, dec8_cy, daa_cy, addA_cy, subA_cy, andA_cy, xorA_cy, orA_cy, cpA_cy, setAF_cy, spAdd_cy, bitT_cy, rl_cy, rr_cy, sla_cy, sra_cy, srl_cy, swap_cy]
    all_goals first | rfl | exact cb_cy _
  rw [if_neg ha0]
  by_cases ha1 : op = 0x31
  · rw [if_pos ha1]
    try simp only []
    repeat' split
    all_goals try dsimp only
    all_goals try simp only [jr_cy, fetch_cy, fetch16_cy, setBC_cy, setDE_cy, setHL_cy, w8_cy, push_cy, pop_cy, call_cy, ret_cy, addHL_cy, inc8_cy, dec8_cy, daa_cy, addA_cy, subA_cy, andA_cy, xorA_cy, orA_cy, cpA_cy, setAF_cy, spAdd_cy, bitT_cy, rl_cy, rr_cy, sla_cy, sra_cy, srl_cy, swap_cy]
    all_goals first | rfl | exact cb_cy _
  rw [if_neg ha1]
  by_cases ha2 : op = 0x32
  · rw [if_pos ha2]
    try simp only []
    repeat' split
    all_goals try dsimp only
    all_goals try simp only [jr_cy, fetch_cy, fetch16_cy, setBC_cy, setDE_cy, setHL_cy, w8_cy, push_cy, pop_cy, call_cy, ret_cy, addHL_cy, inc8_cy, dec8_cy, daa_cy, addA_cy, subA_cy, andA_cy, xorA_cy, orA_cy, cpA_cy, setAF_cy, spAdd_cy, bitT_cy, rl_cy, rr_cy, sla_cy, sra_cy, srl_cy, swap_cy]
    all_goals first | rfl | exact cb_cy _
  rw [if_neg ha2]
  by_cases ha3 : op = 0x33
  · rw [if_pos ha3]
    try simp only []
    repeat' split
    all_goals try dsimp only
    all_goals try simp only [jr_cy, fetch_cy, fetch16_cy, setBC_cy, setDE_cy, setHL_cy, w8_cy, push_cy, pop_cy, call_cy, ret_cy, addHL_cy, inc8_cy, dec8_cy, daa_cy, addA_cy, subA_cy, andA_cy, xorA_cy, orA_cy, cpA_cy, setAF_cy, spAdd_cy, bitT_cy, rl_cy, rr_cy, sla_cy, sra_cy, srl_cy, swap_cy]
    all_goals first | rfl | exact cb_cy _
  rw [if_neg ha3]
  by_cases ha4 : op = 0x34
  · rw [if_pos ha4]
    try simp only []
    repeat' split
    all_goals try dsimp only
    all_goals try simp only [jr_cy, fetch_cy, fetch16_cy, setBC_cy, setDE_cy, setHL_cy, w8_cy, push_cy, pop_cy, call_cy, ret_cy, addHL_cy, inc8_cy, dec8_cy, daa_cy, addA_cy, subA_cy, andA_cy, xorA_cy, orA_cy, cpA_cy, setAF_cy, spAdd_cy, bitT_cy, rl_cy, rr_cy, sla_cy, sra_cy, srl_cy, swap_cy]
    all_goals first | rfl | exact cb_cy _
  rw [if_neg ha4]
  by_cases ha5 : op = 0x35
  · rw [if_pos ha5]
    try simp only []
    repeat' split
    all_goals try dsimp only
    all_goals try simp only [jr_cy, fetch_cy, fetch16_cy, setBC_cy, setDE_cy, setHL_cy, w8_cy, push_cy, pop_cy, call_cy, ret_cy, addHL_cy, inc8_cy, dec8_cy, daa_cy, addA_cy, subA_cy, andA_cy, xorA_cy, orA_cy, cpA_cy, setAF_cy, spAdd_cy, bitT_cy, rl_cy, rr_cy, sla_cy, sra_cy, srl_cy, swap_cy]
    all_goals first | rfl | exact cb_cy _
  rw [if_neg ha5]
  by_cases ha6 : op = 0x36
  · rw [if_pos ha6]
    try simp only []
    repeat' split
    all_goals try dsimp only
    all_goals try simp only [jr_cy, fetch_cy, fetch16_cy, setBC_cy, setDE_cy, setHL_cy, w8_cy, push_cy, pop_cy, call_cy, ret_cy, addHL_cy, inc8_cy, dec8_cy, daa_cy, addA_cy, subA_cy, andA_cy, xorA_cy, orA_cy, cpA_cy, setAF_cy, spAdd_cy, bitT_cy, rl_cy, rr_cy, sla_cy, sra_cy, srl_cy, swap_cy]
    all_goals first | rfl | exact cb_cy _
  rw [if_neg ha6]
  by_cases ha7 : op = 0x37
  · rw [if_pos ha7]
    try simp only []
    repeat' split
    all_goals try dsimp only
    all_goals try simp only [jr_cy, fetch_cy, fetch16_cy, setBC_cy, setDE_cy, setHL_cy, w8_cy, push_cy, pop_cy, call_cy, ret_cy, addHL_cy, inc8_cy, dec8_cy, daa_cy, addA_cy, subA_cy, andA_cy, xorA_cy, orA_cy, cpA_cy, setAF_cy, spAdd_cy, bitT_cy, rl_cy, rr_cy, sla_cy, sra_cy, srl_cy, swap_cy]
    all_goals first | rfl | exact cb_cy _
  rw [if_neg ha7]
  by_cases ha8 : op = 0x38
  · rw [if_pos ha8]
    try simp only []
    repeat' split
    all_goals try dsimp only
    all_goals try simp only [jr_cy, fetch_cy, fetch16_cy, setBC_cy, setDE_cy, setHL_cy, w8_cy, push_cy, pop_cy, call_cy, ret_cy, addHL_cy, inc8_cy, dec8_cy, daa_cy, addA_cy, subA_cy, andA_cy, xorA_cy, orA_cy, cpA_cy, setAF_cy, spAdd_cy, bitT_cy, rl_cy, rr_cy, sla_cy, sra_cy, srl_cy, swap_cy]
    all_goals first | rfl | exact cb_cy _
  rw [if_neg ha8]
  by_cases ha9 : op = 0x39
  · rw [if_pos ha9]
    try simp only []
    repeat' split
    all_goals try dsimp only
    all_goals try simp only [jr_cy, fetch_cy, fetch16_cy, setBC_cy, setDE_cy, setHL_cy, w8_cy, push_cy, pop_cy, call_cy, ret_cy, addHL_cy, inc8_cy, dec8_cy, daa_cy, addA_cy, subA_cy, andA_cy, xorA_cy, orA_cy, cpA_cy, setAF_cy, spAdd_cy, bitT_cy, rl_cy, rr_cy, sla_cy, sra_cy, srl_cy, swap_cy]
    all_goals first | rfl | exact cb_cy _
  rw [if_neg ha9]
  by_cases ha10 : op = 0x3A
  · rw [if_pos ha10]
    try simp only []
    repeat' split
    all_goals try dsimp only
    all_goals try simp only [jr_cy, fetch_cy, fetch16_cy, setBC_cy, setDE_cy, setHL_cy, w8_cy, push_cy, pop_cy, call_cy, ret_cy, addHL_cy, inc8_cy, dec8_cy, daa_cy, addA_cy, subA_cy, andA_cy, xorA_cy, orA_cy, cpA_cy, setAF_cy, spAdd_cy, bitT_cy, rl_cy, rr_cy, sla_cy, sra_cy, srl_cy, swap_cy]
    all_goals first | rfl | exact cb_cy _
  rw [if_neg ha10]
  by_cases ha11 : op = 0x3B
  · rw [if_pos ha11]
    try simp only []
    repeat' split
    all_goals try dsimp only
    all_goals try simp only [jr_cy, fetch_cy, fetch16_cy, setBC_cy, setDE_cy, setHL_cy, w8_cy, push_cy, pop_cy, call_cy, ret_cy, addHL_cy, inc8_cy, dec8_cy, daa_cy, addA_cy, subA_cy, andA_cy, xorA_cy, orA_cy, cpA_cy, setAF_cy, spAdd_cy, bitT_cy, rl_cy, rr_cy, sla_cy, sra_cy, srl_cy, swap_cy]
    all_goals first | rfl | exact cb_cy _
  rw [if_neg ha11]
  by_cases ha12 : op = 0x3C
  · rw [if_pos ha12]
    try simp only []
    repeat' split
    all_goals try dsimp only
    all_goals try simp only [jr_cy, fetch_cy, fetch16_cy, setBC_cy, setDE_cy, setHL_cy, w8_cy, push_cy, pop_cy, call_cy, ret_cy, addHL_cy, inc8_cy, dec8_cy, daa_cy, addA_cy, subA_cy, andA_cy, xorA_cy, orA_cy, cpA_cy, setAF_cy, spAdd_cy, bitT_cy, rl_cy, rr_cy, sla_cy, sra_cy, srl_cy, swap_cy]
    all_goals first | rfl | exact cb_cy _
  rw [if_neg ha12]
  by_cases ha13 : op = 0x3D
  · rw [if_pos ha13]
    try simp only []
    repeat' split
    all_goals try dsimp only
    all_goals try simp only [jr_cy, fetch_cy, fetch16_cy, setBC_cy, setDE_cy, setHL_cy, w8_cy, push_cy, pop_cy, call_cy, ret_cy, addHL_cy, inc8_cy, dec8_cy, daa_cy, addA_cy, subA_cy, andA_cy, xorA_cy, orA_cy, cpA_cy, setAF_cy, spAdd_cy, bitT_cy, rl_cy, rr_cy, sla_cy, sra_cy, srl_cy, swap_cy]
    all_goals first | rfl | exact cb_cy _
  rw [if_neg ha13]
  by_cases ha14 : op = 0x3E
  · rw [if_pos ha14]
    try simp only []
    repeat' split
    all_goals try dsimp only
    all_goals try simp only [jr_cy, fetch_cy, fetch16_cy, setBC_cy, setDE_cy, setHL_cy, w8_cy, push_cy, pop_cy, call_cy, ret_cy, addHL_cy, inc8_cy, dec8_cy, daa_cy, addA_cy, subA_cy, andA_cy, xorA_cy, orA_cy, cpA_cy, setAF_cy, spAdd_cy, bitT_cy, rl_cy, rr_cy, sla_cy, sra_cy, srl_cy, swap_cy]
    all_goals first | rfl | exact cb_cy _
  rw [if_neg ha14]
  by_cases ha15 : op = 0x3F
  · rw [if_pos ha15]
    try simp only []
    repeat' split
    all_goals try dsimp only
    all_goals try simp only [jr_cy, fetch_cy, fetch16_cy, setBC_cy, setDE_cy, setHL_cy, w8_cy, push_cy, pop_cy, call_cy, ret_cy, addHL_cy, inc8_cy, dec8_cy, daa_cy, addA_cy, subA_cy, andA_cy, xorA_cy, orA_cy, cpA_cy, setAF_cy, spAdd_cy, bitT_cy, rl_cy, rr_cy, sla_cy, sra_cy, srl_cy, swap_cy]
    all_goals first | rfl | exact cb_cy _
  rw [if_neg ha15]
  try simp only []
  repeat' split
  all_goals try dsimp only
  all_goals try simp only [jr_cy, fetch_cy, fetch16_cy, setBC_cy, setDE_cy, setHL_cy, w8_cy, push_cy, pop_cy, call_cy, ret_cy, addHL_cy, inc8_cy, dec8_cy, daa_cy, addA_cy, subA_cy, andA_cy, xorA_cy, orA_cy, cpA_cy, setAF_cy, spAdd_cy, bitT_cy, rl_cy, rr_cy, sla_cy, sra_cy, srl_cy, swap_cy]
  all_goals first | rfl | exact cb_cy _

theorem exec03_cost (op : Nat) (s : CPU) : 4 ≤ (exec03 op s).1 ∧ (exec03 op s).1 ≤ 24 := by
  unfold exec03
  by_cases ha0 : op = 0x30
  · rw [if_pos ha0]
    try simp only []
    repeat' split
    all_goals try dsimp only
    all_goals first | decide | (split <;> decide) | exact cb_cost _
  rw [if_neg ha0]
  by_cases ha1 : op = 0x31
  · rw [if_pos ha1]
    try simp only []
    repeat' split
    all_goals try dsimp only
    all_goals first | decide | (split <;> decide) | exact cb_cost _
  rw [if_neg ha1]
  by_cases ha2 : op = 0x32
  · rw [if_pos ha2]
    try simp only []
    repeat' split
    all_goals try dsimp only
    all_goals first | decide | (split <;> decide) | exact cb_cost _
  rw [if_neg ha2]
  by_cases ha3 : op = 0x33
  · rw [if_pos ha3]
    try simp only []
    repeat' split
    all_goals try dsimp only
    all_goals first | decide | (split <;> decide) | exact cb_cost _
  rw [if_neg ha3]
  by_cases ha4 : op = 0x34
  · rw [if_pos ha4]
    try simp only []
    repeat' split
    all_goals try dsimp only
    all_goals first | decide | (split <;> decide) | exact cb_cost _
  rw [if_neg ha4]
  by_cases ha5 : op = 0x35
  · rw [if_pos ha5]
    try simp only []
    repeat' split
    all_goals try dsimp only
    all_goals first | decide | (split <;> decide) | exact cb_cost _
  rw [if_neg ha5]
  by_cases ha6 : op = 0x36
  · rw [if_pos ha6]
    try simp only []
    repeat' split
    all_goals try dsimp only
    all_goals first | decide | (split <;> decide) | exact cb_cost _
  rw [if_neg ha6]
  by_cases ha7 : op = 0x37
  · rw [if_pos ha7]
    try simp only []
    repeat' split
    all_goals try dsimp only
    all_goals first | decide | (split <;> decide) | exact cb_cost _
  rw [if_neg ha7]
  by_cases ha8 : op = 0x38
  · rw [if_pos ha8]
    try simp only []
    repeat' split
    all_goals try dsimp only
    all_goals first | decide | (split <;> decide) | exact cb_cost _
  rw [if_neg ha8]
  by_cases ha9 : op = 0x39
  · rw [if_pos ha9]
    try simp only []
    repeat' split
    all_goals try dsimp only
    all_goals first | decide | (split <;> decide) | exact cb_cost _
  rw [if_neg ha9]
  by_cases ha10 : op = 0x3A
  · rw [if_pos ha10]
    try simp only []
    repeat' split
    all_goals try dsimp only
    all_goals first | decide | (split <;> decide) | exact cb_cost _
  rw [if_neg ha10]
  by_cases ha11 : op = 0x3B
  · rw [if_pos ha11]
    try simp only []
    repeat' split
    all_goals try dsimp only
    all_goals first | decide | (split <;> decide) | exact cb_cost _
  rw [if_neg ha11]
  by_cases ha12 : op = 0x3C
  · rw [if_pos ha12]
    try simp only []
    repeat' split
    all_goals try dsimp only
    all_goals first | decide | (split <;> decide) | exact cb_cost _
  rw [if_neg ha12]
  by_cases ha13 : op = 0x3D
  · rw [if_pos ha13]
    try simp only []
    repeat' split
    all_goals try dsimp only
    all_goals first | decide | (split <;> decide) | exact cb_cost _
  rw [if_neg ha13]
  by_cases ha14 : op = 0x3E
  · rw [if_pos ha14]
    try simp only []
    repeat' split
    all_goals try dsimp only
    all_goals first | decide | (split <;> decide) | exact cb_cost _
  rw [if_neg ha14]
  by_cases ha15 : op = 0x3F
  · rw [if_pos ha15]
    try simp only []
    repeat' split
    all_goals try dsimp only
    all_goals first | decide | (split <;> decide) | exact cb_cost _
  rw [if_neg ha15]
  try simp only []
  repeat' split
  all_goals try dsimp only
  all_goals first | decide | (split <;> decide) | exact cb_cost _

theorem execHiC_f (op : Nat) (s : CPU) (h : s.f % 16 = 0) : (execHiC op s).2.f % 16 = 0 := by
  unfold execHiC
  by_cases ha0 : op = 0xC0
  · rw [if_pos ha0]
    try simp only []
    repeat' split
    all_goals try dsimp only
    all_goals try simp only [jr_f, fetch_f, fetch16_f, setBC_f, setDE_f, setHL_f, w8_f, push_f, pop_f, call_f, ret_f]
    all_goals
      first
        | exact h
        | exact sf_mod _ _ _ _
        | exact inc8_f _ _
        | exact dec8_f _ _
        | exact addHL_f _ _
        | exact daa_f _ h
        | exact addA_f _ _ _
        | exact subA_f _ _ _
        | exact andA_f _ _
        | exact xorA_f _ _
        | exact orA_f _ _
        | exact cpA_f _ _
        | exact setAF_f _ _
        | exact spAdd_f _ _
        | exact bitT_f _ _ _
        | exact rl_f _ _ _
        | exact rr_f _ _ _
        | exact sla_f _ _
        | exact sra_f _ _
        | exact srl_f _ _
        | exact swap_f _ _
        | exact cb_f _ h
        | (rw [or_mod16 _ _ (by decide)]; exact h)
  rw [if_neg ha0]
  by_cases ha1 : op = 0xC1
  · rw [if_pos ha1]
    try simp only []
    repeat' split
    all_goals try dsimp only
    all_goals try simp only [jr_f, fetch_f, fetch16_f, setBC_f, setDE_f, setHL_f, w8_f, push_f, pop_f, call_f, ret_f]
    all_goals
      first
        | exact h
        | exact sf_mod _ _ _ _
        | exact inc8_f _ _
        | exact dec8_f _ _
        | exact addHL_f _ _
        | exact daa_f _ h
        | exact addA_f _ _ _
        | exact subA_f _ _ _
        | exact andA_f _ _
        | exact xorA_f _ _
        | exact orA_f _ _
        | exact cpA_f _ _
        | exact setAF_f _ _
        | exact spAdd_f _ _
        | exact bitT_f _ _ _
        | exact rl_f _ _ _
        | exact rr_f _ _ _
        | exact sla_f _ _
        | exact sra_f _ _
        | exact srl_f _ _
        | exact swap_f _ _
        | exact cb_f _ h
        | (rw [or_mod16 _ _ (by decide)]; exact h)
  rw [if_neg ha1]
  by_cases ha2 : op = 0xC2
  · rw [if_pos ha2]
    try simp only []
    repeat' split
    all_goals try dsimp only
    all_goals try simp only [jr_f, fetch_f, fetch16_f, setBC_f, setDE_f, setHL_f, w8_f, push_f, pop_f, call_f, ret_f]
    all_goals
      first
        | exact h
        | exact sf_mod _ _ _ _
        | exact inc8_f _ _
        | exact dec8_f _ _
        | exact addHL_f _ _
        | exact daa_f _ h
        | exact addA_f _ _ _
        | exact subA_f _ _ _
        | exact andA_f _ _
        | exact xorA_f _ _
        | exact orA_f _ _
        | exact cpA_f _ _
        | exact setAF_f _ _
        | exact spAdd_f _ _
        | exact bitT_f _ _ _
        | exact rl_f _ _ _
        | exact rr_f _ _ _
        | exact sla_f _ _
        | exact sra_f _ _
        | exact srl_f _ _
        | exact swap_f _ _
        | exact cb_f _ h
        | (rw [or_mod16 _ _ (by decide)]; exact h)
  rw [if_neg ha2]
  by_cases ha3 : op = 0xC3
  · rw [if_pos ha3]
    try simp only []
    repeat' split
    all_goals try dsimp only
    all_goals try simp only [jr_f, fetch_f, fetch16_f, setBC_f, setDE_f, setHL_f, w8_f, push_f, pop_f, call_f, ret_f]
    all_goals
      first
        | exact h
        | exact sf_mod _ _ _ _
        | exact inc8_f _ _
        | exact dec8_f _ _
        | exact addHL_f _ _
        | exact daa_f _ h
        | exact addA_f _ _ _
        | exact subA_f _ _ _
        | exact andA_f _ _
        | exact xorA_f _ _
        | exact orA_f _ _
        | exact cpA_f _ _
        | exact setAF_f _ _
        | exact spAdd_f _ _
        | exact bitT_f _ _ _
        | exact rl_f _ _ _
        | exact rr_f _ _ _
        | exact sla_f _ _
        | exact sra_f _ _
        | exact srl_f _ _
        | exact swap_f _ _
        | exact cb_f _ h
        | (rw [or_mod16 _ _ (by decide)]; exact h)
  rw [if_neg ha3]
  by_cases ha4 : op = 0xC4
  · rw [if_pos ha4]
    try simp only []
    repeat' split
    all_goals try dsimp only
    all_goals try simp only [jr_f, fetch_f, fetch16_f, setBC_f, setDE_f, setHL_f, w8_f, push_f, pop_f, call_f, ret_f]
    all_goals
      first
        | exact h
        | exact sf_mod _ _ _ _
        | exact inc8_f _ _
        | exact dec8_f _ _
        | exact addHL_f _ _
        | exact daa_f _ h
        | exact addA_f _ _ _
        | exact subA_f _ _ _
        | exact andA_f _ _
        | exact xorA_f _ _
        | exact orA_f _ _
        | exact cpA_f _ _
        | exact setAF_f _ _
        | exact spAdd_f _ _
        | exact bitT_f _ _ _
        | exact rl_f _ _ _
        | exact rr_f _ _ _
        | exact sla_f _ _
        | exact sra_f _ _
        | exact srl_f _ _
        | exact swap_f _ _
        | exact cb_f _ h
        | (rw [or_mod16 _ _ (by decide)]; exact h)
  rw [if_neg ha4]
  by_cases ha5 : op = 0xC5
  · rw [if_pos ha5]
    try simp only []
    repeat' split
    all_goals try dsimp only
    all_goals try simp only [jr_f, fetch_f, fetch16_f, setBC_f, setDE_f, setHL_f, w8_f, push_f, pop_f, call_f, ret_f]
    all_goals
      first
        | exact h
        | exact sf_mod _ _ _ _
        | exact inc8_f _ _
        | exact dec8_f _ _
        | exact addHL_f _ _
        | exact daa_f _ h
        | exact addA_f _ _ _
        | exact subA_f _ _ _
        | exact andA_f _ _
        | exact xorA_f _ _
        | exact orA_f _ _
        | exact cpA_f _ _
        | exact setAF_f _ _
        | exact spAdd_f _ _
        | exact bitT_f _ _ _
        | exact rl_f _ _ _
        | exact rr_f _ _ _
        | exact sla_f _ _
        | exact sra_f _ _
        | exact srl_f _ _
        | exact swap_f _ _
        | exact cb_f _ h
        | (rw [or_mod16 _ _ (by decide)]; exact h)
  rw [if_neg ha5]
  by_cases ha6 : op = 0xC6
  · rw [if_pos ha6]
    try simp only []
    repeat' split
    all_goals try dsimp only
    all_goals try simp only [jr_f, fetch_f, fetch16_f, setBC_f, setDE_f, setHL_f, w8_f, push_f, pop_f, call_f, ret_f]
    all_goals
      first
        | exact h
        | exact sf_mod _ _ _ _
        | exact inc8_f _ _
        | exact dec8_f _ _
        | exact addHL_f _ _
        | exact daa_f _ h
        | exact addA_f _ _ _
        | exact subA_f _ _ _
        | exact andA_f _ _
        | exact xorA_f _ _
        | exact orA_f _ _
        | exact cpA_f _ _
        | exact setAF_f _ _
        | exact spAdd_f _ _
        | exact bitT_f _ _ _
        | exact rl_f _ _ _
        | exact rr_f _ _ _
        | exact sla_f _ _
        | exact sra_f _ _
        | exact srl_f _ _
        | exact swap_f _ _
        | exact cb_f _ h
        | (rw [or_mod16 _ _ (by decide)]; exact h)
  rw [if_neg ha6]
  by_cases ha7 : op = 0xC7
  · rw [if_pos ha7]
    try simp only []
    repeat' split
    all_goals try dsimp only
    all_goals try simp only [jr_f, fetch_f, fetch16_f, setBC_f, setDE_f, setHL_f, w8_f, push_f, pop_f, call_f, ret_f]
    all_goals
      first
        | exact h
        | exact sf_mod _ _ _ _
        | exact inc8_f _ _
        | exact dec8_f _ _
        | exact addHL_f _ _
        | exact daa_f _ h
        | exact addA_f _ _ _
        | exact subA_f _ _ _
        | exact andA_f _ _
        | exact xorA_f _ _
        | exact orA_f _ _
        | exact cpA_f _ _
        | exact setAF_f _ _
        | exact spAdd_f _ _
        | exact bitT_f _ _ _
        | exact rl_f _ _ _
        | exact rr_f _ _ _
        | exact sla_f _ _
        | exact sra_f _ _
        | exact srl_f _ _
        | exact swap_f _ _
        | exact cb_f _ h
        | (rw [or_mod16 _ _ (by decide)]; exact h)
  rw [if_neg ha7]
  by_cases ha8 : op = 0xC8
  · rw [if_pos ha8]
    try simp only []
    repeat' split
    all_goals try dsimp only
    all_goals try simp only [jr_f, fetch_f, fetch16_f, setBC_f, setDE_f, setHL_f, w8_f, push_f, pop_f, call_f, ret_f]
    all_goals
      first
        | exact h
        | exact sf_mod _ _ _ _
        | exact inc8_f _ _
        | exact dec8_f _ _
        | exact addHL_f _ _
        | exact daa_f _ h
        | exact addA_f _ _ _
        | exact subA_f _ _ _
        | exact andA_f _ _
        | exact xorA_f _ _
        | exact orA_f _ _
        | exact cpA_f _ _
        | exact setAF_f _ _
        | exact spAdd_f _ _
        | exact bitT_f _ _ _
        | exact rl_f _ _ _
        | exact rr_f _ _ _
        | exact sla_f _ _
        | exact sra_f _ _
        | exact srl_f _ _
        | exact swap_f _ _
        | exact cb_f _ h
        | (rw [or_mod16 _ _ (by decide)]; exact h)
  rw [if_neg ha8]
  by_cases ha9 : op = 0xC9
  · rw [if_pos ha9]
    try simp only []
    repeat' split
    all_goals try dsimp only
    all_goals try simp only [jr_f, fetch_f, fetch16_f, setBC_f, setDE_f, setHL_f, w8_f, push_f, pop_f, call_f, ret_f]
    all_goals
      first
        | exact h
        | exact sf_mod _ _ _ _
        | exact inc8_f _ _
        | exact dec8_f _ _
        | exact addHL_f _ _
        | exact daa_f _ h
        | exact addA_f _ _ _
        | exact subA_f _ _ _
        | exact andA_f _ _
        | exact xorA_f _ _
        | exact orA_f _ _
        | exact cpA_f _ _
        | exact setAF_f _ _
        | exact spAdd_f _ _
        | exact bitT_f _ _ _
        | exact rl_f _ _ _
        | exact rr_f _ _ _
        | exact sla_f _ _
        | exact sra_f _ _
        | exact srl_f _ _
        | exact swap_f _ _
        | exact cb_f _ h
        | (rw [or_mod16 _ _ (by decide)]; exact h)
  rw [if_neg ha9]
  by_cases ha10 : op = 0xCA
  · rw [if_pos ha10]
    try simp only []
    repeat' split
    all_goals try dsimp only
    all_goals try simp only [jr_f, fetch_f, fetch16_f, setBC_f, setDE_f, setHL_f, w8_f, push_f, pop_f, call_f, ret_f]
    all_goals
      first
        | exact h
        | exact sf_mod _ _ _ _
        | exact inc8_f _ _
        | exact dec8_f _ _
        | exact addHL_f _ _
        | exact daa_f _ h
        | exact addA_f _ _ _
        | exact subA_f _ _ _
        | exact andA_f _ _
        | exact xorA_f _ _
        | exact orA_f _ _
        | exact cpA_f _ _
        | exact setAF_f _ _
        | exact spAdd_f _ _
        | exact bitT_f _ _ _
        | exact rl_f _ _ _
        | exact rr_f _ _ _
        | exact sla_f _ _
        | exact sra_f _ _
        | exact srl_f _ _
        | exact swap_f _ _
        | exact cb_f _ h
        | (rw [or_mod16 _ _ (by decide)]; exact h)
  rw [if_neg ha10]
  by_cases ha11 : op = 0xCB
  · rw [if_pos ha11]
    try simp only []
    repeat' split
    all_goals try dsimp only
    all_goals try simp only [jr_f, fetch_f, fetch16_f, setBC_f, setDE_f, setHL_f, w8_f, push_f, pop_f, call_f, ret_f]
    all_goals
      first
        | exact h
        | exact sf_mod _ _ _ _
        | exact inc8_f _ _
        | exact dec8_f _ _
        | exact addHL_f _ _
        | exact daa_f _ h
        | exact addA_f _ _ _
        | exact subA_f _ _ _
        | exact andA_f _ _
        | exact xorA_f _ _
        | exact orA_f _ _
        | exact cpA_f _ _
        | exact setAF_f _ _
        | exact spAdd_f _ _
        | exact bitT_f _ _ _
        | exact rl_f _ _ _
        | exact rr_f _ _ _
        | exact sla_f _ _
        | exact sra_f _ _
        | exact srl_f _ _
        | exact swap_f _ _
        | exact cb_f _ h
        | (rw [or_mod16 _ _ (by decide)]; exact h)
  rw [if_neg ha11]
  by_cases ha12 : op = 0xCC
  · rw [if_pos ha12]
    try simp only []
    repeat' split
    all_goals try dsimp only
    all_goals try simp only [jr_f, fetch_f, fetch16_f, setBC_f, setDE_f, setHL_f, w8_f, push_f, pop_f, call_f, ret_f]
    all_goals
      first
        | exact h
        | exact sf_mod _ _ _ _
        | exact inc8_f _ _
        | exact dec8_f _ _
        | exact addHL_f _ _
        | exact daa_f _ h
        | exact addA_f _ _ _
        | exact subA_f _ _ _
        | exact andA_f _ _
        | exact xorA_f _ _
        | exact orA_f _ _
        | exact cpA_f _ _
        | exact setAF_f _ _
        | exact spAdd_f _ _
        | exact bitT_f _ _ _
        | exact rl_f _ _ _
        | exact rr_f _ _ _
        | exact sla_f _ _
        | exact sra_f _ _
        | exact srl_f _ _
        | exact swap_f _ _
        | exact cb_f _ h
        | (rw [or_mod16 _ _ (by decide)]; exact h)
  rw [if_neg ha12]
  by_cases ha13 : op = 0xCD
  · rw [if_pos ha13]
    try simp only []
    repeat' split
    all_goals try dsimp only
    all_goals try simp only [jr_f, fetch_f, fetch16_f, setBC_f, setDE_f, setHL_f, w8_f, push_f, pop_f, call_f, ret_f]
    all_goals
      first
        | exact h
        | exact sf_mod _ _ _ _
        | exact inc8_f _ _
        | exact dec8_f _ _
        | exact addHL_f _ _
        | exact daa_f _ h
        | exact addA_f _ _ _
        | exact subA_f _ _ _
        | exact andA_f _ _
        | exact xorA_f _ _
        | exact orA_f _ _
        | exact cpA_f _ _
        | exact setAF_f _ _
        | exact spAdd_f _ _
        | exact bitT_f _ _ _
        | exact rl_f _ _ _
        | exact rr_f _ _ _
        | exact sla_f _ _
        | exact sra_f _ _
        | exact srl_f _ _
        | exact swap_f _ _
        | exact cb_f _ h
        | (rw [or_mod16 _ _ (by decide)]; exact h)
  rw [if_neg ha13]
  by_cases ha14 : op = 0xCE
  · rw [if_pos ha14]
    try simp only []
    repeat' split
    all_goals try dsimp only
    all_goals try simp only [jr_f, fetch_f, fetch16_f, setBC_f, setDE_f, setHL_f, w8_f, push_f, pop_f, call_f, ret_f]
    all_goals
      first
        | exact h
        | exact sf_mod _ _ _ _
        | exact inc8_f _ _
        | exact dec8_f _ _
        | exact addHL_f _ _
        | exact daa_f _ h
        | exact addA_f _ _ _
        | exact subA_f _ _ _
        | exact andA_f _ _
        | exact xorA_f _ _
        | exact orA_f _ _
        | exact cpA_f _ _
        | exact setAF_f _ _
        | exact spAdd_f _ _
        | exact bitT_f _ _ _
        | exact rl_f _ _ _
        | exact rr_f _ _ _
        | exact sla_f _ _
        | exact sra_f _ _
        | exact srl_f _ _
        | exact swap_f _ _
        | exact cb_f _ h
        | (rw [or_mod16 _ _ (by decide)]; exact h)
  rw [if_neg ha14]
  by_cases ha15 : op = 0xCF
  · rw [if_pos ha15]
    try simp only []
    repeat' split
    all_goals try dsimp only
    all_goals try simp only [jr_f, fetch_f, fetch16_f, setBC_f, setDE_f, setHL_f, w8_f, push_f, pop_f, call_f, ret_f]
    all_goals
      first
        | exact h
        | exact sf_mod _ _ _ _
        | exact inc8_f _ _
        | exact dec8_f _ _
        | exact addHL_f _ _
        | exact daa_f _ h
        | exact addA_f _ _ _
        | exact subA_f _ _ _
        | exact andA_f _ _
        | exact xorA_f _ _
        | exact orA_f _ _
        | exact cpA_f _ _
        | exact setAF_f _ _
        | exact spAdd_f _ _
        | exact bitT_f _ _ _
        | exact rl_f _ _ _
        | exact rr_f _ _ _
        | exact sla_f _ _
        | exact sra_f _ _
        | exact srl_f _ _
        | exact swap_f _ _
        | exact cb_f _ h
        | (rw [or_mod16 _ _ (by decide)]; exact h)
  rw [if_neg ha15]
  try simp only []
  repeat' split
  all_goals try dsimp only
  all_goals try simp only [jr_f, fetch_f, fetch16_f, setBC_f, setDE_f, setHL_f, w8_f, push_f, pop_f, call_f, ret_f]
  all_goals
    first
      | exact h
      | exact sf_mod _ _ _ _
      | exact inc8_f _ _
      | exact dec8_f _ _
      | exact addHL_f _ _
      | exact daa_f _ h
      | exact addA_f _ _ _
      | exact subA_f _ _ _
      | exact andA_f _ _
      | exact xorA_f _ _
      | exact orA_f _ _
      | exact cpA_f _ _
      | exact setAF_f _ _
      | exact spAdd_f _ _
      | exact bitT_f _ _ _
      | exact rl_f _ _ _
      | exact rr_f _ _ _
      | exact sla_f _ _
      | exact sra_f _ _
      | exact srl_f _ _
      | exact swap_f _ _
      | exact cb_f _ h
      | (rw [or_mod16 _ _ (by decide)]; exact h)

theorem execHiC_cy (op : Nat) (s : CPU) : (execHiC op s).2.cycles = s.cycles := by
  unfold execHiC
  by_cases ha0 : op = 0xC0
  · rw [if_pos ha0]
    try simp only []
    repeat' split
    all_goals try dsimp only
    all_goals try simp only [jr_cy, fetch_cy, fetch16_cy, setBC_cy, setDE_cy, setHL_cy, w8_cy, push_cy, pop_cy, call_cy, ret_cy, addHL_cy, inc8_cy, dec8_cy, daa_cy, addA_cy, subA_cy, andA_cy, xorA_cy, orA_cy, cpA_cy, setAF_cy, spAdd_cy, bitT_cy, rl_cy, rr_cy, sla_cy, sra_cy, srl_cy, swap_cy]
    all_goals first | rfl | exact cb_cy _
  rw [if_neg ha0]
  by_cases ha1 : op = 0xC1
  · rw [if_pos ha1]
    try simp only []
    repeat' split
    all_goals try dsimp only
    all_goals try simp only [jr_cy, fetch_cy, fetch16_cy, setBC_cy, setDE_cy, setHL_cy, w8_cy, push_cy, pop_cy, call_cy, ret_cy, addHL_cy, inc8_cy, dec8_cy, daa_cy, addA_cy, subA_cy, andA_cy, xorA_cy, orA_cy, cpA_cy, setAF_cy, spAdd_cy, bitT_cy, rl_cy, rr_cy, sla_cy, sra_cy, srl_cy, swap_cy]
    all_goals first | rfl | exact cb_cy _
  rw [if_neg ha1]
  by_cases ha2 : op = 0xC2
  · rw [if_pos ha2]
    try simp only []
    repeat' split
    all_goals try dsimp only
    all_goals try simp only [jr_cy, fetch_cy, fetch16_cy, setBC_cy, setDE_cy, setHL_cy, w8_cy, push_cy, pop_cy, call_cy, ret_cy, addHL_cy, inc8_cy, dec8_cy, daa_cy, addA_cy, subA_cy, andA_cy, xorA_cy, orA_cy, cpA_cy, setAF_cy, spAdd_cy, bitT_cy, rl_cy, rr_cy, sla_cy, sra_cy, srl_cy, swap_cy]
    all_goals first | rfl | exact cb_cy _
  rw [if_neg ha2]
  by_cases ha3 : op = 0xC3
  · rw [if_pos ha3]
    try simp only []
    repeat' split
    all_goals try dsimp only
    all_goals try simp only [jr_cy, fetch_cy, fetch16_cy, setBC_cy, setDE_cy, setHL_cy, w8_cy, push_cy, pop_cy, call_cy, ret_cy, addHL_cy, inc8_cy, dec8_cy, daa_cy, addA_cy, subA_cy, andA_cy, xorA_cy, orA_cy, cpA_cy, setAF_cy, spAdd_cy, bitT_cy, rl_cy, rr_cy, sla_cy, sra_cy, srl_cy, swap_cy]
    all_goals first | rfl | exact cb_cy _
  rw [if_neg ha3]
  by_cases ha4 : op = 0xC4
  · rw [if_pos ha4]
    try simp only []
    repeat' split
    all_goals try dsimp only
    all_goals try simp only [jr_cy, fetch_cy, fetch16_cy, setBC_cy, setDE_cy, setHL_cy, w8_cy, push_cy, pop_cy, call_cy, ret_cy, addHL_cy, inc8_cy, dec8_cy, daa_cy, addA_cy, subA_cy, andA_cy, xorA_cy, orA_cy, cpA_cy, setAF_cy, spAdd_cy, bitT_cy, rl_cy, rr_cy, sla_cy, sra_cy, srl_cy, swap_cy]
    all_goals first | rfl | exact cb_cy _
  rw [if_neg ha4]
  by_cases ha5 : op = 0xC5
  · rw [if_pos ha5]
    try simp only []
    repeat' split
    all_goals try dsimp only
    all_goals try simp only [jr_cy, fetch_cy, fetch16_cy, setBC_cy, setDE_cy, setHL_cy, w8_cy, push_cy, pop_cy, call_cy, ret_cy, addHL_cy, inc8_cy, dec8_cy, daa_cy, addA_cy, subA_cy, andA_cy, xorA_cy, orA_cy, cpA_cy, setAF_cy, spAdd_cy, bitT_cy, rl_cy, rr_cy, sla_cy, sra_cy, srl_cy, swap_cy]
    all_goals first | rfl | exact cb_cy _
  rw [if_neg ha5]
  by_cases ha6 : op = 0xC6
  · rw [if_pos ha6]
    try simp only []
    repeat' split
    all_goals try dsimp only
    all_goals try simp only [jr_cy, fetch_cy, fetch16_cy, setBC_cy, setDE_cy, setHL_cy, w8_cy, push_cy, pop_cy, call_cy, ret_cy, addHL_cy, inc8_cy, dec8_cy, daa_cy, addA_cy, subA_cy, andA_cy, xorA_cy, orA_cy, cpA_cy, setAF_cy, spAdd_cy, bitT_cy, rl_cy, rr_cy, sla_cy, sra_cy, srl_cy, swap_cy]
    all_goals first | rfl | exact cb_cy _
  rw [if_neg ha6]
  by_cases ha7 : op = 0xC7
  · rw [if_pos ha7]
    try simp only []
    repeat' split
    all_goals try dsimp only
    all_goals try simp only [jr_cy, fetch_cy, fetch16_cy, setBC_cy, setDE_cy, setHL_cy, w8_cy, push_cy, pop_cy, call_cy, ret_cy, addHL_cy, inc8_cy, dec8_cy, daa_cy, addA_cy, subA_cy, andA_cy, xorA_cy, orA_cy, cpA_cy, setAF_cy, spAdd_cy, bitT_cy, rl_cy, rr_cy, sla_cy, sra_cy, srl_cy, swap_cy]
    all_goals first | rfl | exact cb_cy _
  rw [if_neg ha7]
  by_cases ha8 : op = 0xC8
  · rw [if_pos ha8]
    try simp only []
    repeat' split
    all_goals try dsimp only
    all_goals try simp only [jr_cy, fetch_cy, fetch16_cy, setBC_cy, setDE_cy, setHL_cy, w8_cy, push_cy, pop_cy, call_cy, ret_cy, addHL_cy, inc8_cy, dec8_cy, daa_cy, addA_cy, subA_cy, andA_cy, xorA_cy, orA_cy, cpA_cy, setAF_cy, spAdd_cy, bitT_cy, rl_cy, rr_cy, sla_cy, sra_cy, srl_cy, swap_cy]
    all_goals first | rfl | exact cb_cy _
  rw [if_neg ha8]
  by_cases ha9 : op = 0xC9
  · rw [if_pos ha9]
    try simp only []
    repeat' split
    all_goals try dsimp only
    all_goals try simp only [jr_cy, fetch_cy, fetch16_cy, setBC_cy, setDE_cy, setHL_cy, w8_cy, push_cy, pop_cy, call_cy, ret_cy, addHL_cy, inc8_cy, dec8_cy, daa_cy, addA_cy, subA_cy, andA_cy, xorA_cy, orA_cy, cpA_cy, setAF_cy, spAdd_cy, bitT_cy, rl_cy, rr_cy, sla_cy, sra_cy, srl_cy, swap_cy]
    all_goals first | rfl | exact cb_cy _
  rw [if_neg ha9]
  by_cases ha10 : op = 0xCA
  · rw [if_pos ha10]
    try simp only []
    repeat' split
    all_goals try dsimp only
    all_goals try simp only [jr_cy, fetch_cy, fetch16_cy, setBC_cy, setDE_cy, setHL_cy, w8_cy, push_cy, pop_cy, call_cy, ret_cy, addHL_cy, inc8_cy, dec8_cy, daa_cy, addA_cy, subA_cy, andA_cy, xorA_cy, orA_cy, cpA_cy, setAF_cy, spAdd_cy, bitT_cy, rl_cy, rr_cy, sla_cy, sra_cy, srl_cy, swap_cy]
    all_goals first | rfl | exact cb_cy _
  rw [if_neg ha10]
  by_cases ha11 : op = 0xCB
  · rw [if_pos ha11]
    try simp only []
    repeat' split
    all_goals try dsimp only
    all_goals try simp only [jr_cy, fetch_cy, fetch16_cy, setBC_cy, setDE_cy, setHL_cy, w8_cy, push_cy, pop_cy, call_cy, ret_cy, addHL_cy, inc8_cy, dec8_cy, daa_cy, addA_cy, subA_cy, andA_cy, xorA_cy, orA_cy, cpA_cy, setAF_cy, spAdd_cy, bitT_cy, rl_cy, rr_cy, sla_cy, sra_cy, srl_cy, swap_cy]
    all_goals first | rfl | exact cb_cy _
  rw [if_neg ha11]
  by_cases ha12 : op = 0xCC
  · rw [if_pos ha12]
    try simp only []
    repeat' split
    all_goals try dsimp only
    all_goals try simp only [jr_cy, fetch_cy, fetch16_cy, setBC_cy, setDE_cy, setHL_cy, w8_cy, push_cy, pop_cy, call_cy, ret_cy, addHL_cy, inc8_cy, dec8_cy, daa_cy, addA_cy, subA_cy, andA_cy, xorA_cy, orA_cy, cpA_cy, setAF_cy, spAdd_cy, bitT_cy, rl_cy, rr_cy, sla_cy, sra_cy, srl_cy, swap_cy]
    all_goals first | rfl | exact cb_cy _
  rw [if_neg ha12]
  by_cases ha13 : op = 0xCD
  · rw [if_pos ha13]
    try simp only []
    repeat' split
    all_goals try dsimp only
    all_goals try simp only [jr_cy, fetch_cy, fetch16_cy, setBC_cy, setDE_cy, setHL_cy, w8_cy, push_cy, pop_cy, call_cy, ret_cy, addHL_cy, inc8_cy, dec8_cy, daa_cy, addA_cy, subA_cy, andA_cy, xorA_cy, orA_cy, cpA_cy, setAF_cy, spAdd_cy, bitT_cy, rl_cy, rr_cy, sla_cy, sra_cy, srl_cy, swap_cy]
    all_goals first | rfl | exact cb_cy _
  rw [if_neg ha13]
  by_cases ha14 : op = 0xCE
  · rw [if_pos ha14]
    try simp only []
    repeat' split
    all_goals try dsimp only
    all_goals try simp only [jr_cy, fetch_cy, fetch16_cy, setBC_cy, setDE_cy, setHL_cy, w8_cy, push_cy, pop_cy, call_cy, ret_cy, addHL_cy, inc8_cy, dec8_cy, daa_cy, addA_cy, subA_cy, andA_cy, xorA_cy, orA_cy, cpA_cy, setAF_cy, spAdd_cy, bitT_cy, rl_cy, rr_cy, sla_cy, sra_cy, srl_cy, swap_cy]
    all_goals first | rfl | exact cb_cy _
  rw [if_neg ha14]
  by_cases ha15 : op = 0xCF
  · rw [if_pos ha15]
    try simp only []
    repeat' split
    all_goals try dsimp only
    all_goals try simp only [jr_cy, fetch_cy, fetch16_cy, setBC_cy, setDE_cy, setHL_cy, w8_cy, push_cy, pop_cy, call_cy, ret_cy, addHL_cy, inc8_cy, dec8_cy, daa_cy, addA_cy, subA_cy, andA_cy, xorA_cy, orA_cy, cpA_cy, setAF_cy, spAdd_cy, bitT_cy, rl_cy, rr_cy, sla_cy, sra_cy, srl_cy, swap_cy]
    all_goals first | rfl | exact cb_cy _
  rw [if_neg ha15]
  try simp only []
  repeat' split
  all_goals try dsimp only
  all_goals try simp only [jr_cy, fetch_cy, fetch16_cy, setBC_cy, setDE_cy, setHL_cy, w8_cy, push_cy, pop_cy, call_cy, ret_cy, addHL_cy, inc8_cy, dec8_cy, daa_cy, addA_cy, subA_cy, andA_cy, xorA_cy, orA_cy, cpA_cy, setAF_cy, spAdd_cy, bitT_cy, rl_cy, rr_cy, sla_cy, sra_cy, srl_cy, swap_cy]
  all_goals first | rfl | exact cb_cy _

theorem execHiC_cost (op : Nat) (s : CPU) : 4 ≤ (execHiC op s).1 ∧ (execHiC op s).1 ≤ 24 := by
  unfold execHiC
  by_cases ha0 : op = 0xC0
  · rw [if_pos ha0]
    try simp only []
    repeat' split
    all_goals try dsimp only
    all_goals first | decide | (split <;> decide) | exact cb_cost _
  rw [if_neg ha0]
  by_cases ha1 : op = 0xC1
  · rw [if_pos ha1]
    try simp only []
    repeat' split
    all_goals try dsimp only
    all_goals first | decide | (split <;> decide) | exact cb_cost _
  rw [if_neg ha1]
  by_cases ha2 : op = 0xC2
  · rw [if_pos ha2]
    try simp only []
    repeat' split
    all_goals try dsimp only
    all_goals first | decide | (split <;> decide) | exact cb_cost _
  rw [if_neg ha2]
  by_cases ha3 : op = 0xC3
  · rw [if_pos ha3]
    try simp only []
    repeat' split
    all_goals try dsimp only
    all_goals first | decide | (split <;> decide) | exact cb_cost _
  rw [if_neg ha3]
  by_cases ha4 : op = 0xC4
  · rw [if_pos ha4]
    try simp only []
    repeat' split
    all_goals try dsimp only
    all_goals first | decide | (split <;> decide) | exact cb_cost _
  rw [if_neg ha4]
  by_cases ha5 : op = 0xC5
  · rw [if_pos ha5]
    try simp only []
    repeat' split
    all_goals try dsimp only
    all_goals first | decide | (split <;> decide) | exact cb_cost _
  rw [if_neg ha5]
  by_cases ha6 : op = 0xC6
  · rw [if_pos ha6]
    try simp only []
    repeat' split
    all_goals try dsimp only
    all_goals first | decide | (split <;> decide) | exact cb_cost _
  rw [if_neg ha6]
  by_cases ha7 : op = 0xC7
  · rw [if_pos ha7]
    try simp only []
    repeat' split
    all_goals try dsimp only
    all_goals first | decide | (split <;> decide) | exact cb_cost _
  rw [if_neg ha7]
  by_cases ha8 : op = 0xC8
  · rw [if_pos ha8]
    try simp only []
    repeat' split
    all_goals try dsimp only
    all_goals first | decide | (split <;> decide) | exact cb_cost _
  rw [if_neg ha8]
  by_cases ha9 : op = 0xC9
  · rw [if_pos ha9]
    try simp only []
    repeat' split
    all_goals try dsimp only
    all_goals first | decide | (split <;> decide) | exact cb_cost _
  rw [if_neg ha9]
  by_cases ha10 : op = 0xCA
  · rw [if_pos ha10]
    try simp only []
    repeat' split
    all_goals try dsimp only
    all_goals first | decide | (split <;> decide) | exact cb_cost _
  rw [if_neg ha10]
  by_cases ha11 : op = 0xCB
  · rw [if_pos ha11]
    try simp only []
    repeat' split
    all_goals try dsimp only
    all_goals first | decide | (split <;> decide) | exact cb_cost _
  rw [if_neg ha11]
  by_cases ha12 : op = 0xCC
  · rw [if_pos ha12]
    try simp only []
    repeat' split
    all_goals try dsimp only
    all_goals first | decide | (split <;> decide) | exact cb_cost _
  rw [if_neg ha12]
  by_cases ha13 : op = 0xCD
  · rw [if_pos ha13]
    try simp only []
    repeat' split
    all_goals try dsimp only
    all_goals first | decide | (split <;> decide) | exact cb_cost _
  rw [if_neg ha13]
  by_cases ha14 : op = 0xCE
  · rw [if_pos ha14]
    try simp only []
    repeat' split
    all_goals try dsimp only
    all_goals first | decide | (split <;> decide) | exact cb_cost _
  rw [if_neg ha14]
  by_cases ha15 : op = 0xCF
  · rw [if_pos ha15]
    try simp only []
    repeat' split
    all_goals try dsimp only
    all_goals first | decide | (split <;> decide) | exact cb_cost _
  rw [if_neg ha15]
  try simp only []
  repeat' split
  all_goals try dsimp only
  all_goals first | decide | (split <;> decide) | exact cb_cost _

theorem execHiD_f (op : Nat) (s : CPU) (h : s.f % 16 = 0) : (execHiD op s).2.f % 16 = 0 := by
  unfold execHiD
  by_cases ha0 : op = 0xD0
  · rw [if_pos ha0]
    try simp only []
    repeat' split
    all_goals try dsimp only
    all_goals try simp only [jr_f, fetch_f, fetch16_f, setBC_f, setDE_f, setHL_f, w8_f, push_f, pop_f, call_f, ret_f]
    all_goals
      first
        | exact h
        | exact sf_mod _ _ _ _
        | exact inc8_f _ _
        | exact dec8_f _ _
        | exact addHL_f _ _
        | exact daa_f _ h
        | exact addA_f _ _ _
        | exact subA_f _ _ _
        | exact andA_f _ _
        | exact xorA_f _ _
        | exact orA_f _ _
        | exact cpA_f _ _
        | exact setAF_f _ _
        | exact spAdd_f _ _
        | exact bitT_f _ _ _
        | exact rl_f _ _ _
        | exact rr_f _ _ _
        | exact sla_f _ _
        | exact sra_f _ _
        | exact srl_f _ _
        | exact swap_f _ _
        | exact cb_f _ h
        | (rw [or_mod16 _ _ (by decide)]; exact h)
  rw [if_neg ha0]
  by_cases ha1 : op = 0xD1
  · rw [if_pos ha1]
    try simp only []
    repeat' split
    all_goals try dsimp only
    all_goals try simp only [jr_f, fetch_f, fetch16_f, setBC_f, setDE_f, setHL_f, w8_f, push_f, pop_f, call_f, ret_f]
    all_goals
      first
        | exact h
        | exact sf_mod _ _ _ _
        | exact inc8_f _ _
        | exact dec8_f _ _
        | exact addHL_f _ _
        | exact daa_f _ h
        | exact addA_f _ _ _
        | exact subA_f _ _ _
        | exact andA_f _ _
        | exact xorA_f _ _
        | exact orA_f _ _
        | exact cpA_f _ _
        | exact setAF_f _ _
        | exact spAdd_f _ _
        | exact bitT_f _ _ _
        | exact rl_f _ _ _
        | exact rr_f _ _ _
        | exact sla_f _ _
        | exact sra_f _ _
        | exact srl_f _ _
        | exact swap_f _ _
        | exact cb_f _ h
        | (rw [or_mod16 _ _ (by decide)]; exact h)
  rw [if_neg ha1]
  by_cases ha2 : op = 0xD2
  · rw [if_pos ha2]
    try simp only []
    repeat' split
    all_goals try dsimp only
    all_goals try simp only [jr_f, fetch_f, fetch16_f, setBC_f, setDE_f, setHL_f, w8_f, push_f, pop_f, call_f, ret_f]
    all_goals
      first
        | exact h
        | exact sf_mod _ _ _ _
        | exact inc8_f _ _
        | exact dec8_f _ _
        | exact addHL_f _ _
        | exact daa_f _ h
        | exact addA_f _ _ _
        | exact subA_f _ _ _
        | exact andA_f _ _
        | exact xorA_f _ _
        | exact orA_f _ _
        | exact cpA_f _ _
        | exact setAF_f _ _
        | exact spAdd_f _ _
        | exact bitT_f _ _ _
        | exact rl_f _ _ _
        | exact rr_f _ _ _
        | exact sla_f _ _
        | exact sra_f _ _
        | exact srl_f _ _
        | exact swap_f _ _
        | exact cb_f _ h
        | (rw [or_mod16 _ _ (by decide)]; exact h)
  rw [if_neg ha2]
  by_cases ha3 : op = 0xD4
  · rw [if_pos ha3]
    try simp only []
    repeat' split
    all_goals try dsimp only
    all_goals try simp only [jr_f, fetch_f, fetch16_f, setBC_f, setDE_f, setHL_f, w8_f, push_f, pop_f, call_f, ret_f]
    all_goals
      first
        | exact h
        | exact sf_mod _ _ _ _
        | exact inc8_f _ _
        | exact dec8_f _ _
        | exact addHL_f _ _
        | exact daa_f _ h
        | exact addA_f _ _ _
        | exact subA_f _ _ _
        | exact andA_f _ _
        | exact xorA_f _ _
        | exact orA_f _ _
        | exact cpA_f _ _
        | exact setAF_f _ _
        | exact spAdd_f _ _
        | exact bitT_f _ _ _
        | exact rl_f _ _ _
        | exact rr_f _ _ _
        | exact sla_f _ _
        | exact sra_f _ _
        | exact srl_f _ _
        | exact swap_f _ _
        | exact cb_f _ h
        | (rw [or_mod16 _ _ (by decide)]; exact h)
  rw [if_neg ha3]
  by_cases ha4 : op = 0xD5
  · rw [if_pos ha4]
    try simp only []
    repeat' split
    all_goals try dsimp only
    all_goals try simp only [jr_f, fetch_f, fetch16_f, setBC_f, setDE_f, setHL_f, w8_f, push_f, pop_f, call_f, ret_f]
    all_goals
      first
        | exact h
        | exact sf_mod _ _ _ _
        | exact inc8_f _ _
        | exact dec8_f _ _
        | exact addHL_f _ _
        | exact daa_f _ h
        | exact addA_f _ _ _
        | exact subA_f _ _ _
        | exact andA_f _ _
        | exact xorA_f _ _
        | exact orA_f _ _
        | exact cpA_f _ _
        | exact setAF_f _ _
        | exact spAdd_f _ _
        | exact bitT_f _ _ _
        | exact rl_f _ _ _
        | exact rr_f _ _ _
        | exact sla_f _ _
        | exact sra_f _ _
        | exact srl_f _ _
        | exact swap_f _ _
        | exact cb_f _ h
        | (rw [or_mod16 _ _ (by decide)]; exact h)
  rw [if_neg ha4]
  by_cases ha5 : op = 0xD6
  · rw [if_pos ha5]
    try simp only []
    repeat' split
    all_goals try dsimp only
    all_goals try simp only [jr_f, fetch_f, fetch16_f, setBC_f, setDE_f, setHL_f, w8_f, push_f, pop_f, call_f, ret_f]
    all_goals
      first
        | exact h
        | exact sf_mod _ _ _ _
        | exact inc8_f _ _
        | exact dec8_f _ _
        | exact addHL_f _ _
        | exact daa_f _ h
        | exact addA_f _ _ _
        | exact subA_f _ _ _
        | exact andA_f _ _
        | exact xorA_f _ _
        | exact orA_f _ _
        | exact cpA_f _ _
        | exact setAF_f _ _
        | exact spAdd_f _ _
        | exact bitT_f _ _ _
        | exact rl_f _ _ _
        | exact rr_f _ _ _
        | exact sla_f _ _
        | exact sra_f _ _
        | exact srl_f _ _
        | exact swap_f _ _
        | exact cb_f _ h
        | (rw [or_mod16 _ _ (by decide)]; exact h)
  rw [if_neg ha5]
  by_cases ha6 : op = 0xD7
  · rw [if_pos ha6]
    try simp only []
    repeat' split
    all_goals try dsimp only
    all_goals try simp only [jr_f, fetch_f, fetch16_f, setBC_f, setDE_f, setHL_f, w8_f, push_f, pop_f, call_f, ret_f]
    all_goals
      first
        | exact h
        | exact sf_mod _ _ _ _
        | exact inc8_f _ _
        | exact dec8_f _ _
        | exact addHL_f _ _
        | exact daa_f _ h
        | exact addA_f _ _ _
        | exact subA_f _ _ _
        | exact andA_f _ _
        | exact xorA_f _ _
        | exact orA_f _ _
        | exact cpA_f _ _
        | exact setAF_f _ _
        | exact spAdd_f _ _
        | exact bitT_f _ _ _
        | exact rl_f _ _ _
        | exact rr_f _ _ _
        | exact sla_f _ _
        | exact sra_f _ _
        | exact srl_f _ _
        | exact swap_f _ _
        | exact cb_f _ h
        | (rw [or_mod16 _ _ (by decide)]; exact h)
  rw [if_neg ha6]
  by_cases ha7 : op = 0xD8
  · rw [if_pos ha7]
    try simp only []
    repeat' split
    all_goals try dsimp only
    all_goals try simp only [jr_f, fetch_f, fetch16_f, setBC_f, setDE_f, setHL_f, w8_f, push_f, pop_f, call_f, ret_f]
    all_goals
      first
        | exact h
        | exact sf_mod _ _ _ _
        | exact inc8_f _ _
        | exact dec8_f _ _
        | exact addHL_f _ _
        | exact daa_f _ h
        | exact addA_f _ _ _
        | exact subA_f _ _ _
        | exact andA_f _ _
        | exact xorA_f _ _
        | exact orA_f _ _
        | exact cpA_f _ _
        | exact setAF_f _ _
        | exact spAdd_f _ _
        | exact bitT_f _ _ _
        | exact rl_f _ _ _
        | exact rr_f _ _ _
        | exact sla_f _ _
        | exact sra_f _ _
        | exact srl_f _ _
        | exact swap_f _ _
        | exact cb_f _ h
        | (rw [or_mod16 _ _ (by decide)]; exact h)
  rw [if_neg ha7]
  by_cases ha8 : op = 0xD9
  · rw [if_pos ha8]
    try simp only []
    repeat' split
    all_goals try dsimp only
    all_goals try simp only [jr_f, fetch_f, fetch16_f, setBC_f, setDE_f, setHL_f, w8_f, push_f, pop_f, call_f, ret_f]
    all_goals
      first
        | exact h
        | exact sf_mod _ _ _ _
        | exact inc8_f _ _
        | exact dec8_f _ _
        | exact addHL_f _ _
        | exact daa_f _ h
        | exact addA_f _ _ _
        | exact subA_f _ _ _
        | exact andA_f _ _
        | exact xorA_f _ _
        | exact orA_f _ _
        | exact cpA_f _ _
        | exact setAF_f _ _
        | exact spAdd_f _ _
        | exact bitT_f _ _ _
        | exact rl_f _ _ _
        | exact rr_f _ _ _
        | exact sla_f _ _
        | exact sra_f _ _
        | exact srl_f _ _
        | exact swap_f _ _
        | exact cb_f _ h
        | (rw [or_mod16 _ _ (by decide)]; exact h)
  rw [if_neg ha8]
  by_cases ha9 : op = 0xDA
  · rw [if_pos ha9]
    try simp only []
    repeat' split
    all_goals try dsimp only
    all_goals try simp only [jr_f, fetch_f, fetch16_f, setBC_f, setDE_f, setHL_f, w8_f, push_f, pop_f, call_f, ret_f]
    all_goals
      first
        | exact h
        | exact sf_mod _ _ _ _
        | exact inc8_f _ _
        | exact dec8_f _ _
        | exact addHL_f _ _
        | exact daa_f _ h
        | exact addA_f _ _ _
        | exact subA_f _ _ _
        | exact andA_f _ _
        | exact xorA_f _ _
        | exact orA_f _ _
        | exact cpA_f _ _
        | exact setAF_f _ _
        | exact spAdd_f _ _
        | exact bitT_f _ _ _
        | exact rl_f _ _ _
        | exact rr_f _ _ _
        | exact sla_f _ _
        | exact sra_f _ _
        | exact srl_f _ _
        | exact swap_f _ _
        | exact cb_f _ h
        | (rw [or_mod16 _ _ (by decide)]; exact h)
  rw [if_neg ha9]
  by_cases ha10 : op = 0xDC
  · rw [if_pos ha10]
    try simp only []
    repeat' split
    all_goals try dsimp only
    all_goals try simp only [jr_f, fetch_f, fetch16_f, setBC_f, setDE_f, setHL_f, w8_f, push_f, pop_f, call_f, ret_f]
    all_goals
      first
        | exact h
        | exact sf_mod _ _ _ _
        | exact inc8_f _ _
        | exact dec8_f _ _
        | exact addHL_f _ _
        | exact daa_f _ h
        | exact addA_f _ _ _
        | exact subA_f _ _ _
        | exact andA_f _ _
        | exact xorA_f _ _
        | exact orA_f _ _
        | exact cpA_f _ _
        | exact setAF_f _ _
        | exact spAdd_f _ _
        | exact bitT_f _ _ _
        | exact rl_f _ _ _
        | exact rr_f _ _ _
        | exact sla_f _ _
        | exact sra_f _ _
        | exact srl_f _ _
        | exact swap_f _ _
        | exact cb_f _ h
        | (rw [or_mod16 _ _ (by decide)]; exact h)
  rw [if_neg ha10]
  by_cases ha11 : op = 0xDE
  · rw [if_pos ha11]
    try simp only []
    repeat' split
    all_goals try dsimp only
    all_goals try simp only [jr_f, fetch_f, fetch16_f, setBC_f, setDE_f, setHL_f, w8_f, push_f, pop_f, call_f, ret_f]
    all_goals
      first
        | exact h
        | exact sf_mod _ _ _ _
        | exact inc8_f _ _
        | exact dec8_f _ _
        | exact addHL_f _ _
        | exact daa_f _ h
        | exact addA_f _ _ _
        | exact subA_f _ _ _
        | exact andA_f _ _
        | exact xorA_f _ _
        | exact orA_f _ _
        | exact cpA_f _ _
        | exact setAF_f _ _
        | exact spAdd_f _ _
        | exact bitT_f _ _ _
        | exact rl_f _ _ _
        | exact rr_f _ _ _
        | exact sla_f _ _
        | exact sra_f _ _
        | exact srl_f _ _
        | exact swap_f _ _
        | exact cb_f _ h
        | (rw [or_mod16 _ _ (by decide)]; exact h)
  rw [if_neg ha11]
  by_cases ha12 : op = 0xDF
  · rw [if_pos ha12]
    try simp only []
    repeat' split
    all_goals try dsimp only
    all_goals try simp only [jr_f, fetch_f, fetch16_f, setBC_f, setDE_f, setHL_f, w8_f, push_f, pop_f, call_f, ret_f]
    all_goals
      first
        | exact h
        | exact sf_mod _ _ _ _
        | exact inc8_f _ _
        | exact dec8_f _ _
        | exact addHL_f _ _
        | exact daa_f _ h
        | exact addA_f _ _ _
        | exact subA_f _ _ _
        | exact andA_f _ _
        | exact xorA_f _ _
        | exact orA_f _ _
        | exact cpA_f _ _
        | exact setAF_f _ _
        | exact spAdd_f _ _
        | exact bitT_f _ _ _
        | exact rl_f _ _ _
        | exact rr_f _ _ _
        | exact sla_f _ _
        | exact sra_f _ _
        | exact srl_f _ _
        | exact swap_f _ _
        | exact cb_f _ h
        | (rw [or_mod16 _ _ (by decide)]; exact h)
  rw [if_neg ha12]
  try simp only []
  repeat' split
  all_goals try dsimp only
  all_goals try simp only [jr_f, fetch_f, fetch16_f, setBC_f, setDE_f, setHL_f, w8_f, push_f, pop_f, call_f, ret_f]
  all_goals
    first
      | exact h
      | exact sf_mod _ _ _ _
      | exact inc8_f _ _
      | exact dec8_f _ _
      | exact addHL_f _ _
      | exact daa_f _ h
      | exact addA_f _ _ _
      | exact subA_f _ _ _
      | exact andA_f _ _
      | exact xorA_f _ _
      | exact orA_f _ _
      | exact cpA_f _ _
      | exact setAF_f _ _
      | exact spAdd_f _ _
      | exact bitT_f _ _ _
      | exact rl_f _ _ _
      | exact rr_f _ _ _
      | exact sla_f _ _
      | exact sra_f _ _
      | exact srl_f _ _
      | exact swap_f _ _
      | exact cb_f _ h
      | (rw [or_mod16 _ _ (by decide)]; exact h)

theorem execHiD_cy (op : Nat) (s : CPU) : (execHiD op s).2.cycles = s.cycles := by
  unfold execHiD
  by_cases ha0 : op = 0xD0
  · rw [if_pos ha0]
    try simp only []
    repeat' split
    all_goals try dsimp only
    all_goals try simp only [jr_cy, fetch_cy, fetch16_cy, setBC_cy, setDE_cy, setHL_cy, w8_cy, push_cy, pop_cy, call_cy, ret_cy, addHL_cy, inc8_cy, dec8_cy, daa_cy, addA_cy, subA_cy, andA_cy, xorA_cy, orA_cy, cpA_cy, setAF_cy, spAdd_cy, bitT_cy, rl_cy, rr_cy, sla_cy, sra_cy, srl_cy, swap_cy]
    all_goals first | rfl | exact cb_cy _
  rw [if_neg ha0]
  by_cases ha1 : op = 0xD1
  · rw [if_pos ha1]
    try simp only []
    repeat' split
    all_goals try dsimp only
    all_goals try simp only [jr_cy, fetch_cy, fetch16_cy, setBC_cy, setDE_cy, setHL_cy, w8_cy, push_cy, pop_cy, call_cy, ret_cy, addHL_cy, inc8_cy, dec8_cy, daa_cy, addA_cy, subA_cy, andA_cy, xorA_cy, orA_cy, cpA_cy, setAF_cy, spAdd_cy, bitT_cy, rl_cy, rr_cy, sla_cy, sra_cy, srl_cy, swap_cy]
    all_goals first | rfl | exact cb_cy _
  rw [if_neg ha1]
  by_cases ha2 : op = 0xD2
  · rw [if_pos ha2]
    try simp only []
    repeat' split
    all_goals try dsimp only
    all_goals try simp only [jr_cy, fetch_cy, fetch16_cy, setBC_cy, setDE_cy, setHL_cy, w8_cy, push_cy, pop_cy, call_cy, ret_cy, addHL_cy, inc8_cy, dec8_cy, daa_cy, addA_cy, subA_cy, andA_cy, xorA_cy, orA_cy, cpA_cy, setAF_cy, spAdd_cy, bitT_cy, rl_cy, rr_cy, sla_cy, sra_cy, srl_cy, swap_cy]
    all_goals first | rfl | exact cb_cy _
  rw [if_neg ha2]
  by_cases ha3 : op = 0xD4
  · rw [if_pos ha3]
    try simp only []
    repeat' split
    all_goals try dsimp only
    all_goals try simp only [jr_cy, fetch_cy, fetch16_cy, setBC_cy, setDE_cy, setHL_cy, w8_cy, push_cy, pop_cy, call_cy, ret_cy, addHL_cy, inc8_cy, dec8_cy, daa_cy, addA_cy, subA_cy, andA_cy, xorA_cy, orA_cy, cpA_cy, setAF_cy, spAdd_cy, bitT_cy, rl_cy, rr_cy, sla_cy, sra_cy, srl_cy, swap_cy]
    all_goals first | rfl | exact cb_cy _
  rw [if_neg ha3]
  by_cases ha4 : op = 0xD5
  · rw [if_pos ha4]
    try simp only []
    repeat' split
    all_goals try dsimp only
    all_goals try simp only [jr_cy, fetch_cy, fetch16_cy, setBC_cy, setDE_cy, setHL_cy, w8_cy, push_cy, pop_cy, call_cy, ret_cy, addHL_cy, inc8_cy, dec8_cy, daa_cy, addA_cy, subA_cy, andA_cy, xorA_cy, orA_cy, cpA_cy, setAF_cy, spAdd_cy, bitT_cy, rl_cy, rr_cy, sla_cy, sra_cy, srl_cy, swap_cy]
    all_goals first | rfl | exact cb_cy _
  rw [if_neg ha4]
  by_cases ha5 : op = 0xD6
  · rw [if_pos ha5]
    try simp only []
    repeat' split
    all_goals try dsimp only
    all_goals try simp only [jr_cy, fetch_cy, fetch16_cy, setBC_cy, setDE_cy, setHL_cy, w8_cy, push_cy, pop_cy, call_cy, ret_cy, addHL_cy, inc8_cy, dec8_cy, daa_cy, addA_cy, subA_cy, andA_cy, xorA_cy, orA_cy, cpA_cy, setAF_cy, spAdd_cy, bitT_cy, rl_cy, rr_cy, sla_cy, sra_cy, srl_cy, swap_cy]
    all_goals first | rfl | exact cb_cy _
  rw [if_neg ha5]
  by_cases ha6 : op = 0xD7
  · rw [if_pos ha6]
    try simp only []
    repeat' split
    all_goals try dsimp only
    all_goals try simp only [jr_cy, fetch_cy, fetch16_cy, setBC_cy, setDE_cy, setHL_cy, w8_cy, push_cy, pop_cy, call_cy, ret_cy, addHL_cy, inc8_cy, dec8_cy, daa_cy, addA_cy, subA_cy, andA_cy, xorA_cy, orA_cy, cpA_cy, setAF_cy, spAdd_cy, bitT_cy, rl_cy, rr_cy, sla_cy, sra_cy, srl_cy, swap_cy]
    all_goals first | rfl | exact cb_cy _
  rw [if_neg ha6]
  by_cases ha7 : op = 0xD8
  · rw [if_pos ha7]
    try simp only []
    repeat' split
    all_goals try dsimp only
    all_goals try simp only [jr_cy, fetch_cy, fetch16_cy, setBC_cy, setDE_cy, setHL_cy, w8_cy, push_cy, pop_cy, call_cy, ret_cy, addHL_cy, inc8_cy, dec8_cy, daa_cy, addA_cy, subA_cy, andA_cy, xorA_cy, orA_cy, cpA_cy, setAF_cy, spAdd_cy, bitT_cy, rl_cy, rr_cy, sla_cy, sra_cy, srl_cy, swap_cy]
    all_goals first | rfl | exact cb_cy _
  rw [if_neg ha7]
  by_cases ha8 : op = 0xD9
  · rw [if_pos ha8]
    try simp only []
    repeat' split
    all_goals try dsimp only
    all_goals try simp only [jr_cy, fetch_cy, fetch16_cy, setBC_cy, setDE_cy, setHL_cy, w8_cy, push_cy, pop_cy, call_cy, ret_cy, addHL_cy, inc8_cy, dec8_cy, daa_cy, addA_cy, subA_cy, andA_cy, xorA_cy, orA_cy, cpA_cy, setAF_cy, spAdd_cy, bitT_cy, rl_cy, rr_cy, sla_cy, sra_cy, srl_cy, swap_cy]
    all_goals first | rfl | exact cb_cy _
  rw [if_neg ha8]
  by_cases ha9 : op = 0xDA
  · rw [if_pos ha9]
    try simp only []
    repeat' split
    all_goals try dsimp only
    all_goals try simp only [jr_cy, fetch_cy, fetch16_cy, setBC_cy, setDE_cy, setHL_cy, w8_cy, push_cy, pop_cy, call_cy, ret_cy, addHL_cy, inc8_cy, dec8_cy, daa_cy, addA_cy, subA_cy, andA_cy, xorA_cy, orA_cy, cpA_cy, setAF_cy, spAdd_cy, bitT_cy, rl_cy, rr_cy, sla_cy, sra_cy, srl_cy, swap_cy]
    all_goals first | rfl | exact cb_cy _
  rw [if_neg ha9]
  by_cases ha10 : op = 0xDC
  · rw [if_pos ha10]
    try simp only []
    repeat' split
    all_goals try dsimp only
    all_goals try simp only [jr_cy, fetch_cy, fetch16_cy, setBC_cy, setDE_cy, setHL_cy, w8_cy, push_cy, pop_cy, call_cy, ret_cy, addHL_cy, inc8_cy, dec8_cy, daa_cy, addA_cy, subA_cy, andA_cy, xorA_cy, orA_cy, cpA_cy, setAF_cy, spAdd_cy, bitT_cy, rl_cy, rr_cy, sla_cy, sra_cy, srl_cy, swap_cy]
    all_goals first | rfl | exact cb_cy _
  rw [if_neg ha10]
  by_cases ha11 : op = 0xDE
  · rw [if_pos ha11]
    try simp only []
    repeat' split
    all_goals try dsimp only
    all_goals try simp only [jr_cy, fetch_cy, fetch16_cy, setBC_cy, setDE_cy, setHL_cy, w8_cy, push_cy, pop_cy, call_cy, ret_cy, addHL_cy, inc8_cy, dec8_cy, daa_cy, addA_cy, subA_cy, andA_cy, xorA_cy, orA_cy, cpA_cy, setAF_cy, spAdd_cy, bitT_cy, rl_cy, rr_cy, sla_cy, sra_cy, srl_cy, swap_cy]
    all_goals first | rfl | exact cb_cy _
  rw [if_neg ha11]
  by_cases ha12 : op = 0xDF
  · rw [if_pos ha12]
    try simp only []
    repeat' split
    all_goals try dsimp only
    all_goals try simp only [jr_cy, fetch_cy, fetch16_cy, setBC_cy, setDE_cy, setHL_cy, w8_cy, push_cy, pop_cy, call_cy, ret_cy, addHL_cy, inc8_cy, dec8_cy, daa_cy, addA_cy, subA_cy, andA_cy, xorA_cy, orA_cy, cpA_cy, setAF_cy, spAdd_cy, bitT_cy, rl_cy, rr_cy, sla_cy, sra_cy, srl_cy, swap_cy]
    all_goals first | rfl | exact cb_cy _
  rw [if_neg ha12]
  try simp only []
  repeat' split
  all_goals try dsimp only
  all_goals try simp only [jr_cy, fetch_cy, fetch16_cy, setBC_cy, setDE_cy, setHL_cy, w8_cy, push_cy, pop_cy, call_cy, ret_cy, addHL_cy, inc8_cy, dec8_cy, daa_cy, addA_cy, subA_cy, andA_cy, xorA_cy, orA_cy, cpA_cy, setAF_cy, spAdd_cy, bitT_cy, rl_cy, rr_cy, sla_cy, sra_cy, srl_cy, swap_cy]
  all_goals first | rfl | exact cb_cy _

theorem execHiD_cost (op : Nat) (s : CPU) : 4 ≤ (execHiD op s).1 ∧ (execHiD op s).1 ≤ 24 := by
  unfold execHiD
  by_cases ha0 : op = 0xD0
  · rw [if_pos ha0]
    try simp only []
    repeat' split
    all_goals try dsimp only
    all_goals first | decide | (split <;> decide) | exact cb_cost _
  rw [if_neg ha0]
  by_cases ha1 : op = 0xD1
  · rw [if_pos ha1]
    try simp only []
    repeat' split
    all_goals try dsimp only
    all_goals first | decide | (split <;> decide) | exact cb_cost _
  rw [if_neg ha1]
  by_cases ha2 : op = 0xD2
  · rw [if_pos ha2]
    try simp only []
    repeat' split
    all_goals try dsimp only
    all_goals first | decide | (split <;> decide) | exact cb_cost _
  rw [if_neg ha2]
  by_cases ha3 : op = 0xD4
  · rw [if_pos ha3]
    try simp only []
    repeat' split
    all_goals try dsimp only
    all_goals first | decide | (split <;> decide) | exact cb_cost _
  rw [if_neg ha3]
  by_cases ha4 : op = 0xD5
  · rw [if_pos ha4]
    try simp only []
    repeat' split
    all_goals try dsimp only
    all_goals first | decide | (split <;> decide) | exact cb_cost _
  rw [if_neg ha4]
  by_cases ha5 : op = 0xD6
  · rw [if_pos ha5]
    try simp only []
    repeat' split
    all_goals try dsimp only
    all_goals first | decide | (split <;> decide) | exact cb_cost _
  rw [if_neg ha5]
  by_cases ha6 : op = 0xD7
  · rw [if_pos ha6]
    try simp only []
    repeat' split
    all_goals try dsimp only
    all_goals first | decide | (split <;> decide) | exact cb_cost _
  rw [if_neg ha6]
  by_cases ha7 : op = 0xD8
  · rw [if_pos ha7]
    try simp only []
    repeat' split
    all_goals try dsimp only
    all_goals first | decide | (split <;> decide) | exact cb_cost _
  rw [if_neg ha7]
  by_cases ha8 : op = 0xD9
  · rw [if_pos ha8]
    try simp only []
    repeat' split
    all_goals try dsimp only
    all_goals first | decide | (split <;> decide) | exact cb_cost _
  rw [if_neg ha8]
  by_cases ha9 : op = 0xDA
  · rw [if_pos ha9]
    try simp only []
    repeat' split
    all_goals try dsimp only
    all_goals first | decide | (split <;> decide) | exact cb_cost _
  rw [if_neg ha9]
  by_cases ha10 : op = 0xDC
  · rw [if_pos ha10]
    try simp only []
    repeat' split
    all_goals try dsimp only
    all_goals first | decide | (split <;> decide) | exact cb_cost _
  rw [if_neg ha10]
  by_cases ha11 : op = 0xDE
  · rw [if_pos ha11]
    try simp only []
    repeat' split
    all_goals try dsimp only
    all_goals first | decide | (split <;> decide) | exact cb_cost _
  rw [if_neg ha11]
  by_cases ha12 : op = 0xDF
  · rw [if_pos ha12]
    try simp only []
    repeat' split
    all_goals try dsimp only
    all_goals first | decide | (split <;> decide) | exact cb_cost _
  rw [if_neg ha12]
  try simp only []
  repeat' split
  all_goals try dsimp only
  all_goals first | decide | (split <;> decide) | exact cb_cost _

theorem execHiE_f (op : Nat) (s : CPU) (h : s.f % 16 = 0) : (execHiE op s).2.f % 16 = 0 := by
  unfold execHiE
  by_cases ha0 : op = 0xE0
  · rw [if_pos ha0]
    try simp only []
    repeat' split
    all_goals try dsimp only
    all_goals try simp only [jr_f, fetch_f, fetch16_f, setBC_f, setDE_f, setHL_f, w8_f, push_f, pop_f, call_f, ret_f]
    all_goals
      first
        | exact h
        | exact sf_mod _ _ _ _
        | exact inc8_f _ _
        | exact dec8_f _ _
        | exact addHL_f _ _
        | exact daa_f _ h
        | exact addA_f _ _ _
        | exact subA_f _ _ _
        | exact andA_f _ _
        | exact xorA_f _ _
        | exact orA_f _ _
        | exact cpA_f _ _
        | exact setAF_f _ _
        | exact spAdd_f _ _
        | exact bitT_f _ _ _
        | exact rl_f _ _ _
        | exact rr_f _ _ _
        | exact sla_f _ _
        | exact sra_f _ _
        | exact srl_f _ _
        | exact swap_f _ _
        | exact cb_f _ h
        | (rw [or_mod16 _ _ (by decide)]; exact h)
  rw [if_neg ha0]
  by_cases ha1 : op = 0xE1
  · rw [if_pos ha1]
    try simp only []
    repeat' split
    all_goals try dsimp only
    all_goals try simp only [jr_f, fetch_f, fetch16_f, setBC_f, setDE_f, setHL_f, w8_f, push_f, pop_f, call_f, ret_f]
    all_goals
      first
        | exact h
        | exact sf_mod _ _ _ _
        | exact inc8_f _ _
        | exact dec8_f _ _
        | exact addHL_f _ _
        | exact daa_f _ h
        | exact addA_f _ _ _
        | exact subA_f _ _ _
        | exact andA_f _ _
        | exact xorA_f _ _
        | exact orA_f _ _
        | exact cpA_f _ _
        | exact setAF_f _ _
        | exact spAdd_f _ _
        | exact bitT_f _ _ _
        | exact rl_f _ _ _
        | exact rr_f _ _ _
        | exact sla_f _ _
        | exact sra_f _ _
        | exact srl_f _ _
        | exact swap_f _ _
        | exact cb_f _ h
        | (rw [or_mod16 _ _ (by decide)]; exact h)
  rw [if_neg ha1]
  by_cases ha2 : op = 0xE2
  · rw [if_pos ha2]
    try simp only []
    repeat' split
    all_goals try dsimp only
    all_goals try simp only [jr_f, fetch_f, fetch16_f, setBC_f, setDE_f, setHL_f, w8_f, push_f, pop_f, call_f, ret_f]
    all_goals
      first
        | exact h
        | exact sf_mod _ _ _ _
        | exact inc8_f _ _
        | exact dec8_f _ _
        | exact addHL_f _ _
        | exact daa_f _ h
        | exact addA_f _ _ _
        | exact subA_f _ _ _
        | exact andA_f _ _
        | exact xorA_f _ _
        | exact orA_f _ _
        | exact cpA_f _ _
        | exact setAF_f _ _
        | exact spAdd_f _ _
        | exact bitT_f _ _ _
        | exact rl_f _ _ _
        | exact rr_f _ _ _
        | exact sla_f _ _
        | exact sra_f _ _
        | exact srl_f _ _
        | exact swap_f _ _
        | exact cb_f _ h
        | (rw [or_mod16 _ _ (by decide)]; exact h)
  rw [if_neg ha2]
  by_cases ha3 : op = 0xE5
  · rw [if_pos ha3]
    try simp only []
    repeat' split
    all_goals try dsimp only
    all_goals try simp only [jr_f, fetch_f, fetch16_f, setBC_f, setDE_f, setHL_f, w8_f, push_f, pop_f, call_f, ret_f]
    all_goals
      first
        | exact h
        | exact sf_mod _ _ _ _
        | exact inc8_f _ _
        | exact dec8_f _ _
        | exact addHL_f _ _
        | exact daa_f _ h
        | exact addA_f _ _ _
        | exact subA_f _ _ _
        | exact andA_f _ _
        | exact xorA_f _ _
        | exact orA_f _ _
        | exact cpA_f _ _
        | exact setAF_f _ _
        | exact spAdd_f _ _
        | exact bitT_f _ _ _
        | exact rl_f _ _ _
        | exact rr_f _ _ _
        | exact sla_f _ _
        | exact sra_f _ _
        | exact srl_f _ _
        | exact swap_f _ _
        | exact cb_f _ h
        | (rw [or_mod16 _ _ (by decide)]; exact h)
  rw [if_neg ha3]
  by_cases ha4 : op = 0xE6
  · rw [if_pos ha4]
    try simp only []
    repeat' split
    all_goals try dsimp only
    all_goals try simp only [jr_f, fetch_f, fetch16_f, setBC_f, setDE_f, setHL_f, w8_f, push_f, pop_f, call_f, ret_f]
    all_goals
      first
        | exact h
        | exact sf_mod _ _ _ _
        | exact inc8_f _ _
        | exact dec8_f _ _
        | exact addHL_f _ _
        | exact daa_f _ h
        | exact addA_f _ _ _
        | exact subA_f _ _ _
        | exact andA_f _ _
        | exact xorA_f _ _
        | exact orA_f _ _
        | exact cpA_f _ _
        | exact setAF_f _ _
        | exact spAdd_f _ _
        | exact bitT_f _ _ _
        | exact rl_f _ _ _
        | exact rr_f _ _ _
        | exact sla_f _ _
        | exact sra_f _ _
        | exact srl_f _ _
        | exact swap_f _ _
        | exact cb_f _ h
        | (rw [or_mod16 _ _ (by decide)]; exact h)
  rw [if_neg ha4]
  by_cases ha5 : op = 0xE7
  · rw [if_pos ha5]
    try simp only []
    repeat' split
    all_goals try dsimp only
    all_goals try simp only [jr_f, fetch_f, fetch16_f, setBC_f, setDE_f, setHL_f, w8_f, push_f, pop_f, call_f, ret_f]
    all_goals
      first
        | exact h
        | exact sf_mod _ _ _ _
        | exact inc8_f _ _
        | exact dec8_f _ _
        | exact addHL_f _ _
        | exact daa_f _ h
        | exact addA_f _ _ _
        | exact subA_f _ _ _
        | exact andA_f _ _
        | exact xorA_f _ _
        | exact orA_f _ _
        | exact cpA_f _ _
        | exact setAF_f _ _
        | exact spAdd_f _ _
        | exact bitT_f _ _ _
        | exact rl_f _ _ _
        | exact rr_f _ _ _
        | exact sla_f _ _
        | exact sra_f _ _
        | exact srl_f _ _
        | exact swap_f _ _
        | exact cb_f _ h
        | (rw [or_mod16 _ _ (by decide)]; exact h)
  rw [if_neg ha5]
  by_cases ha6 : op = 0xE8
  · rw [if_pos ha6]
    try simp only []
    repeat' split
    all_goals try dsimp only
    all_goals try simp only [jr_f, fetch_f, fetch16_f, setBC_f, setDE_f, setHL_f, w8_f, push_f, pop_f, call_f, ret_f]
    all_goals
      first
        | exact h
        | exact sf_mod _ _ _ _
        | exact inc8_f _ _
        | exact dec8_f _ _
        | exact addHL_f _ _
        | exact daa_f _ h
        | exact addA_f _ _ _
        | exact subA_f _ _ _
        | exact andA_f _ _
        | exact xorA_f _ _
        | exact orA_f _ _
        | exact cpA_f _ _
        | exact setAF_f _ _
        | exact spAdd_f _ _
        | exact bitT_f _ _ _
        | exact rl_f _ _ _
        | exact rr_f _ _ _
        | exact sla_f _ _
        | exact sra_f _ _
        | exact srl_f _ _
        | exact swap_f _ _
        | exact cb_f _ h
        | (rw [or_mod16 _ _ (by decide)]; exact h)
  rw [if_neg ha6]
  by_cases ha7 : op = 0xE9
  · rw [if_pos ha7]
    try simp only []
    repeat' split
    all_goals try dsimp only
    all_goals try simp only [jr_f, fetch_f, fetch16_f, setBC_f, setDE_f, setHL_f, w8_f, push_f, pop_f, call_f, ret_f]
    all_goals
      first
        | exact h
        | exact sf_mod _ _ _ _
        | exact inc8_f _ _
        | exact dec8_f _ _
        | exact addHL_f _ _
        | exact daa_f _ h
        | exact addA_f _ _ _
        | exact subA_f _ _ _
        | exact andA_f _ _
        | exact xorA_f _ _
        | exact orA_f _ _
        | exact cpA_f _ _
        | exact setAF_f _ _
        | exact spAdd_f _ _
        | exact bitT_f _ _ _
        | exact rl_f _ _ _
        | exact rr_f _ _ _
        | exact sla_f _ _
        | exact sra_f _ _
        | exact srl_f _ _
        | exact swap_f _ _
        | exact cb_f _ h
        | (rw [or_mod16 _ _ (by decide)]; exact h)
  rw [if_neg ha7]
  by_cases ha8 : op = 0xEA
  · rw [if_pos ha8]
    try simp only []
    repeat' split
    all_goals try dsimp only
    all_goals try simp only [jr_f, fetch_f, fetch16_f, setBC_f, setDE_f, setHL_f, w8_f, push_f, pop_f, call_f, ret_f]
    all_goals
      first
        | exact h
        | exact sf_mod _ _ _ _
        | exact inc8_f _ _
        | exact dec8_f _ _
        | exact addHL_f _ _
        | exact daa_f _ h
        | exact addA_f _ _ _
        | exact subA_f _ _ _
        | exact andA_f _ _
        | exact xorA_f _ _
        | exact orA_f _ _
        | exact cpA_f _ _
        | exact setAF_f _ _
        | exact spAdd_f _ _
        | exact bitT_f _ _ _
        | exact rl_f _ _ _
        | exact rr_f _ _ _
        | exact sla_f _ _
        | exact sra_f _ _
        | exact srl_f _ _
        | exact swap_f _ _
        | exact cb_f _ h
        | (rw [or_mod16 _ _ (by decide)]; exact h)
  rw [if_neg ha8]
  by_cases ha9 : op = 0xEE
  · rw [if_pos ha9]
    try simp only []
    repeat' split
    all_goals try dsimp only
    all_goals try simp only [jr_f, fetch_f, fetch16_f, setBC_f, setDE_f, setHL_f, w8_f, push_f, pop_f, call_f, ret_f]
    all_goals
      first
        | exact h
        | exact sf_mod _ _ _ _
        | exact inc8_f _ _
        | exact dec8_f _ _
        | exact addHL_f _ _
        | exact daa_f _ h
        | exact addA_f _ _ _
        | exact subA_f _ _ _
        | exact andA_f _ _
        | exact xorA_f _ _
        | exact orA_f _ _
        | exact cpA_f _ _
        | exact setAF_f _ _
        | exact spAdd_f _ _
        | exact bitT_f _ _ _
        | exact rl_f _ _ _
        | exact rr_f _ _ _
        | exact sla_f _ _
        | exact sra_f _ _
        | exact srl_f _ _
        | exact swap_f _ _
        | exact cb_f _ h
        | (rw [or_mod16 _ _ (by decide)]; exact h)
  rw [if_neg ha9]
  by_cases ha10 : op = 0xEF
  · rw [if_pos ha10]
    try simp only []
    repeat' split
    all_goals try dsimp only
    all_goals try simp only [jr_f, fetch_f, fetch16_f, setBC_f, setDE_f, setHL_f, w8_f, push_f, pop_f, call_f, ret_f]
    all_goals
      first
        | exact h
        | exact sf_mod _ _ _ _
        | exact inc8_f _ _
        | exact dec8_f _ _
        | exact addHL_f _ _
        | exact daa_f _ h
        | exact addA_f _ _ _
        | exact subA_f _ _ _
        | exact andA_f _ _
        | exact xorA_f _ _
        | exact orA_f _ _
        | exact cpA_f _ _
        | exact setAF_f _ _
        | exact spAdd_f _ _
        | exact bitT_f _ _ _
        | exact rl_f _ _ _
        | exact rr_f _ _ _
        | exact sla_f _ _
        | exact sra_f _ _
        | exact srl_f _ _
        | exact swap_f _ _
        | exact cb_f _ h
        | (rw [or_mod16 _ _ (by decide)]; exact h)
  rw [if_neg ha10]
  try simp only []
  repeat' split
  all_goals try dsimp only
  all_goals try simp only [jr_f, fetch_f, fetch16_f, setBC_f, setDE_f, setHL_f, w8_f, push_f, pop_f, call_f, ret_f]
  all_goals
    first
      | exact h
      | exact sf_mod _ _ _ _
      | exact inc8_f _ _
      | exact dec8_f _ _
      | exact addHL_f _ _
      | exact daa_f _ h
      | exact addA_f _ _ _
      | exact subA_f _ _ _
      | exact andA_f _ _
      | exact xorA_f _ _
      | exact orA_f _ _
      | exact cpA_f _ _
      | exact setAF_f _ _
      | exact spAdd_f _ _
      | exact bitT_f _ _ _
      | exact rl_f _ _ _
      | exact rr_f _ _ _
      | exact sla_f _ _
      | exact sra_f _ _
      | exact srl_f _ _
      | exact swap_f _ _
      | exact cb_f _ h
      | (rw [or_mod16 _ _ (by decide)]; exact h)

theorem execHiE_cy (op : Nat) (s : CPU) : (execHiE op s).2.cycles = s.cycles := by
  unfold execHiE
  by_cases ha0 : op = 0xE0
  · rw [if_pos ha0]
    try simp only []
    repeat' split
    all_goals try dsimp only
    all_goals try simp only [jr_cy, fetch_cy, fetch16_cy, setBC_cy, setDE_cy, setHL_cy, w8_cy, push_cy, pop_cy, call_cy, ret_cy, addHL_cy, inc8_cy, dec8_cy, daa_cy, addA_cy, subA_cy, andA_cy, xorA_cy, orA_cy, cpA_cy, setAF_cy, spAdd_cy, bitT_cy, rl_cy, rr_cy, sla_cy, sra_cy, srl_cy, swap_cy]
    all_goals first | rfl | exact cb_cy _
  rw [if_neg ha0]
  by_cases ha1 : op = 0xE1
  · rw [if_pos ha1]
    try simp only []
    repeat' split
    all_goals try dsimp only
    all_goals try simp only [jr_cy, fetch_cy, fetch16_cy, setBC_cy, setDE_cy, setHL_cy, w8_cy, push_cy, pop_cy, call_cy, ret_cy, addHL_cy, inc8_cy, dec8_cy, daa_cy, addA_cy, subA_cy, andA_cy, xorA_cy, orA_cy, cpA_cy, setAF_cy, spAdd_cy, bitT_cy, rl_cy, rr_cy, sla_cy, sra_cy, srl_cy, swap_cy]
    all_goals first | rfl | exact cb_cy _
  rw [if_neg ha1]
  by_cases ha2 : op = 0xE2
  · rw [if_pos ha2]
    try simp only []
    repeat' split
    all_goals try dsimp only
    all_goals try simp only [jr_cy, fetch_cy, fetch16_cy, setBC_cy, setDE_cy, setHL_cy, w8_cy, push_cy, pop_cy, call_cy, ret_cy, addHL_cy, inc8_cy, dec8_cy, daa_cy, addA_cy, subA_cy, andA_cy, xorA_cy, orA_cy, cpA_cy, setAF_cy, spAdd_cy, bitT_cy, rl_cy, rr_cy, sla_cy, sra_cy, srl_cy, swap_cy]
    all_goals first | rfl | exact cb_cy _
  rw [if_neg ha2]
  by_cases ha3 : op = 0xE5
  · rw [if_pos ha3]
    try simp only []
    repeat' split
    all_goals try dsimp only
    all_goals try simp only [jr_cy, fetch_cy, fetch16_cy, setBC_cy, setDE_cy, setHL_cy, w8_cy, push_cy, pop_cy, call_cy, ret_cy, addHL_cy, inc8_cy, dec8_cy, daa_cy, addA_cy, subA_cy, andA_cy, xorA_cy, orA_cy, cpA_cy, setAF_cy, spAdd_cy, bitT_cy, rl_cy, rr_cy, sla_cy, sra_cy, srl_cy, swap_cy]
    all_goals first | rfl | exact cb_cy _
  rw [if_neg ha3]
  by_cases ha4 : op = 0xE6
  · rw [if_pos ha4]
    try simp only []
    repeat' split
    all_goals try dsimp only
    all_goals try simp only [jr_cy, fetch_cy, fetch16_cy, setBC_cy, setDE_cy, setHL_cy, w8_cy, push_cy, pop_cy, call_cy, ret_cy, addHL_cy, inc8_cy, dec8_cy, daa_cy, addA_cy, subA_cy, andA_cy, xorA_cy, orA_cy, cpA_cy, setAF_cy, spAdd_cy, bitT_cy, rl_cy, rr_cy, sla_cy, sra_cy, srl_cy, swap_cy]
    all_goals first | rfl | exact cb_cy _
  rw [if_neg ha4]
  by_cases ha5 : op = 0xE7
  · rw [if_pos ha5]
    try simp only []
    repeat' split
    all_goals try dsimp only
    all_goals try simp only [jr_cy, fetch_cy, fetch16_cy, setBC_cy, setDE_cy, setHL_cy, w8_cy, push_cy, pop_cy, call_cy, ret_cy, addHL_cy, inc8_cy, dec8_cy, daa_cy, addA_cy, subA_cy, andA_cy, xorA_cy, orA_cy, cpA_cy, setAF_cy, spAdd_cy, bitT_cy, rl_cy, rr_cy, sla_cy, sra_cy, srl_cy, swap_cy]
    all_goals first | rfl | exact cb_cy _
  rw [if_neg ha5]
  by_cases ha6 : op = 0xE8
  · rw [if_pos ha6]
    try simp only []
    repeat' split
    all_goals try dsimp only
    all_goals try simp only [jr_cy, fetch_cy, fetch16_cy, setBC_cy, setDE_cy, setHL_cy, w8_cy, push_cy, pop_cy, call_cy, ret_cy, addHL_cy, inc8_cy, dec8_cy, daa_cy, addA_cy, subA_cy, andA_cy, xorA_cy, orA_cy, cpA_cy, setAF_cy, spAdd_cy, bitT_cy, rl_cy, rr_cy, sla_cy, sra_cy, srl_cy, swap_cy]
    all_goals first | rfl | exact cb_cy _
  rw [if_neg ha6]
  by_cases ha7 : op = 0xE9
  · rw [if_pos ha7]
    try simp only []
    repeat' split
    all_goals try dsimp only
    all_goals try simp only [jr_cy, fetch_cy, fetch16_cy, setBC_cy, setDE_cy, setHL_cy, w8_cy, push_cy, pop_cy, call_cy, ret_cy, addHL_cy, inc8_cy, dec8_cy, daa_cy, addA_cy, subA_cy, andA_cy, xorA_cy, orA_cy, cpA_cy, setAF_cy, spAdd_cy, bitT_cy, rl_cy, rr_cy, sla_cy, sra_cy, srl_cy, swap_cy]
    all_goals first | rfl | exact cb_cy _
  rw [if_neg ha7]
  by_cases ha8 : op = 0xEA
  · rw [if_pos ha8]
    try simp only []
    repeat' split
    all_goals try dsimp only
    all_goals try simp only [jr_cy, fetch_cy, fetch16_cy, setBC_cy, setDE_cy, setHL_cy, w8_cy, push_cy, pop_cy, call_cy, ret_cy, addHL_cy, inc8_cy, dec8_cy, daa_cy, addA_cy, subA_cy, andA_cy, xorA_cy, orA_cy, cpA_cy, setAF_cy, spAdd_cy, bitT_cy, rl_cy, rr_cy, sla_cy, sra_cy, srl_cy, swap_cy]
    all_goals first | rfl | exact cb_cy _
  rw [if_neg ha8]
  by_cases ha9 : op = 0xEE
  · rw [if_pos ha9]
    try simp only []
    repeat' split
    all_goals try dsimp only
    all_goals try simp only [jr_cy, fetch_cy, fetch16_cy, setBC_cy, setDE_cy, setHL_cy, w8_cy, push_cy, pop_cy, call_cy, ret_cy, addHL_cy, inc8_cy, dec8_cy, daa_cy, addA_cy, subA_cy, andA_cy, xorA_cy, orA_cy, cpA_cy, setAF_cy, spAdd_cy, bitT_cy, rl_cy, rr_cy, sla_cy, sra_cy, srl_cy, swap_cy]
    all_goals first | rfl | exact cb_cy _
  rw [if_neg ha9]
  by_cases ha10 : op = 0xEF
  · rw [if_pos ha10]
    try simp only []
    repeat' split
    all_goals try dsimp only
    all_goals try simp only [jr_cy, fetch_cy, fetch16_cy, setBC_cy, setDE_cy, setHL_cy, w8_cy, push_cy, pop_cy, call_cy, ret_cy, addHL_cy, inc8_cy, dec8_cy, daa_cy, addA_cy, subA_cy, andA_cy, xorA_cy, orA_cy, cpA_cy, setAF_cy, spAdd_cy, bitT_cy, rl_cy, rr_cy, sla_cy, sra_cy, srl_cy, swap_cy]
    all_goals first | rfl | exact cb_cy _
  rw [if_neg ha10]
  try simp only []
  repeat' split
  all_goals try dsimp only
  all_goals try simp only [jr_cy, fetch_cy, fetch16_cy, setBC_cy, setDE_cy, setHL_cy, w8_cy, push_cy, pop_cy, call_cy, ret_cy, addHL_cy, inc8_cy, dec8_cy, daa_cy, addA_cy, subA_cy, andA_cy, xorA_cy, orA_cy, cpA_cy, setAF_cy, spAdd_cy, bitT_cy, rl_cy, rr_cy, sla_cy, sra_cy, srl_cy, swap_cy]
  all_goals first | rfl | exact cb_cy _

theorem execHiE_cost (op : Nat) (s : CPU) : 4 ≤ (execHiE op s).1 ∧ (execHiE op s).1 ≤ 24 := by
  unfold execHiE
  by_cases ha0 : op = 0xE0
  · rw [if_pos ha0]
    try simp only []
    repeat' split
    all_goals try dsimp only
    all_goals first | decide | (split <;> decide) | exact cb_cost _
  rw [if_neg ha0]
  by_cases ha1 : op = 0xE1
  · rw [if_pos ha1]
    try simp only []
    repeat' split
    all_goals try dsimp only
    all_goals first | decide | (split <;> decide) | exact cb_cost _
  rw [if_neg ha1]
  by_cases ha2 : op = 0xE2
  · rw [if_pos ha2]
    try simp only []
    repeat' split
    all_goals try dsimp only
    all_goals first | decide | (split <;> decide) | exact cb_cost _
  rw [if_neg ha2]
  by_cases ha3 : op = 0xE5
  · rw [if_pos ha3]
    try simp only []
    repeat' split
    all_goals try dsimp only
    all_goals first | decide | (split <;> decide) | exact cb_cost _
  rw [if_neg ha3]
  by_cases ha4 : op = 0xE6
  · rw [if_pos ha4]
    try simp only []
    repeat' split
    all_goals try dsimp only
    all_goals first | decide | (split <;> decide) | exact cb_cost _
  rw [if_neg ha4]
  by_cases ha5 : op = 0xE7
  · rw [if_pos ha5]
    try simp only []
    repeat' split
    all_goals try dsimp only
    all_goals first | decide | (split <;> decide) | exact cb_cost _
  rw [if_neg ha5]
  by_cases ha6 : op = 0xE8
  · rw [if_pos ha6]
    try simp only []
    repeat' split
    all_goals try dsimp only
    all_goals first | decide | (split <;> decide) | exact cb_cost _
  rw [if_neg ha6]
  by_cases ha7 : op = 0xE9
  · rw [if_pos ha7]
    try simp only []
    repeat' split
    all_goals try dsimp only
    all_goals first | decide | (split <;> decide) | exact cb_cost _
  rw [if_neg ha7]
  by_cases ha8 : op = 0xEA
  · rw [if_pos ha8]
    try simp only []
    repeat' split
    all_goals try dsimp only
    all_goals first | decide | (split <;> decide) | exact cb_cost _
  rw [if_neg ha8]
  by_cases ha9 : op = 0xEE
  · rw [if_pos ha9]
    try simp only []
    repeat' split
    all_goals try dsimp only
    all_goals first | decide | (split <;> decide) | exact cb_cost _
  rw [if_neg ha9]
  by_cases ha10 : op = 0xEF
  · rw [if_pos ha10]
    try simp only []
    repeat' split
    all_goals try dsimp only
    all_goals first | decide | (split <;> decide) | exact cb_cost _
  rw [if_neg ha10]
  try simp only []
  repeat' split
  all_goals try dsimp only
  all_goals first | decide | (split <;> decide) | exact cb_cost _

theorem execHiF_f (op : Nat) (s : CPU) (h : s.f % 16 = 0) : (execHiF op s).2.f % 16 = 0 := by
  unfold execHiF
  by_cases ha0 : op = 0xF0
  · rw [if_pos ha0]
    try simp only []
    repeat' split
    all_goals try dsimp only
    all_goals try simp only [jr_f, fetch_f, fetch16_f, setBC_f, setDE_f, setHL_f, w8_f, push_f, pop_f, call_f, ret_f]
    all_goals
      first
        | exact h
        | exact sf_mod _ _ _ _
        | exact inc8_f _ _
        | exact dec8_f _ _
        | exact addHL_f _ _
        | exact daa_f _ h
        | exact addA_f _ _ _
        | exact subA_f _ _ _
        | exact andA_f _ _
        | exact xorA_f _ _
        | exact orA_f _ _
        | exact cpA_f _ _
        | exact setAF_f _ _
        | exact spAdd_f _ _
        | exact bitT_f _ _ _
        | exact rl_f _ _ _
        | exact rr_f _ _ _
        | exact sla_f _ _
        | exact sra_f _ _
        | exact srl_f _ _
        | exact swap_f _ _
        | exact cb_f _ h
        | (rw [or_mod16 _ _ (by decide)]; exact h)
  rw [if_neg ha0]
  by_cases ha1 : op = 0xF1
  · rw [if_pos ha1]
    try simp only []
    repeat' split
    all_goals try dsimp only
    all_goals try simp only [jr_f, fetch_f, fetch16_f, setBC_f, setDE_f, setHL_f, w8_f, push_f, pop_f, call_f, ret_f]
    all_goals
      first
        | exact h
        | exact sf_mod _ _ _ _
        | exact inc8_f _ _
        | exact dec8_f _ _
        | exact addHL_f _ _
        | exact daa_f _ h
        | exact addA_f _ _ _
        | exact subA_f _ _ _
        | exact andA_f _ _
        | exact xorA_f _ _
        | exact orA_f _ _
        | exact cpA_f _ _
        | exact setAF_f _ _
        | exact spAdd_f _ _
        | exact bitT_f _ _ _
        | exact rl_f _ _ _
        | exact rr_f _ _ _
        | exact sla_f _ _
        | exact sra_f _ _
        | exact srl_f _ _
        | exact swap_f _ _
        | exact cb_f _ h
        | (rw [or_mod16 _ _ (by decide)]; exact h)
  rw [if_neg ha1]
  by_cases ha2 : op = 0xF2
  · rw [if_pos ha2]
    try simp only []
    repeat' split
    all_goals try dsimp only
    all_goals try simp only [jr_f, fetch_f, fetch16_f, setBC_f, setDE_f, setHL_f, w8_f, push_f, pop_f, call_f, ret_f]
    all_goals
      first
        | exact h
        | exact sf_mod _ _ _ _
        | exact inc8_f _ _
        | exact dec8_f _ _
        | exact addHL_f _ _
        | exact daa_f _ h
        | exact addA_f _ _ _
        | exact subA_f _ _ _
        | exact andA_f _ _
        | exact xorA_f _ _
        | exact orA_f _ _
        | exact cpA_f _ _
        | exact setAF_f _ _
        | exact spAdd_f _ _
        | exact bitT_f _ _ _
        | exact rl_f _ _ _
        | exact rr_f _ _ _
        | exact sla_f _ _
        | exact sra_f _ _
        | exact srl_f _ _
        | exact swap_f _ _
        | exact cb_f _ h
        | (rw [or_mod16 _ _ (by decide)]; exact h)
  rw [if_neg ha2]
  by_cases ha3 : op = 0xF3
  · rw [if_pos ha3]
    try simp only []
    repeat' split
    all_goals try dsimp only
    all_goals try simp only [jr_f, fetch_f, fetch16_f, setBC_f, setDE_f, setHL_f, w8_f, push_f, pop_f, call_f, ret_f]
    all_goals
      first
        | exact h
        | exact sf_mod _ _ _ _
        | exact inc8_f _ _
        | exact dec8_f _ _
        | exact addHL_f _ _
        | exact daa_f _ h
        | exact addA_f _ _ _
        | exact subA_f _ _ _
        | exact andA_f _ _
        | exact xorA_f _ _
        | exact orA_f _ _
        | exact cpA_f _ _
        | exact setAF_f _ _
        | exact spAdd_f _ _
        | exact bitT_f _ _ _
        | exact rl_f _ _ _
        | exact rr_f _ _ _
        | exact sla_f _ _
        | exact sra_f _ _
        | exact srl_f _ _
        | exact swap_f _ _
        | exact cb_f _ h
        | (rw [or_mod16 _ _ (by decide)]; exact h)
  rw [if_neg ha3]
  by_cases ha4 : op = 0xF5
  · rw [if_pos ha4]
    try simp only []
    repeat' split
    all_goals try dsimp only
    all_goals try simp only [jr_f, fetch_f, fetch16_f, setBC_f, setDE_f, setHL_f, w8_f, push_f, pop_f, call_f, ret_f]
    all_goals
      first
        | exact h
        | exact sf_mod _ _ _ _
        | exact inc8_f _ _
        | exact dec8_f _ _
        | exact addHL_f _ _
        | exact daa_f _ h
        | exact addA_f _ _ _
        | exact subA_f _ _ _
        | exact andA_f _ _
        | exact xorA_f _ _
        | exact orA_f _ _
        | exact cpA_f _ _
        | exact setAF_f _ _
        | exact spAdd_f _ _
        | exact bitT_f _ _ _
        | exact rl_f _ _ _
        | exact rr_f _ _ _
        | exact sla_f _ _
        | exact sra_f _ _
        | exact srl_f _ _
        | exact swap_f _ _
        | exact cb_f _ h
        | (rw [or_mod16 _ _ (by decide)]; exact h)
  rw [if_neg ha4]
  by_cases ha5 : op = 0xF6
  · rw [if_pos ha5]
    try simp only []
    repeat' split
    all_goals try dsimp only
    all_goals try simp only [jr_f, fetch_f, fetch16_f, setBC_f, setDE_f, setHL_f, w8_f, push_f, pop_f, call_f, ret_f]
    all_goals
      first
        | exact h
        | exact sf_mod _ _ _ _
        | exact inc8_f _ _
        | exact dec8_f _ _
        | exact addHL_f _ _
        | exact daa_f _ h
        | exact addA_f _ _ _
        | exact subA_f _ _ _
        | exact andA_f _ _
        | exact xorA_f _ _
        | exact orA_f _ _
        | exact cpA_f _ _
        | exact setAF_f _ _
        | exact spAdd_f _ _
        | exact bitT_f _ _ _
        | exact rl_f _ _ _
        | exact rr_f _ _ _
        | exact sla_f _ _
        | exact sra_f _ _
        | exact srl_f _ _
        | exact swap_f _ _
        | exact cb_f _ h
        | (rw [or_mod16 _ _ (by decide)]; exact h)
  rw [if_neg ha5]
  by_cases ha6 : op = 0xF7
  · rw [if_pos ha6]
    try simp only []
    repeat' split
    all_goals try dsimp only
    all_goals try simp only [jr_f, fetch_f, fetch16_f, setBC_f, setDE_f, setHL_f, w8_f, push_f, pop_f, call_f, ret_f]
    all_goals
      first
        | exact h
        | exact sf_mod _ _ _ _
        | exact inc8_f _ _
        | exact dec8_f _ _
        | exact addHL_f _ _
        | exact daa_f _ h
        | exact addA_f _ _ _
        | exact subA_f _ _ _
        | exact andA_f _ _
        | exact xorA_f _ _
        | exact orA_f _ _
        | exact cpA_f _ _
        | exact setAF_f _ _
        | exact spAdd_f _ _
        | exact bitT_f _ _ _
        | exact rl_f _ _ _
        | exact rr_f _ _ _
        | exact sla_f _ _
        | exact sra_f _ _
        | exact srl_f _ _
        | exact swap_f _ _
        | exact cb_f _ h
        | (rw [or_mod16 _ _ (by decide)]; exact h)
  rw [if_neg ha6]
  by_cases ha7 : op = 0xF8
  · rw [if_pos ha7]
    try simp only []
    repeat' split
    all_goals try dsimp only
    all_goals try simp only [jr_f, fetch_f, fetch16_f, setBC_f, setDE_f, setHL_f, w8_f, push_f, pop_f, call_f, ret_f]
    all_goals
      first
        | exact h
        | exact sf_mod _ _ _ _
        | exact inc8_f _ _
        | exact dec8_f _ _
        | exact addHL_f _ _
        | exact daa_f _ h
        | exact addA_f _ _ _
        | exact subA_f _ _ _
        | exact andA_f _ _
        | exact xorA_f _ _
        | exact orA_f _ _
        | exact cpA_f _ _
        | exact setAF_f _ _
        | exact spAdd_f _ _
        | exact bitT_f _ _ _
        | exact rl_f _ _ _
        | exact rr_f _ _ _
        | exact sla_f _ _
        | exact sra_f _ _
        | exact srl_f _ _
        | exact swap_f _ _
        | exact cb_f _ h
        | (rw [or_mod16 _ _ (by decide)]; exact h)
  rw [if_neg ha7]
  by_cases ha8 : op = 0xF9
  · rw [if_pos ha8]
    try simp only []
    repeat' split
    all_goals try dsimp only
    all_goals try simp only [jr_f, fetch_f, fetch16_f, setBC_f, setDE_f, setHL_f, w8_f, push_f, pop_f, call_f, ret_f]
    all_goals
      first
        | exact h
        | exact sf_mod _ _ _ _
        | exact inc8_f _ _
        | exact dec8_f _ _
        | exact addHL_f _ _
        | exact daa_f _ h
        | exact addA_f _ _ _
        | exact subA_f _ _ _
        | exact andA_f _ _
        | exact xorA_f _ _
        | exact orA_f _ _
        | exact cpA_f _ _
        | exact setAF_f _ _
        | exact spAdd_f _ _
        | exact bitT_f _ _ _
        | exact rl_f _ _ _
        | exact rr_f _ _ _
        | exact sla_f _ _
        | exact sra_f _ _
        | exact srl_f _ _
        | exact swap_f _ _
        | exact cb_f _ h
        | (rw [or_mod16 _ _ (by decide)]; exact h)
  rw [if_neg ha8]
  by_cases ha9 : op = 0xFA
  · rw [if_pos ha9]
    try simp only []
    repeat' split
    all_goals try dsimp only
    all_goals try simp only [jr_f, fetch_f, fetch16_f, setBC_f, setDE_f, setHL_f, w8_f, push_f, pop_f, call_f, ret_f]
    all_goals
      first
        | exact h
        | exact sf_mod _ _ _ _
        | exact inc8_f _ _
        | exact dec8_f _ _
        | exact addHL_f _ _
        | exact daa_f _ h
        | exact addA_f _ _ _
        | exact subA_f _ _ _
        | exact andA_f _ _
        | exact xorA_f _ _
        | exact orA_f _ _
        | exact cpA_f _ _
        | exact setAF_f _ _
        | exact spAdd_f _ _
        | exact bitT_f _ _ _
        | exact rl_f _ _ _
        | exact rr_f _ _ _
        | exact sla_f _ _
        | exact sra_f _ _
        | exact srl_f _ _
        | exact swap_f _ _
        | exact cb_f _ h
        | (rw [or_mod16 _ _ (by decide)]; exact h)
  rw [if_neg ha9]
  by_cases ha10 : op = 0xFB
  · rw [if_pos ha10]
    try simp only []
    repeat' split
    all_goals try dsimp only
    all_goals try simp only [jr_f, fetch_f, fetch16_f, setBC_f, setDE_f, setHL_f, w8_f, push_f, pop_f, call_f, ret_f]
    all_goals
      first
        | exact h
        | exact sf_mod _ _ _ _
        | exact inc8_f _ _
        | exact dec8_f _ _
        | exact addHL_f _ _
        | exact daa_f _ h
        | exact addA_f _ _ _
        | exact subA_f _ _ _
        | exact andA_f _ _
        | exact xorA_f _ _
        | exact orA_f _ _
        | exact cpA_f _ _
        | exact setAF_f _ _
        | exact spAdd_f _ _
        | exact bitT_f _ _ _
        | exact rl_f _ _ _
        | exact rr_f _ _ _
        | exact sla_f _ _
        | exact sra_f _ _
        | exact srl_f _ _
        | exact swap_f _ _
        | exact cb_f _ h
        | (rw [or_mod16 _ _ (by decide)]; exact h)
  rw [if_neg ha10]
  by_cases ha11 : op = 0xFE
  · rw [if_pos ha11]
    try simp only []
    repeat' split
    all_goals try dsimp only
    all_goals try simp only [jr_f, fetch_f, fetch16_f, setBC_f, setDE_f, setHL_f, w8_f, push_f, pop_f, call_f, ret_f]
    all_goals
      first
        | exact h
        | exact sf_mod _ _ _ _
        | exact inc8_f _ _
        | exact dec8_f _ _
        | exact addHL_f _ _
        | exact daa_f _ h
        | exact addA_f _ _ _
        | exact subA_f _ _ _
        | exact andA_f _ _
        | exact xorA_f _ _
        | exact orA_f _ _
        | exact cpA_f _ _
        | exact setAF_f _ _
        | exact spAdd_f _ _
        | exact bitT_f _ _ _
        | exact rl_f _ _ _
        | exact rr_f _ _ _
        | exact sla_f _ _
        | exact sra_f _ _
        | exact srl_f _ _
        | exact swap_f _ _
        | exact cb_f _ h
        | (rw [or_mod16 _ _ (by decide)]; exact h)
  rw [if_neg ha11]
  by_cases ha12 : op = 0xFF
  · rw [if_pos ha12]
    try simp only []
    repeat' split
    all_goals try dsimp only
    all_goals try simp only [jr_f, fetch_f, fetch16_f, setBC_f, setDE_f, setHL_f, w8_f, push_f, pop_f, call_f, ret_f]
    all_goals
      first
        | exact h
        | exact sf_mod _ _ _ _
        | exact inc8_f _ _
        | exact dec8_f _ _
        | exact addHL_f _ _
        | exact daa_f _ h
        | exact addA_f _ _ _
        | exact subA_f _ _ _
        | exact andA_f _ _
        | exact xorA_f _ _
        | exact orA_f _ _
        | exact cpA_f _ _
        | exact setAF_f _ _
        | exact spAdd_f _ _
        | exact bitT_f _ _ _
        | exact rl_f _ _ _
        | exact rr_f _ _ _
        | exact sla_f _ _
        | exact sra_f _ _
        | exact srl_f _ _
        | exact swap_f _ _
        | exact cb_f _ h
        | (rw [or_mod16 _ _ (by decide)]; exact h)
  rw [if_neg ha12]
  try simp only []
  repeat' split
  all_goals try dsimp only
  all_goals try simp only [jr_f, fetch_f, fetch16_f, setBC_f, setDE_f, setHL_f, w8_f, push_f, pop_f, call_f, ret_f]
  all_goals
    first
      | exact h
      | exact sf_mod _ _ _ _
      | exact inc8_f _ _
      | exact dec8_f _ _
      | exact addHL_f _ _
      | exact daa_f _ h
      | exact addA_f _ _ _
      | exact subA_f _ _ _
      | exact andA_f _ _
      | exact xorA_f _ _
      | exact orA_f _ _
      | exact cpA_f _ _
      | exact setAF_f _ _
      | exact spAdd_f _ _
      | exact bitT_f _ _ _
      | exact rl_f _ _ _
      | exact rr_f _ _ _
      | exact sla_f _ _
      | exact sra_f _ _
      | exact srl_f _ _
      | exact swap_f _ _
      | exact cb_f _ h
      | (rw [or_mod16 _ _ (by decide)]; exact h)

theorem execHiF_cy (op : Nat) (s : CPU) : (execHiF op s).2.cycles = s.cycles := by
  unfold execHiF
  by_cases ha0 : op = 0xF0
  · rw [if_pos ha0]
    try simp only []
    repeat' split
    all_goals try dsimp only
    all_goals try simp only [jr_cy, fetch_cy, fetch16_cy, setBC_cy, setDE_cy, setHL_cy, w8_cy, push_cy, pop_cy, call_cy, ret_cy, addHL_cy, inc8_cy, dec8_cy, daa_cy, addA_cy, subA_cy, andA_cy, xorA_cy, orA_cy, cpA_cy, setAF_cy, spAdd_cy, bitT_cy, rl_cy, rr_cy, sla_cy, sra_cy, srl_cy, swap_cy]
    all_goals first | rfl | exact cb_cy _
  rw [if_neg ha0]
  by_cases ha1 : op = 0xF1
  · rw [if_pos ha1]
    try simp only []
    repeat' split
    all_goals try dsimp only
    all_goals try simp only [jr_cy, fetch_cy, fetch16_cy, setBC_cy, setDE_cy, setHL_cy, w8_cy, push_cy, pop_cy, call_cy, ret_cy, addHL_cy, inc8_cy, dec8_cy, daa_cy, addA_cy, subA_cy, andA_cy, xorA_cy, orA_cy, cpA_cy, setAF_cy, spAdd_cy, bitT_cy, rl_cy, rr_cy, sla_cy, sra_cy, srl_cy, swap_cy]
    all_goals first | rfl | exact cb_cy _
  rw [if_neg ha1]
  by_cases ha2 : op = 0xF2
  · rw [if_pos ha2]
    try simp only []
    repeat' split
    all_goals try dsimp only
    all_goals try simp only [jr_cy, fetch_cy, fetch16_cy, setBC_cy, setDE_cy, setHL_cy, w8_cy, push_cy, pop_cy, call_cy, ret_cy, addHL_cy, inc8_cy, dec8_cy, daa_cy, addA_cy, subA_cy, andA_cy, xorA_cy, orA_cy, cpA_cy, setAF_cy, spAdd_cy, bitT_cy, rl_cy, rr_cy, sla_cy, sra_cy, srl_cy, swap_cy]
    all_goals first | rfl | exact cb_cy _
  rw [if_neg ha2]
  by_cases ha3 : op = 0xF3
  · rw [if_pos ha3]
    try simp only []
    repeat' split
    all_goals try dsimp only
    all_goals try simp only [jr_cy, fetch_cy, fetch16_cy, setBC_cy, setDE_cy, setHL_cy, w8_cy, push_cy, pop_cy, call_cy, ret_cy, addHL_cy, inc8_cy, dec8_cy, daa_cy, addA_cy, subA_cy, andA_cy, xorA_cy, orA_cy, cpA_cy, setAF_cy, spAdd_cy, bitT_cy, rl_cy, rr_cy, sla_cy, sra_cy, srl_cy, swap_cy]
    all_goals first | rfl | exact cb_cy _
  rw [if_neg ha3]
  by_cases ha4 : op = 0xF5
  · rw [if_pos ha4]
    try simp only []
    repeat' split
    all_goals try dsimp only
    all_goals try simp only [jr_cy, fetch_cy, fetch16_cy, setBC_cy, setDE_cy, setHL_cy, w8_cy, push_cy, pop_cy, call_cy, ret_cy, addHL_cy, inc8_cy, dec8_cy, daa_cy, addA_cy, subA_cy, andA_cy, xorA_cy, orA_cy, cpA_cy, setAF_cy, spAdd_cy, bitT_cy, rl_cy, rr_cy, sla_cy, sra_cy, srl_cy, swap_cy]
    all_goals first | rfl | exact cb_cy _
  rw [if_neg ha4]
  by_cases ha5 : op = 0xF6
  · rw [if_pos ha5]
    try simp only []
    repeat' split
    all_goals try dsimp only
    all_goals try simp only [jr_cy, fetch_cy, fetch16_cy, setBC_cy, setDE_cy, setHL_cy, w8_cy, push_cy, pop_cy, call_cy, ret_cy, addHL_cy, inc8_cy, dec8_cy, daa_cy, addA_cy, subA_cy, andA_cy, xorA_cy, orA_cy, cpA_cy, setAF_cy, spAdd_cy, bitT_cy, rl_cy, rr_cy, sla_cy, sra_cy, srl_cy, swap_cy]
    all_goals first | rfl | exact cb_cy _
  rw [if_neg ha5]
  by_cases ha6 : op = 0xF7
  · rw [if_pos ha6]
    try simp only []
    repeat' split
    all_goals try dsimp only
    all_goals try simp only [jr_cy, fetch_cy, fetch16_cy, setBC_cy, setDE_cy, setHL_cy, w8_cy, push_cy, pop_cy, call_cy, ret_cy, addHL_cy, inc8_cy, dec8_cy, daa_cy, addA_cy, subA_cy, andA_cy, xorA_cy, orA_cy, cpA_cy, setAF_cy, spAdd_cy, bitT_cy, rl_cy, rr_cy, sla_cy, sra_cy, srl_cy, swap_cy]
    all_goals first | rfl | exact cb_cy _
  rw [if_neg ha6]
  by_cases ha7 : op = 0xF8
  · rw [if_pos ha7]
    try simp only []
    repeat' split
    all_goals try dsimp only
    all_goals try simp only [jr_cy, fetch_cy, fetch16_cy, setBC_cy, setDE_cy, setHL_cy, w8_cy, push_cy, pop_cy, call_cy, ret_cy, addHL_cy, inc8_cy, dec8_cy, daa_cy, addA_cy, subA_cy, andA_cy, xorA_cy, orA_cy, cpA_cy, setAF_cy, spAdd_cy, bitT_cy, rl_cy, rr_cy, sla_cy, sra_cy, srl_cy, swap_cy]
    all_goals first | rfl | exact cb_cy _
  rw [if_neg ha7]
  by_cases ha8 : op = 0xF9
  · rw [if_pos ha8]
    try simp only []
    repeat' split
    all_goals try dsimp only
    all_goals try simp only [jr_cy, fetch_cy, fetch16_cy, setBC_cy, setDE_cy, setHL_cy, w8_cy, push_cy, pop_cy, call_cy, ret_cy, addHL_cy, inc8_cy, dec8_cy, daa_cy, addA_cy, subA_cy, andA_cy, xorA_cy, orA_cy, cpA_cy, setAF_cy, spAdd_cy, bitT_cy, rl_cy, rr_cy, sla_cy, sra_cy, srl_cy, swap_cy]
    all_goals first | rfl | exact cb_cy _
  rw [if_neg ha8]
  by_cases ha9 : op = 0xFA
  · rw [if_pos ha9]
    try simp only []
    repeat' split
    all_goals try dsimp only
    all_goals try simp only [jr_cy, fetch_cy, fetch16_cy, setBC_cy, setDE_cy, setHL_cy, w8_cy, push_cy, pop_cy, call_cy, ret_cy, addHL_cy, inc8_cy, dec8_cy, daa_cy, addA_cy, subA_cy, andA_cy, xorA_cy, orA_cy, cpA_cy, setAF_cy, spAdd_cy, bitT_cy, rl_cy, rr_cy, sla_cy, sra_cy, srl_cy, swap_cy]
    all_goals first | rfl | exact cb_cy _
  rw [if_neg ha9]
  by_cases ha10 : op = 0xFB
  · rw [if_pos ha10]
    try simp only []
    repeat' split
    all_goals try dsimp only
    all_goals try simp only [jr_cy, fetch_cy, fetch16_cy, setBC_cy, setDE_cy, setHL_cy, w8_cy, push_cy, pop_cy, call_cy, ret_cy, addHL_cy, inc8_cy, dec8_cy, daa_cy, addA_cy, subA_cy, andA_cy, xorA_cy, orA_cy, cpA_cy, setAF_cy, spAdd_cy, bitT_cy, rl_cy, rr_cy, sla_cy, sra_cy, srl_cy, swap_cy]
    all_goals first | rfl | exact cb_cy _
  rw [if_neg ha10]
  by_cases ha11 : op = 0xFE
  · rw [if_pos ha11]
    try simp only []
    repeat' split
    all_goals try dsimp only
    all_goals try simp only [jr_cy, fetch_cy, fetch16_cy, setBC_cy, setDE_cy, setHL_cy, w8_cy, push_cy, pop_cy, call_cy, ret_cy, addHL_cy, inc8_cy, dec8_cy, daa_cy, addA_cy, subA_cy, andA_cy, xorA_cy, orA_cy, cpA_cy, setAF_cy, spAdd_cy, bitT_cy, rl_cy, rr_cy, sla_cy, sra_cy, srl_cy, swap_cy]
    all_goals first | rfl | exact cb_cy _
  rw [if_neg ha11]
  by_cases ha12 : op = 0xFF
  · rw [if_pos ha12]
    try simp only []
    repeat' split
    all_goals try dsimp only
    all_goals try simp only [jr_cy, fetch_cy, fetch16_cy, setBC_cy, setDE_cy, setHL_cy, w8_cy, push_cy, pop_cy, call_cy, ret_cy, addHL_cy, inc8_cy, dec8_cy, daa_cy, addA_cy, subA_cy, andA_cy, xorA_cy, orA_cy, cpA_cy, setAF_cy, spAdd_cy, bitT_cy, rl_cy, rr_cy, sla_cy, sra_cy, srl_cy, swap_cy]
    all_goals first | rfl | exact cb_cy _
  rw [if_neg ha12]
  try simp only []
  repeat' split
  all_goals try dsimp only
  all_goals try simp only [jr_cy, fetch_cy, fetch16_cy, setBC_cy, setDE_cy, setHL_cy, w8_cy, push_cy, pop_cy, call_cy, ret_cy, addHL_cy, inc8_cy, dec8_cy, daa_cy, addA_cy, subA_cy, andA_cy, xorA_cy, orA_cy, cpA_cy, setAF_cy, spAdd_cy, bitT_cy, rl_cy, rr_cy, sla_cy, sra_cy, srl_cy, swap_cy]
  all_goals first | rfl | exact cb_cy _

theorem execHiF_cost (op : Nat) (s : CPU) : 4 ≤ (execHiF op s).1 ∧ (execHiF op s).1 ≤ 24 := by
  unfold execHiF
  by_cases ha0 : op = 0xF0
  · rw [if_pos ha0]
    try simp only []
    repeat' split
    all_goals try dsimp only
    all_goals first | decide | (split <;> decide) | exact cb_cost _
  rw [if_neg ha0]
  by_cases ha1 : op = 0xF1
  · rw [if_pos ha1]
    try simp only []
    repeat' split
    all_goals try dsimp only
    all_goals first | decide | (split <;> decide) | exact cb_cost _
  rw [if_neg ha1]
  by_cases ha2 : op = 0xF2
  · rw [if_pos ha2]
    try simp only []
    repeat' split
    all_goals try dsimp only
    all_goals first | decide | (split <;> decide) | exact cb_cost _
  rw [if_neg ha2]
  by_cases ha3 : op = 0xF3
  · rw [if_pos ha3]
    try simp only []
    repeat' split
    all_goals try dsimp only
    all_goals first | decide | (split <;> decide) | exact cb_cost _
  rw [if_neg ha3]
  by_cases ha4 : op = 0xF5
  · rw [if_pos ha4]
    try simp only []
    repeat' split
    all_goals try dsimp only
    all_goals first | decide | (split <;> decide) | exact cb_cost _
  rw [if_neg ha4]
  by_cases ha5 : op = 0xF6
  · rw [if_pos ha5]
    try simp only []
    repeat' split
    all_goals try dsimp only
    all_goals first | decide | (split <;> decide) | exact cb_cost _
  rw [if_neg ha5]
  by_cases ha6 : op = 0xF7
  · rw [if_pos ha6]
    try simp only []
    repeat' split
    all_goals try dsimp only
    all_goals first | decide | (split <;> decide) | exact cb_cost _
  rw [if_neg ha6]
  by_cases ha7 : op = 0xF8
  · rw [if_pos ha7]
    try simp only []
    repeat' split
    all_goals try dsimp only
    all_goals first | decide | (split <;> decide) | exact cb_cost _
  rw [if_neg ha7]
  by_cases ha8 : op = 0xF9
  · rw [if_pos ha8]
    try simp only []
    repeat' split
    all_goals try dsimp only
    all_goals first | decide | (split <;> decide) | exact cb_cost _
  rw [if_neg ha8]
  by_cases ha9 : op = 0xFA
  · rw [if_pos ha9]
    try simp only []
    repeat' split
    all_goals try dsimp only
    all_goals first | decide | (split <;> decide) | exact cb_cost _
  rw [if_neg ha9]
  by_cases ha10 : op = 0xFB
  · rw [if_pos ha10]
    try simp only []
    repeat' split
    all_goals try dsimp only
    all_goals first | decide | (split <;> decide) | exact cb_cost _
  rw [if_neg ha10]
  by_cases ha11 : op = 0xFE
  · rw [if_pos ha11]
    try simp only []
    repeat' split
    all_goals try dsimp only
    all_goals first | decide | (split <;> decide) | exact cb_cost _
  rw [if_neg ha11]
  by_cases ha12 : op = 0xFF
  · rw [if_pos ha12]
    try simp only []
    repeat' split
    all_goals try dsimp only
    all_goals first | decide | (split <;> decide) | exact cb_cost _
  rw [if_neg ha12]
  try simp only []
  repeat' split
  all_goals try dsimp only
  all_goals first | decide | (split <;> decide) | exact cb_cost _

theorem execLd_f (op : Nat) (s : CPU) (h : s.f % 16 = 0) : (execLd op s).2.f % 16 = 0 := by
  unfold execLd
  try simp only []
  repeat' split
  all_goals try dsimp only
  all_goals try simp only [jr_f, fetch_f, fetch16_f, setBC_f, setDE_f, setHL_f, w8_f, push_f, pop_f, call_f, ret_f]
  all_goals exact h

theorem execLd_cy (op : Nat) (s : CPU) : (execLd op s).2.cycles = s.cycles := by
  unfold execLd
  try simp only []
  repeat' split
  all_goals try dsimp only
  all_goals try simp only [jr_cy, fetch_cy, fetch16_cy, setBC_cy, setDE_cy, setHL_cy, w8_cy, push_cy, pop_cy, call_cy, ret_cy, addHL_cy, inc8_cy, dec8_cy, daa_cy, addA_cy, subA_cy, andA_cy, xorA_cy, orA_cy, cpA_cy, setAF_cy, spAdd_cy, bitT_cy, rl_cy, rr_cy, sla_cy, sra_cy, srl_cy, swap_cy]
  all_goals rfl

theorem execLd_cost (op : Nat) (s : CPU) : 4 ≤ (execLd op s).1 ∧ (execLd op s).1 ≤ 24 := by
  unfold execLd
  try simp only []
  repeat' split
  all_goals try dsimp only
  all_goals first | decide | (split <;> decide)

theorem execAlu_f (op : Nat) (s : CPU) (h : s.f % 16 = 0) : (execAlu op s).2.f % 16 = 0 := by
  unfold execAlu
  by_cases ha0 : op ≤ 0x87
  · rw [if_pos ha0]
    dsimp only
    exact addA_f _ _ _
  rw [if_neg ha0]
  by_cases ha1 : op ≤ 0x8F
  · rw [if_pos ha1]
    dsimp only
    exact addA_f _ _ _
  rw [if_neg ha1]
  by_cases ha2 : op ≤ 0x97
  · rw [if_pos ha2]
    dsimp only
    exact subA_f _ _ _
  rw [if_neg ha2]
  by_cases ha3 : op ≤ 0x9F
  · rw [if_pos ha3]
    dsimp only
    exact subA_f _ _ _
  rw [if_neg ha3]
  by_cases ha4 : op ≤ 0xA7
  · rw [if_pos ha4]
    dsimp only
    exact andA_f _ _
  rw [if_neg ha4]
  by_cases ha5 : op ≤ 0xAF
  · rw [if_pos ha5]
    dsimp only
    exact xorA_f _ _
  rw [if_neg ha5]
  by_cases ha6 : op ≤ 0xB7
  · rw [if_pos ha6]
    dsimp only
    exact orA_f _ _
  rw [if_neg ha6]
  dsimp only
  exact cpA_f _ _

theorem execAlu_cy (op : Nat) (s : CPU) : (execAlu op s).2.cycles = s.cycles := by
  unfold execAlu
  repeat' split
  all_goals try dsimp only
  all_goals try simp only [addA_cy, subA_cy, andA_cy, xorA_cy, orA_cy, cpA_cy]
  all_goals rfl

theorem execAlu_cost (op : Nat) (s : CPU) : 4 ≤ (execAlu op s).1 ∧ (execAlu op s).1 ≤ 24 := by
  unfold execAlu
  repeat' split
  all_goals try dsimp only
  all_goals first | decide | (split <;> decide)

theorem exec0_f (op : Nat) (s : CPU) (h : s.f % 16 = 0) : (exec0 op s).2.f % 16 = 0 := by
  unfold exec0
  repeat' split
  all_goals first
    | exact exec00_f op s h
    | exact exec01_f op s h
    | exact exec02_f op s h
    | exact exec03_f op s h
    | exact h

theorem exec0_cy (op : Nat) (s : CPU) : (exec0 op s).2.cycles = s.cycles := by
  unfold exec0
  repeat' split
  all_goals first
    | exact exec00_cy op s
    | exact exec01_cy op s
    | exact exec02_cy op s
    | exact exec03_cy op s
    | rfl

theorem exec0_cost (op : Nat) (s : CPU) : 4 ≤ (exec0 op s).1 ∧ (exec0 op s).1 ≤ 24 := by
  unfold exec0
  try simp only []
  repeat' split
  all_goals try dsimp only
  all_goals first
    | exact exec00_cost op s
    | exact exec01_cost op s
    | exact exec02_cost op s
    | exact exec03_cost op s
    | decide

theorem execHi_f (op : Nat) (s : CPU) (h : s.f % 16 = 0) : (execHi op s).2.f % 16 = 0 := by
  unfold execHi
  repeat' split
  all_goals first
    | exact execHiC_f op s h
    | exact execHiD_f op s h
    | exact execHiE_f op s h
    | exact execHiF_f op s h
    | exact h

theorem execHi_cy (op : Nat) (s : CPU) : (execHi op s).2.cycles = s.cycles := by
  unfold execHi
  repeat' split
  all_goals first
    | exact execHiC_cy op s
    | exact execHiD_cy op s
    | exact execHiE_cy op s
    | exact execHiF_cy op s
    | rfl

theorem execHi_cost (op : Nat) (s : CPU) : 4 ≤ (execHi op s).1 ∧ (execHi op s).1 ≤ 24 := by
  unfold execHi
  try simp only []
  repeat' split
  all_goals try dsimp only
  all_goals first
    | exact execHiC_cost op s
    | exact execHiD_cost op s
    | exact execHiE_cost op s
    | exact execHiF_cost op s
    | decide

theorem execOp_f (op : Nat) (s : CPU) (h : s.f % 16 = 0) : (execOp op s).2.f % 16 = 0 := by
  unfold execOp
  repeat' split
  all_goals first
    | exact exec0_f op s h
    | exact execLd_f op s h
    | exact execAlu_f op s h
    | exact execHi_f op s h

theorem execOp_cy (op : Nat) (s : CPU) : (execOp op s).2.cycles = s.cycles := by
  unfold execOp
  repeat' split
  all_goals first
    | exact exec0_cy op s
    | exact execLd_cy op s
    | exact execAlu_cy op s
    | exact execHi_cy op s

theorem execOp_cost (op : Nat) (s : CPU) : 4 ≤ (execOp op s).1 ∧ (execOp op s).1 ≤ 24 := by
  unfold execOp
  repeat' split
  all_goals first
    | exact exec0_cost op s
    | exact execLd_cost op s
    | exact execAlu_cost op s
    | exact execHi_cost op s


-- Interrupt-service and step-level invariants

theorem dispatchTo_f (s : CPU) (b v : Nat) : (dispatchTo s b v).f = s.f := by
  unfold dispatchTo
  try simp only []
  try dsimp only
  rw [push_f]

theorem dispatchTo_cy (s : CPU) (b v : Nat) : (dispatchTo s b v).cycles = s.cycles + 20 := by
  unfold dispatchTo
  try simp only []
  try dsimp only
  rw [push_cy]

theorem hi_f (s : CPU) : s.handleInterrupts.f = s.f := by
  unfold CPU.handleInterrupts
  try simp only []
  repeat' split
  all_goals try rw [dispatchTo_f]
  all_goals rfl

theorem hi_cy_lb (s : CPU) : s.cycles ≤ s.handleInterrupts.cycles := by
  unfold CPU.handleInterrupts
  try simp only []
  repeat' split
  all_goals try rw [dispatchTo_cy]
  all_goals try dsimp only
  all_goals omega

theorem hi_cy_ub (s : CPU) : s.handleInterrupts.cycles ≤ s.cycles + 20 := by
  unfold CPU.handleInterrupts
  try simp only []
  repeat' split
  all_goals try rw [dispatchTo_cy]
  all_goals try dsimp only
  all_goals omega

theorem imeAdj_spec (s : CPU) :
    ∃ t : CPU,
      (if 0 < s.imePending then
          (let p := s.imePending - 1
           if p = 0 then { s with imePending := p, ime := true } else { s with imePending := p })
        else s) = t ∧
      t.cycles = s.cycles ∧ t.f = s.f ∧ t.halted = s.halted := by
  refine ⟨_, rfl, ?_, ?_, ?_⟩
  all_goals try simp only []
  all_goals repeat' split
  all_goals rfl

theorem step_f (s : CPU) (h : s.f % 16 = 0) : s.step.f % 16 = 0 := by
  obtain ⟨t, ht, hcy, hf, hh⟩ := imeAdj_spec s
  unfold CPU.step
  rw [ht]
  try simp only []
  split
  · dsimp only
    rw [hi_f, hf]
    exact h
  · dsimp only
    refine execOp_f _ _ ?_
    rw [fetch_f, hi_f, hf]
    exact h

theorem step_cy_lb (s : CPU) : s.cycles + 4 ≤ s.step.cycles := by
  obtain ⟨t, ht, hcy, hf, hh⟩ := imeAdj_spec s
  unfold CPU.step
  rw [ht]
  try simp only []
  split
  · dsimp only
    have h1 := hi_cy_lb t
    omega
  · dsimp only
    rw [execOp_cy, fetch_cy]
    have h1 := hi_cy_lb t
    have h2 := execOp_cost t.handleInterrupts.fetch.1 t.handleInterrupts.fetch.2
    omega

theorem step_cy_ub (s : CPU) : s.step.cycles ≤ s.cycles + 44 := by
  obtain ⟨t, ht, hcy, hf, hh⟩ := imeAdj_spec s
  unfold CPU.step
  rw [ht]
  try simp only []
  split
  · dsimp only
    have h1 := hi_cy_ub t
    omega
  · dsimp only
    rw [execOp_cy, fetch_cy]
    have h1 := hi_cy_ub t
    have h2 := execOp_cost t.handleInterrupts.fetch.1 t.handleInterrupts.fetch.2
    omega

theorem frameIter_lb (g : GameBoy) : g.totalCyc + 4 ≤ (frameIter g).totalCyc := by
  unfold frameIter
  try simp only []
  try dsimp only
  have h1 := step_cy_lb g.cpu
  omega

theorem frameIter_ub (g : GameBoy) : (frameIter g).totalCyc ≤ g.totalCyc + 44 := by
  unfold frameIter
  try simp only []
  try dsimp only
  have h1 := step_cy_lb g.cpu
  have h2 := step_cy_ub g.cpu
  omega

theorem frameLoop_lb (f : Nat) :
    ∀ (t : Nat) (g : GameBoy), t ≤ g.totalCyc + 4 * f → t ≤ (frameLoop t f g).totalCyc := by
  induction f with
  | zero =>
    intro t g h
    simpa [frameLoop] using h
  | succ n ih =>
    intro t g h
    by_cases hlt : g.totalCyc < t
    · simp only [frameLoop, if_pos hlt]
      exact ih t (frameIter g) (by have := frameIter_lb g; omega)
    · simp only [frameLoop, if_neg hlt]
      omega

theorem frameLoop_ub (f : Nat) :
    ∀ (t : Nat) (g : GameBoy), g.totalCyc < t + 44 → (frameLoop t f g).totalCyc < t + 44 := by
  induction f with
  | zero =>
    intro t g h
    simpa [frameLoop] using h
  | succ n ih =>
    intro t g h
    by_cases hlt : g.totalCyc < t
    · simp only [frameLoop, if_pos hlt]
      exact ih t (frameIter g) (by have := frameIter_ub g; omega)
    · simp only [frameLoop, if_neg hlt]
      exact h

theorem frameLoop_fuel (f : Nat) :
    ∀ (k t : Nat) (g : GameBoy), t ≤ g.totalCyc + 4 * f →
      frameLoop t (f + k) g = frameLoop t f g := by
  induction f with
  | zero =>
    intro k t g h
    rw [Nat.zero_add, frameLoop_stop t k g (by omega), frameLoop_stop t 0 g (by omega)]
  | succ n ih =>
    intro k t g h
    by_cases hlt : g.totalCyc < t
    · rw [show n + 1 + k = (n + k) + 1 from by omega]
      simp only [frameLoop, if_pos hlt]
      exact ih k t (frameIter g) (by have := frameIter_lb g; omega)
    · rw [frameLoop_stop t (n + 1 + k) g hlt, frameLoop_stop t (n + 1) g hlt]


-- ── Claim C5 ─────────────────────────────────────────────────────────

/-- C5 (counterexample): with the direction group selected and only Right
held, the joypad register reads 0xCE — bit 5 reads 0 as well, because the
read starts from the base value 0xCF — not 0xEE as claimed. -/
theorem c5_counterexample : Joypad.read joyC5 = 0xCE ∧ Joypad.read joyC5 ≠ 0xEE := by decide

/-- C5 (amended): with `sel_dir` selected, `sel_btn` not selected, and only
Right held among the directions, reading $FF00 returns 0xCE: bits 4 and 5
both read 0 (the register's base value is 0xCF), bit 0 is cleared for
Right, bits 1–3 stay set; the action buttons are irrelevant. -/
theorem c5_amended (j : Joypad) (hd : j.selDir = true) (hb : j.selBtn = false)
    (hr : j.right = true) (hl : j.left = false) (hu : j.up = false) (hdn : j.down = false) :
    Joypad.read j = 0xCE := by
  simp [Joypad.read, hd, hb, hr, hl, hu, hdn, andNot]
  decide

/-- C5 witness. -/
theorem c5_witness : Joypad.read joyC5 = 0xCE :=
  c5_amended joyC5 rfl rfl rfl rfl rfl rfl

-- ── Claim C3 (counterexample) ────────────────────────────────────────

/-- C3 (counterexample): a single 16-cycle step from DIV=0 with TAC=0x05
crosses exactly one falling edge of DIV bit 3 (at DIV=16), but TIMA stays
0: `Timer.step` only compares the tapped bit at the step's endpoints, and
bit 3 is 0 both at DIV=0 and at DIV=16. -/
theorem c3_counterexample :
    (Timer.step tC3 16).2.tima = 0 ∧ fallingEdgeCount 3 tC3.div 16 = 1 ∧
    (Timer.step tC3 16).2.tima ≠ tC3.tima + fallingEdgeCount 3 tC3.div 16 := by decide


theorem timer_noinc (ti tm : Nat) (od : Int) (dv : Nat) (hlt : dv + 4 < 65536)
    (hc : ¬((dv / 8) % 2 ≠ 0 ∧ ((dv + 4) / 8) % 2 = 0)) :
    Timer.step ⟨dv, ti, tm, 5, false, od⟩ 4 = (false, ⟨dv + 4, ti, tm, 5, false, od⟩) := by
  unfold Timer.step
  dsimp only
  rw [Nat.mod_eq_of_lt hlt]
  rw [if_neg (show ¬ false = true from Bool.false_ne_true)]
  rw [if_pos (show (5:Nat) &&& 4 ≠ 0 from by decide)]
  rw [show Timer.BITS (5 % 4) = 3 from rfl]
  rw [show (2:Nat) ^ 3 = 8 from rfl]
  rw [if_neg hc]

theorem timer_inc (ti tm : Nat) (od : Int) (dv : Nat) (hlt : dv + 4 < 65536)
    (hc : (dv / 8) % 2 ≠ 0 ∧ ((dv + 4) / 8) % 2 = 0) :
    (Timer.step ⟨dv, ti, tm, 5, false, od⟩ 4).2.tima = (ti + 1) % 256 ∧
    (Timer.step ⟨dv, ti, tm, 5, false, od⟩ 4).2.div = dv + 4 := by
  unfold Timer.step
  dsimp only
  rw [Nat.mod_eq_of_lt hlt]
  rw [if_neg (show ¬ false = true from Bool.false_ne_true)]
  rw [if_pos (show (5:Nat) &&& 4 ≠ 0 from by decide)]
  rw [show Timer.BITS (5 % 4) = 3 from rfl]
  rw [show (2:Nat) ^ 3 = 8 from rfl]
  rw [if_pos hc]
  by_cases hz : (ti + 1) % 256 = 0
  · rw [if_pos hz]
    exact ⟨rfl, rfl⟩
  · rw [if_neg hz]
    exact ⟨rfl, rfl⟩

/-- C3 (amended): `Timer.step` increments TIMA when the tapped DIV bit is
1 at the start of the step and 0 at the end (an endpoint comparison, which
can miss edges spanned inside one large step); in particular, with
TAC=0x05 (bit-3 tap) and 4-cycle steps, 16 elapsed T-cycles from a
16-aligned DIV produce exactly one TIMA increment. -/
theorem c3_amended (t : Timer) (h5 : t.tac = 5) (hof : t.of = false)
    (hd16 : t.div % 16 = 0) (hdm : t.div + 16 < 65536) :
    ((Timer.step (Timer.step (Timer.step (Timer.step t 4).2 4).2 4).2 4).2).tima
        = (t.tima + 1) % 256 ∧
    ((Timer.step (Timer.step (Timer.step (Timer.step t 4).2 4).2 4).2 4).2).div
        = t.div + 16 := by
  obtain ⟨d, ti, tm, tc, o, od⟩ := t
  dsimp only at h5 hof hd16 hdm ⊢
  subst h5
  subst hof
  rw [timer_noinc ti tm od d (by omega) (by omega)]
  dsimp only
  rw [timer_noinc ti tm od (d + 4) (by omega) (by omega)]
  dsimp only
  rw [show d + 4 + 4 = d + 8 from by omega]
  rw [timer_noinc ti tm od (d + 8) (by omega) (by omega)]
  dsimp only
  rw [show d + 8 + 4 = d + 12 from by omega]
  have h := timer_inc ti tm od (d + 12) (by omega) (by omega)
  rw [show d + 12 + 4 = d + 16 from by omega] at h
  exact ⟨h.1, h.2⟩

/-- C3 witness: TAC=0x05, DIV=0, TIMA=5; four 4-cycle steps give TIMA=6
and DIV=16. -/
theorem c3_witness :
    (let t0 : Timer := ⟨0, 5, 0, 5, false, 0⟩
     ((Timer.step (Timer.step (Timer.step (Timer.step t0 4).2 4).2 4).2 4).2).tima = 6 ∧
     ((Timer.step (Timer.step (Timer.step (Timer.step t0 4).2 4).2 4).2 4).2).div = 16) := by
  have h := c3_amended ⟨0, 5, 0, 5, false, 0⟩ rfl rfl (by decide) (by decide)
  exact ⟨by rw [h.1]; decide, by rw [h.2]⟩

-- ── Claim C1 ─────────────────────────────────────────────────────────

/-- C1 (code bug): the CB dispatcher routes RLC and RRC through the
through-carry rotate (`thru=True`).  With B=0x80 and carry clear, CB 00
(RLC B) yields B=0x00 and F=0x90 (Z and C set) where the specified
non-carry rotate yields 0x01; with B=0x01, CB 08 (RRC B) yields 0x00
instead of 0x80. -/
theorem c1_bug :
    ((CPU.step sRLC).b = 0x00 ∧ (CPU.step sRLC).f = 0x90) ∧
    rlcSpec 0x80 = (0x01, true) ∧ (CPU.step sRLC).b ≠ (rlcSpec 0x80).1 ∧
    ((CPU.step sRRC).b = 0x00 ∧ (CPU.step sRRC).f = 0x90) ∧
    rrcSpec 0x01 = (0x80, true) ∧ (CPU.step sRRC).b ≠ (rrcSpec 0x01).1 := by decide

-- ── Claim C2 ─────────────────────────────────────────────────────────

/-- C2 (code bug): in signed tile mode (LCDC bit 4 clear) the renderer
fetches tile bytes at VRAM offset `0x0800 + signed(ti)*16 + row*2` — a
base of $8800 — instead of the specified `0x1000 + signed(ti)*16 + row*2`
(base $9000); running the pixel-loop body on pixel 0 with tile bytes
planted at offset 0x0800 colors that pixel with shade 3 (8,24,32), proving
the fetch address.  Unsigned mode (LCDC bit 4 set) agrees with the claim. -/
theorem c2_bug :
    bgTileAddr 0x81 0 0 = 0x0800 ∧ bgTileAddrSpec 0x81 0 0 = 0x1000 ∧
    bgTileAddr 0x81 0 0 ≠ bgTileAddrSpec 0x81 0 0 ∧
    bgTileAddr 0x91 7 3 = bgTileAddrSpec 0x91 7 3 ∧
    (bgBody false 0x1800 0 (pC2, fun _ => 0) 0).1.pixels 0 = 8 ∧
    (bgBody false 0x1800 0 (pC2, fun _ => 0) 0).1.pixels 1 = 24 ∧
    (bgBody false 0x1800 0 (pC2, fun _ => 0) 0).1.pixels 2 = 32 := by decide

-- ── Claim C6 ─────────────────────────────────────────────────────────

theorem ite_winLine {c : Prop} [Decidable c] {x y : PPU} {w : Nat}
    (hx : x.winLine = w) (hy : y.winLine = w) : (if c then x else y).winLine = w := by
  split <;> assumption

theorem ite_pair_winLine {c : Prop} [Decidable c] {x y : PPU × (Nat → Nat)} {w : Nat}
    (hx : x.1.winLine = w) (hy : y.1.winLine = w) : (if c then x else y).1.winLine = w := by
  split <;> assumption

theorem bgBody_winLine (w : Bool) (tm b : Nat) (acc : PPU × (Nat → Nat)) (px : Nat) :
    (bgBody w tm b acc px).1.winLine = acc.1.winLine := by
  unfold bgBody
  dsimp only
  apply ite_pair_winLine
  · exact ite_winLine rfl rfl
  · exact ite_winLine rfl rfl

theorem foldl_bg_winLine (w : Bool) (tm b : Nat) (l : List Nat) (acc : PPU × (Nat → Nat)) :
    (l.foldl (bgBody w tm b) acc).1.winLine = acc.1.winLine := by
  induction l generalizing acc with
  | nil => rfl
  | cons x xs ih => rw [List.foldl_cons, ih, bgBody_winLine]

theorem foldl_winLine {α : Type} (f : PPU → α → PPU) (hf : ∀ p x, (f p x).winLine = p.winLine)
    (l : List α) (p : PPU) : (l.foldl f p).winLine = p.winLine := by
  induction l generalizing p with
  | nil => rfl
  | cons x xs ih => rw [List.foldl_cons, ih, hf]

theorem sprBody_winLine (bg : Nat → Nat) (p : PPU) (spr : Int × Int × Nat × Nat) :
    (sprBody bg p spr).winLine = p.winLine := by
  unfold sprBody
  dsimp only
  apply ite_winLine rfl
  exact foldl_winLine _
    (fun p px => by repeat' (first | rfl | apply ite_winLine)) _ _

theorem renderSprites_winLine (p : PPU) (bg : Nat → Nat) :
    (renderSprites p bg).winLine = p.winLine := by
  unfold renderSprites
  exact ite_winLine (foldl_winLine _ (sprBody_winLine bg) _ _) rfl

theorem renderBG_winLine (p : PPU) :
    (renderBG p).1.winLine =
      (if p.lcdc &&& 1 ≠ 0 ∧ p.lcdc &&& 0x20 ≠ 0 ∧ p.wy ≤ p.ly
       then p.winLine + 1 else p.winLine) := by
  unfold renderBG
  by_cases h1 : p.lcdc &&& 1 ≠ 0
  · rw [if_pos h1]
    by_cases h2 : p.lcdc &&& 0x20 ≠ 0 ∧ p.wy ≤ p.ly
    · have hw : ((p.lcdc &&& 0x20 != 0) && decide (p.wy ≤ p.ly)) = true := by
        simp only [Bool.and_eq_true, decide_eq_true_eq, bne_iff_ne]
        exact h2
      dsimp only
      rw [hw]
      rw [if_pos rfl]
      dsimp only
      rw [foldl_bg_winLine, if_pos ⟨h1, h2⟩]
    · have hw : ((p.lcdc &&& 0x20 != 0) && decide (p.wy ≤ p.ly)) = false := by
        rw [← Bool.not_eq_true]
        simp only [Bool.and_eq_true, decide_eq_true_eq, bne_iff_ne]
        exact h2
      dsimp only
      rw [hw]
      rw [if_neg (by simp)]
      rw [foldl_bg_winLine, if_neg (by tauto)]
  · rw [if_neg h1]
    dsimp only
    rw [if_neg (by tauto)]

theorem renderLine_winLine (p : PPU) :
    (renderLine p).winLine =
      (if p.ly < 144 ∧ p.lcdc &&& 1 ≠ 0 ∧ p.lcdc &&& 0x20 ≠ 0 ∧ p.wy ≤ p.ly
       then p.winLine + 1 else p.winLine) := by
  unfold renderLine
  by_cases h : 144 ≤ p.ly
  · rw [if_pos h, if_neg (by omega)]
  · rw [if_neg h]
    dsimp only
    rw [renderSprites_winLine, renderBG_winLine]
    by_cases h2 : p.lcdc &&& 1 ≠ 0 ∧ p.lcdc &&& 0x20 ≠ 0 ∧ p.wy ≤ p.ly
    · rw [if_pos h2, if_pos ⟨by omega, h2⟩]
    · rw [if_neg h2, if_neg (by tauto)]

/-- C6 (counterexample): with background and window enabled (LCDC bits 0
and 5), LY ≥ WY but WX=200, no pixel x in 0..159 satisfies x ≥ WX−7 — no
window pixel is emitted on the line — yet `win_line` is incremented. -/
theorem c6_counterexample :
    (renderLine pC6).winLine = pC6.winLine + 1 ∧
    (List.range 160).filter (fun px => decide ((pC6.wx : Int) - 7 ≤ (px : Int))) = [] := by
  constructor
  · rw [renderLine_winLine]
    decide
  · decide

/-- C6 (amended): `win_line` is incremented at the end of a rendered line
iff the background is enabled (LCDC bit 0), the window is enabled (LCDC
bit 5), and LY ≥ WY — regardless of whether any window pixel was actually
emitted (WX plays no part in the increment). -/
theorem c6_amended (p : PPU) :
    (renderLine p).winLine =
      (if p.ly < 144 ∧ p.lcdc &&& 1 ≠ 0 ∧ p.lcdc &&& 0x20 ≠ 0 ∧ p.wy ≤ p.ly
       then p.winLine + 1 else p.winLine) :=
  renderLine_winLine p

-- ── Claim C7 ─────────────────────────────────────────────────────────

theorem rb_wram (m : MMU) (a : Nat) (h1 : 0xC000 ≤ a) (h2 : a < 0xE000) :
    MMU.rb m a = m.wram (a - 0xC000) := by
  unfold MMU.rb
  dsimp only
  rw [Nat.mod_eq_of_lt (by omega)]
  rw [if_neg (by omega), if_neg (by omega), if_neg (by omega), if_pos (by omega)]

theorem wb_wram (m : MMU) (a v : Nat) (h1 : 0xC000 ≤ a) (h2 : a < 0xE000) :
    MMU.wb m a v = { m with wram := upd m.wram (a - 0xC000) (v % 256) } := by
  unfold MMU.wb
  dsimp only
  rw [Nat.mod_eq_of_lt (by omega)]
  rw [if_neg (by omega), if_neg (by omega), if_neg (by omega), if_pos (by omega)]

theorem push_wram (s : CPU) (v : Nat) (h1 : 0xC002 ≤ s.sp) (h2 : s.sp ≤ 0xDFFF) :
    s.push v =
      { s with sp := s.sp - 2,
               mmu := { s.mmu with
                 wram := upd (upd s.mmu.wram (s.sp - 2 - 0xC000) (v % 256 % 256))
                   (s.sp - 1 - 0xC000) ((v >>> 8) % 256 % 256) } } := by
  unfold CPU.push MMU.ww
  dsimp only
  rw [show (s.sp + 65534) % 65536 = s.sp - 2 from by omega]
  rw [show (s.sp - 2 + 1) % 65536 = s.sp - 1 from by omega]
  rw [wb_wram _ _ _ (by omega) (by omega)]
  rw [wb_wram _ _ _ (by omega) (by omega)]

theorem dispatchTo_spec (s : CPU) (bit vec : Nat) (h1 : 0xC002 ≤ s.sp) (h2 : s.sp ≤ 0xDFFF) :
    (dispatchTo s bit vec).pc = vec ∧
    (dispatchTo s bit vec).cycles = s.cycles + 20 ∧
    (dispatchTo s bit vec).sp = s.sp - 2 ∧
    (dispatchTo s bit vec).ime = s.ime ∧
    (dispatchTo s bit vec).mmu.IF = andNot s.mmu.IF (1 <<< bit) ∧
    (dispatchTo s bit vec).mmu.rb (s.sp - 2) = s.pc % 256 ∧
    (dispatchTo s bit vec).mmu.rb (s.sp - 1) = s.pc / 256 % 256 := by
  unfold dispatchTo
  dsimp only
  rw [push_wram _ _ (by dsimp only; omega) (by dsimp only; omega)]
  dsimp only
  refine ⟨rfl, rfl, rfl, rfl, rfl, ?_, ?_⟩
  · rw [rb_wram _ _ (by omega) (by omega)]
    dsimp only
    unfold upd
    rw [if_neg (by omega), if_pos rfl]
    rw [Nat.mod_mod_of_dvd _ (dvd_refl 256)]
  · rw [rb_wram _ _ (by omega) (by omega)]
    dsimp only
    unfold upd
    rw [if_pos rfl]
    rw [Nat.shiftRight_eq_div_pow]
    rw [Nat.mod_mod_of_dvd _ (dvd_refl 256)]
    try norm_num

theorem hiBits (sO s2 : CPU) (hsp : s2.sp = sO.sp) (hpc : s2.pc = sO.pc)
    (hcy : s2.cycles = sO.cycles) (hm : s2.mmu = sO.mmu) (hi : s2.ime = false)
    (h1 : 0xC002 ≤ sO.sp) (h2 : sO.sp ≤ 0xDFFF) (y : Nat) (hy : y ≠ 0) (hylt : y < 32) :
    (if y &&& 1 ≠ 0 then dispatchTo s2 0 0x40
     else if y &&& 2 ≠ 0 then dispatchTo s2 1 0x48
     else if y &&& 4 ≠ 0 then dispatchTo s2 2 0x50
     else if y &&& 8 ≠ 0 then dispatchTo s2 3 0x58
     else if y &&& 16 ≠ 0 then dispatchTo s2 4 0x60
     else s2).ime = false ∧
    (if y &&& 1 ≠ 0 then dispatchTo s2 0 0x40
     else if y &&& 2 ≠ 0 then dispatchTo s2 1 0x48
     else if y &&& 4 ≠ 0 then dispatchTo s2 2 0x50
     else if y &&& 8 ≠ 0 then dispatchTo s2 3 0x58
     else if y &&& 16 ≠ 0 then dispatchTo s2 4 0x60
     else s2).pc = 0x40 + 8 * lowBit y ∧
    (if y &&& 1 ≠ 0 then dispatchTo s2 0 0x40
     else if y &&& 2 ≠ 0 then dispatchTo s2 1 0x48
     else if y &&& 4 ≠ 0 then dispatchTo s2 2 0x50
     else if y &&& 8 ≠ 0 then dispatchTo s2 3 0x58
     else if y &&& 16 ≠ 0 then dispatchTo s2 4 0x60
     else s2).mmu.IF = andNot sO.mmu.IF (1 <<< lowBit y) ∧
    (if y &&& 1 ≠ 0 then dispatchTo s2 0 0x40
     else if y &&& 2 ≠ 0 then dispatchTo s2 1 0x48
     else if y &&& 4 ≠ 0 then dispatchTo s2 2 0x50
     else if y &&& 8 ≠ 0 then dispatchTo s2 3 0x58
     else if y &&& 16 ≠ 0 then dispatchTo s2 4 0x60
     else s2).cycles = sO.cycles + 20 ∧
    (if y &&& 1 ≠ 0 then dispatchTo s2 0 0x40
     else if y &&& 2 ≠ 0 then dispatchTo s2 1 0x48
     else if y &&& 4 ≠ 0 then dispatchTo s2 2 0x50
     else if y &&& 8 ≠ 0 then dispatchTo s2 3 0x58
     else if y &&& 16 ≠ 0 then dispatchTo s2 4 0x60
     else s2).sp = sO.sp - 2 ∧
    (if y &&& 1 ≠ 0 then dispatchTo s2 0 0x40
     else if y &&& 2 ≠ 0 then dispatchTo s2 1 0x48
     else if y &&& 4 ≠ 0 then dispatchTo s2 2 0x50
     else if y &&& 8 ≠ 0 then dispatchTo s2 3 0x58
     else if y &&& 16 ≠ 0 then dispatchTo s2 4 0x60
     else s2).mmu.rb (sO.sp - 2) = sO.pc % 256 ∧
    (if y &&& 1 ≠ 0 then dispatchTo s2 0 0x40
     else if y &&& 2 ≠ 0 then dispatchTo s2 1 0x48
     else if y &&& 4 ≠ 0 then dispatchTo s2 2 0x50
     else if y &&& 8 ≠ 0 then dispatchTo s2 3 0x58
     else if y &&& 16 ≠ 0 then dispatchTo s2 4 0x60
     else s2).mmu.rb (sO.sp - 1) = sO.pc / 256 % 256 := by
  have hd : ∀ b v : Nat,
      (dispatchTo s2 b v).ime = false ∧ (dispatchTo s2 b v).pc = v ∧
      (dispatchTo s2 b v).mmu.IF = andNot sO.mmu.IF (1 <<< b) ∧
      (dispatchTo s2 b v).cycles = sO.cycles + 20 ∧
      (dispatchTo s2 b v).sp = sO.sp - 2 ∧
      (dispatchTo s2 b v).mmu.rb (sO.sp - 2) = sO.pc % 256 ∧
      (dispatchTo s2 b v).mmu.rb (sO.sp - 1) = sO.pc / 256 % 256 := by
    intro b v
    have h := dispatchTo_spec s2 b v (by omega) (by omega)
    rw [hsp, hpc, hcy, hm, hi] at h
    exact ⟨h.2.2.2.1, h.1, h.2.2.2.2.1, h.2.1, h.2.2.1, h.2.2.2.2.2.1, h.2.2.2.2.2.2⟩
  by_cases hb0 : y &&& 1 ≠ 0
  · have hlb : lowBit y = 0 := by unfold lowBit; rw [if_pos hb0]
    rw [if_pos hb0, hlb]
    have h := hd 0 0x40
    exact ⟨h.1, by rw [h.2.1], h.2.2.1, h.2.2.2.1, h.2.2.2.2.1, h.2.2.2.2.2.1, h.2.2.2.2.2.2⟩
  · rw [if_neg hb0]
    by_cases hb1 : y &&& 2 ≠ 0
    · have hlb : lowBit y = 1 := by unfold lowBit; rw [if_neg hb0, if_pos hb1]
      rw [if_pos hb1, hlb]
      have h := hd 1 0x48
      exact ⟨h.1, by rw [h.2.1], h.2.2.1, h.2.2.2.1, h.2.2.2.2.1, h.2.2.2.2.2.1, h.2.2.2.2.2.2⟩
    · rw [if_neg hb1]
      by_cases hb2 : y &&& 4 ≠ 0
      · have hlb : lowBit y = 2 := by unfold lowBit; rw [if_neg hb0, if_neg hb1, if_pos hb2]
        rw [if_pos hb2, hlb]
        have h := hd 2 0x50
        exact ⟨h.1, by rw [h.2.1], h.2.2.1, h.2.2.2.1, h.2.2.2.2.1, h.2.2.2.2.2.1,
          h.2.2.2.2.2.2⟩
      · rw [if_neg hb2]
        by_cases hb3 : y &&& 8 ≠ 0
        · have hlb : lowBit y = 3 := by
            unfold lowBit; rw [if_neg hb0, if_neg hb1, if_neg hb2, if_pos hb3]
          rw [if_pos hb3, hlb]
          have h := hd 3 0x58
          exact ⟨h.1, by rw [h.2.1], h.2.2.1, h.2.2.2.1, h.2.2.2.2.1, h.2.2.2.2.2.1,
            h.2.2.2.2.2.2⟩
        · rw [if_neg hb3]
          have hb4 : y &&& 16 ≠ 0 := by
            interval_cases y <;> simp_all
          have hlb : lowBit y = 4 := by
            unfold lowBit; rw [if_neg hb0, if_neg hb1, if_neg hb2, if_neg hb3]
          rw [if_pos hb4, hlb]
          have h := hd 4 0x60
          exact ⟨h.1, by rw [h.2.1], h.2.2.1, h.2.2.2.1, h.2.2.2.2.1, h.2.2.2.2.2.1,
            h.2.2.2.2.2.2⟩

set_option maxRecDepth 100000 in
set_option maxHeartbeats 1000000 in
/-- C7: whenever `handle_interrupts` dispatches (some bit pending in
`IE & IF & 0x1F` and IME set), the lowest-numbered pending bit is chosen,
that bit alone is cleared in IF, IME is cleared, PC is pushed to the stack
(low byte at SP−2, high byte at SP−1, for a stack in WRAM), execution
continues at vector 0x40 + 8·bit — 0x40/0x48/0x50/0x58/0x60 for bits
0..4 — and 20 T-cycles are charged. -/
theorem c7_dispatch (s : CPU) (hime : s.ime = true)
    (hp : s.mmu.IE &&& s.mmu.IF &&& 0x1F ≠ 0)
    (h1 : 0xC002 ≤ s.sp) (h2 : s.sp ≤ 0xDFFF) :
    s.handleInterrupts.ime = false ∧
    s.handleInterrupts.pc = 0x40 + 8 * lowBit (s.mmu.IE &&& s.mmu.IF &&& 0x1F) ∧
    s.handleInterrupts.mmu.IF =
      andNot s.mmu.IF (1 <<< lowBit (s.mmu.IE &&& s.mmu.IF &&& 0x1F)) ∧
    s.handleInterrupts.cycles = s.cycles + 20 ∧
    s.handleInterrupts.sp = s.sp - 2 ∧
    s.handleInterrupts.mmu.rb (s.sp - 2) = s.pc % 256 ∧
    s.handleInterrupts.mmu.rb (s.sp - 1) = s.pc / 256 % 256 := by
  have hylt : s.mmu.IE &&& s.mmu.IF &&& 0x1F < 32 :=
    Nat.lt_of_le_of_lt Nat.and_le_right (by norm_num)
  unfold CPU.handleInterrupts
  dsimp only
  rw [if_pos hp]
  by_cases hh : s.halted
  · rw [if_pos hh]
    rw [if_pos (show ({ s with halted := false } : CPU).ime = true from hime)]
    dsimp only
    exact hiBits s { s with halted := false, ime := false }
      rfl rfl rfl rfl rfl h1 h2 _ hp hylt
  · rw [if_neg hh]
    rw [if_pos hime]
    exact hiBits s { s with ime := false } rfl rfl rfl rfl rfl h1 h2 _ hp hylt

/-- C7 witness: with IE=0x03, IF=0x03, IME=1 and SP=0xD000, the dispatch
goes to $40, IF becomes 0x02, IME clears, 20 T-cycles are charged, and SP
drops by 2. -/
theorem c7_witness :
    sC7.handleInterrupts.ime = false ∧ sC7.handleInterrupts.pc = 0x40 ∧
    sC7.handleInterrupts.mmu.IF = 0x02 ∧ sC7.handleInterrupts.cycles = 20 ∧
    sC7.handleInterrupts.sp = 0xCFFE := by
  have h := c7_dispatch sC7 rfl (by decide) (by decide) (by decide)
  refine ⟨h.1, ?_, ?_, ?_, ?_⟩
  · rw [h.2.1]; decide
  · rw [h.2.2.1]; decide
  · rw [h.2.2.2.1]; decide
  · rw [h.2.2.2.2.1]; decide

-- ── Claim C4 ─────────────────────────────────────────────────────────

/-- C4 (counterexample): halted CPU, IME=0, IE=0x01, IF=0x01, and the
instruction at PC is `LD BC,d16` (0x01).  The next step wakes, does not
dispatch — but it also fetches and executes that instruction, costing 12
T-cycles, not the claimed 4. -/
theorem c4_counterexample :
    sC4ld.halted = true ∧ sC4ld.ime = false ∧
    sC4ld.mmu.IE &&& sC4ld.mmu.IF &&& 0x1F ≠ 0 ∧
    (CPU.step sC4ld).cycles = sC4ld.cycles + 12 ∧
    (CPU.step sC4ld).cycles ≠ sC4ld.cycles + 4 := by decide

/-- C4 (amended): with the CPU halted, IME=0, no EI pending, and
`IE & IF & 0x1F ≠ 0`, the next step clears the halted flag, leaves IME
clear, performs no dispatch (SP untouched) — but instead of idling it
immediately fetches and executes the instruction at PC; when that
instruction is NOP the step costs exactly 4 T-cycles and PC advances by
one. -/
theorem execOp_nop (s : CPU) : execOp 0 s = (4, s) := by
  unfold execOp exec0 exec00
  simp

set_option maxRecDepth 100000 in
set_option maxHeartbeats 1000000 in
theorem c4_amended (s : CPU) (hh : s.halted = true) (hi : s.ime = false)
    (hip : s.imePending = 0) (hp : s.mmu.IE &&& s.mmu.IF &&& 0x1F ≠ 0)
    (hop : s.mmu.rb s.pc = 0) :
    (CPU.step s).halted = false ∧ (CPU.step s).ime = false ∧
    (CPU.step s).cycles = s.cycles + 4 ∧
    (CPU.step s).pc = (s.pc + 1) % 65536 ∧ (CPU.step s).sp = s.sp := by
  unfold CPU.step CPU.handleInterrupts
  dsimp only
  rw [hip]
  rw [if_neg (show ¬ (0:Nat) < 0 from by omega)]
  rw [if_pos hp]
  rw [if_pos hh]
  rw [if_neg (show ¬ ({ s with halted := false } : CPU).ime = true from by
    dsimp only; rw [hi]; exact Bool.false_ne_true)]
  rw [if_neg (show ¬ ({ s with halted := false } : CPU).halted = true from by
    dsimp only; exact Bool.false_ne_true)]
  unfold CPU.fetch
  dsimp only
  rw [hop]
  rw [execOp_nop]
  exact ⟨rfl, by dsimp only; exact hi, rfl, rfl, rfl⟩

/-- C4 witness: the amended behaviour at a concrete halted state with a
NOP at PC. -/
theorem c4_witness :
    (CPU.step sC4nop).halted = false ∧ (CPU.step sC4nop).ime = false ∧
    (CPU.step sC4nop).cycles = sC4nop.cycles + 4 ∧
    (CPU.step sC4nop).pc = (sC4nop.pc + 1) % 65536 ∧
    (CPU.step sC4nop).sp = sC4nop.sp :=
  c4_amended sC4nop rfl rfl rfl (by decide) (by decide)

-- ── Claim C9 ─────────────────────────────────────────────────────────
/-- C9: the low nibble of F is zero after reset (F = 0xB0) and every
`CPU.step` preserves the invariant `F % 16 = 0`, over all primary and
CB-prefixed opcodes (including POP AF, DAA, CPL, SCF, CCF), the halted
path and interrupt dispatch. -/
theorem c9_flag_invariant :
    (∀ m : MMU, (CPU.init m).f = 0xB0 ∧ (CPU.init m).f % 16 = 0) ∧
    (∀ s : CPU, s.f % 16 = 0 → s.step.f % 16 = 0) := by
  constructor
  · intro m
    exact ⟨rfl, by show (0xB0 : Nat) % 16 = 0; decide⟩
  · exact step_f

/-- Witness for C9 at the freshly loaded NOP system: F = 0xB0 has zero
low nibble and the invariant propagates through one step. -/
theorem c9_witness :
    (mkSys romNOP).f % 16 = 0 ∧ (CPU.step (mkSys romNOP)).f % 16 = 0 :=
  ⟨by decide, c9_flag_invariant.2 (mkSys romNOP) (by decide)⟩

-- ── Claim C10 ────────────────────────────────────────────────────────
/-- C10: every `CPU.step` adds at least 4 T-cycles to the cycle counter
(halted path, dispatch, every defined opcode and the no-handler default),
so `run_frame`'s loop reaches its target and terminates within 17 556
iterations: extra fuel beyond 17 556 never changes the result, and the
70 224-cycle target is always reached. -/
theorem c10_progress :
    (∀ s : CPU, s.cycles + 4 ≤ s.step.cycles) ∧
    (∀ g : GameBoy, g.totalCyc + CYCLES_PER_FRAME ≤ g.run_frame.totalCyc) ∧
    (∀ (g : GameBoy) (extra : Nat),
        frameLoop (g.totalCyc + CYCLES_PER_FRAME) (17556 + extra) g = g.run_frame) := by
  refine ⟨step_cy_lb, ?_, ?_⟩
  · intro g
    exact frameLoop_lb 17556 _ g (by unfold CYCLES_PER_FRAME; omega)
  · intro g extra
    exact frameLoop_fuel 17556 extra (g.totalCyc + CYCLES_PER_FRAME) g
      (by unfold CYCLES_PER_FRAME; omega)

-- ── Claim C8 ─────────────────────────────────────────────────────────
/-- C8 (counterexample): the concrete ROM `romC8` produces a frame whose
cycle count advances by exactly 70 248 = 70 224 + 24, which is not less
than 70 224 plus the spec's declared maximum instruction cost of 24
(the final step dispatches an interrupt for 20 cycles and then executes
an 8-cycle LD B,d8, 28 cycles in one step). -/
theorem c8_counterexample :
    (GameBoy.run_frame gC8).totalCyc - gC8.totalCyc = 70224 + 24 ∧
    ¬ ((GameBoy.run_frame gC8).totalCyc - gC8.totalCyc < 70224 + 24) := by
  rw [c8run]
  exact ⟨by decide, by decide⟩

/-- C8 (amended): every `run_frame` advances the cumulative cycle count
by at least 70 224 and by strictly less than 70 224 + 44, where 44 is
the true maximum single-step cost (20-cycle dispatch plus a 24-cycle
instruction). -/
theorem c8_amended (g : GameBoy) :
    g.totalCyc + CYCLES_PER_FRAME ≤ g.run_frame.totalCyc ∧
    g.run_frame.totalCyc < g.totalCyc + CYCLES_PER_FRAME + 44 := by
  constructor
  · exact frameLoop_lb 17556 _ g (by unfold CYCLES_PER_FRAME; omega)
  · exact frameLoop_ub 17556 _ g (by omega)

end Emu
